import Mathlib

/-!
# FocusWave analytics: dense daily series and the client reconciler

A shallow embedding of

* `backend/src/routes/analytics.js` (the three aggregation handlers),
* `src/hooks/useAnalytics.js` (`fetchData`, the client-side reconciler),
* `backend/src/routes/tasks.js` (`PUT /tasks/:id`, `DELETE /tasks/:id`, `POST /tasks/reorder`),
* `backend/src/routes/gamification.js` (`POST /award-points`, `PUT /profile`),
* `src/components/dashboard/PointsCard.jsx` (`progress`), and
* `backend/src/routes/ml.js` (three of the proxies of the ML service).

Conventions of the embedding.

* A calendar day is an `Int`: the number of days since 1970-01-01 in the
  proleptic Gregorian calendar.  An instant (the time value of a JavaScript
  `Date`) is an `Int` number of seconds since the epoch, in UTC.
* A time zone is a fixed offset `tz`, in minutes east of UTC.
* A SQL `TIMESTAMP` (without time zone) is an `Int` number of wall-clock
  seconds; `DATE(ts)` is `ts / 86400` (floor division).  Nullable columns are
  `Option`s.
* SQL `numeric` values and finite JavaScript numbers are exact rationals.
* SQL `INTEGER` columns hold `Int`s; where a statement computes a new value of such a
  column, leaving the range of `INTEGER` makes the statement fail.
* A value received as JSON whose type the code does not fix (a numeric field of a fetched
  record, the `points` of a request body) is either a JSON number or a value of another
  type, described by what the code observes of it.
* The analytics handlers are given twice: as functions of the outcomes of their two queries
  (`focusMinutesHandler`, ...), and as routes on a database (`getFocusMinutes`, ...), where
  the query that carries the start of the window is rejected when that start is outside the
  range of dates of the platform.
-/

namespace FocusWave

/-! ## Calendar -/

/-- Gregorian year, month (1..12) and day of month (1..31) of a day number. -/
def civilFromDays (z0 : Int) : Int × Int × Int :=
  let z := z0 + 719468
  let era := z / 146097
  let doe := z - era * 146097
  let yoe := (doe - doe / 1460 + doe / 36524 - doe / 146096) / 365
  let doy := doe - (365 * yoe + yoe / 4 - yoe / 100)
  let mp := (5 * doy + 2) / 153
  let d := doy - (153 * mp + 2) / 5 + 1
  let m := if mp < 10 then mp + 3 else mp - 9
  let y := yoe + era * 400
  (if m ≤ 2 then y + 1 else y, m, d)

/-- Day number of a Gregorian date (inverse of `civilFromDays`). -/
def ymd (y0 m d : Int) : Int :=
  let y := if m ≤ 2 then y0 - 1 else y0
  let era := y / 400
  let yoe := y - era * 400
  let doy := (153 * (if m > 2 then m - 3 else m + 9) + 2) / 5 + d - 1
  let doe := yoe * 365 + yoe / 4 - yoe / 100 + doy
  era * 146097 + doe - 719468

/-- Decimal digit character of `n % 10`. -/
def digitChar (n : Nat) : Char := Char.ofNat (48 + n % 10)

/-- Two-digit, zero-padded rendering. -/
def pad2 (n : Nat) : String := String.mk [digitChar (n / 10), digitChar n]

/-- Four-digit, zero-padded rendering. -/
def pad4 (n : Nat) : String :=
  String.mk [digitChar (n / 1000), digitChar (n / 100), digitChar (n / 10), digitChar n]

/-- Six-digit, zero-padded rendering (expanded years of `toISOString`). -/
def pad6 (n : Nat) : String :=
  String.mk [digitChar (n / 100000), digitChar (n / 10000), digitChar (n / 1000),
    digitChar (n / 100), digitChar (n / 10), digitChar n]

/-- Year part of `Date.prototype.toISOString`. -/
def isoYear (y : Int) : String :=
  if 0 ≤ y ∧ y ≤ 9999 then pad4 y.toNat
  else if y < 0 then "-" ++ pad6 (-y).toNat
  else "+" ++ pad6 y.toNat

/-- The `YYYY-MM-DD` string of a day number. -/
def isoDate (day : Int) : String :=
  let c := civilFromDays day
  isoYear c.1 ++ "-" ++ pad2 c.2.1.toNat ++ "-" ++ pad2 c.2.2.toNat

/-- English short month names, as used by the `en-US` locale. -/
def monthShort (m : Int) : String :=
  ["Jan", "Feb", "Mar", "Apr", "May", "Jun", "Jul", "Aug", "Sep", "Oct", "Nov", "Dec"].getD
    (m - 1).toNat ""

/-- Decimal rendering of a day of month (1..31), without padding. -/
def dayNumeric (d : Nat) : String :=
  if d < 10 then String.mk [digitChar d] else pad2 d

/-- The label `toLocaleDateString('en-US', { month: 'short', day: 'numeric' })` of a day. -/
def shortLabel (day : Int) : String :=
  let c := civilFromDays day
  monthShort c.2.1 ++ " " ++ dayNumeric c.2.2.toNat

/-! ## JavaScript `Date` in a fixed-offset zone -/

/-- Local calendar day of an instant (`getFullYear`/`getMonth`/`getDate`). -/
def localDay (tz : Int) (t : Int) : Int := (t + 60 * tz) / 86400

/-- Instant of local midnight of a local calendar day (`setHours(0, 0, 0, 0)`). -/
def localMidnight (tz : Int) (day : Int) : Int := day * 86400 - 60 * tz

/-- The expression `date.toISOString().split('T')[0]`: the UTC calendar date of an instant. -/
def toISODate (t : Int) : String := isoDate (t / 86400)

/-- The expression `date.toLocaleDateString('en-US', { month: 'short', day: 'numeric' })`. -/
def toLocaleShort (tz : Int) (t : Int) : String := shortLabel (localDay tz t)

/-- The expression `Math.round(x)`: nearest integer, halves towards positive infinity. -/
def mathRound (x : ℚ) : Int := ⌊x + 1 / 2⌋

/-! ## Tables (`backend/src/migrate.js`) -/

/-- A row of `timer_sessions`. -/
structure TimerSession where
  user_id : Nat
  session_type : String
  duration : Int
  completed_at : Option Int
deriving DecidableEq, Repr

/-- A row of `tasks` (the columns the analytics queries read). -/
structure Task where
  user_id : Nat
  status : String
  created_at : Option Int
  updated_at : Option Int
deriving DecidableEq, Repr

/-- A row of `mood_logs`. -/
structure MoodLog where
  user_id : Nat
  mood : String
  created_at : Option Int
deriving DecidableEq, Repr

/-- SQL `DATE(ts)` of a nullable timestamp. -/
def sqlDate (ts : Option Int) : Option Int := ts.map (fun t => t / 86400)

/-- SQL `ts >= d` for a nullable timestamp and a date (the date is cast to its midnight);
a null comparison is not true. -/
def tsGeDate (ts : Option Int) (d : Int) : Bool :=
  match ts with
  | some t => decide (d * 86400 ≤ t)
  | none => false

/-- SQL `ts >= p` for a nullable timestamp and a timestamp parameter. -/
def tsGe (ts : Option Int) (p : Int) : Bool :=
  match ts with
  | some t => decide (p ≤ t)
  | none => false

/-! ## Request preamble shared by the three handlers -/

/-- The expression `parseInt(req.query.days) || 7`; `none` is `NaN`. -/
def resolveDays (parsed : Option Int) : Int :=
  match parsed with
  | none => 7
  | some n => if n = 0 then 7 else n

/-- The `startDate` of a handler: `new Date()`, then `setDate(getDate() - (days - 1))`,
then `setHours(0, 0, 0, 0)`, in the zone `tz` of the Node process.  This is the instant when
it is a time value of a `Date`; `startValid` tells whether it is one, and `startAccepted`
whether the database accepts the parameter built from it. -/
def startDate (tz now days : Int) : Int :=
  localMidnight tz (localDay tz now - (days - 1))

/-- The wall-clock timestamp that node-postgres sends for a `Date` parameter: the local
date and time of the instant (the UTC offset it appends is ignored by `timestamp` and
`date` input). -/
def pgParam (tz t : Int) : Int := t + 60 * tz

/-- The `Date` that node-postgres builds for a `date` column: local midnight of that day. -/
def pgDate (tz day : Int) : Int := localMidnight tz day

/-- SQL `generate_series(a::date, b, '1 day')`. -/
def dateSeries (a b : Int) : List Int :=
  (List.range (b + 1 - a).toNat).map (fun (i : Nat) => a + (i : Int))

/-! ## `GET /analytics/focus-minutes` -/

/-- Rows of `timer_sessions` that the CTE `session_data` puts in the group of day `d`. -/
def sessionGroup (sessions : List TimerSession) (uid : Nat) (p2 d : Int) : List TimerSession :=
  sessions.filter (fun s =>
    decide (s.user_id = uid) && decide (s.session_type = "work") &&
      tsGeDate s.completed_at p2 && decide (sqlDate s.completed_at = some d))

/-- The CTE `session_data`: `SUM(duration) / 60.0` of the group of day `d`, when it has a row. -/
def sessionData (sessions : List TimerSession) (uid : Nat) (p2 d : Int) : Option ℚ :=
  match sessionGroup sessions uid p2 d with
  | [] => none
  | g => some (((g.map (fun s => s.duration)).sum : Int) / 60)

/-- Result rows of the focus-minutes query: `date_series` left-joined with `session_data`,
`COALESCE(sd.minutes, 0)`, ordered by date.  `p2` is the parameter `$2` as a date. -/
def focusRows (sessions : List TimerSession) (uid : Nat) (p2 currentDate : Int) :
    List (Int × ℚ) :=
  (dateSeries p2 currentDate).map (fun d => (d, (sessionData sessions uid p2 d).getD 0))

/-- An element of the focus-minutes response. -/
structure FocusRecord where
  date : String
  minutes : Int
deriving DecidableEq, Repr

/-- The `filledData` of focus-minutes: one record for each result row. -/
def focusFilled (tz : Int) (rows : List (Int × ℚ)) : List FocusRecord :=
  rows.map (fun row =>
    { date := toISODate (pgDate tz row.1), minutes := mathRound row.2 })

/-- The success path of the focus-minutes handler.  `tz` and `now` are the zone and clock of
the Node process, `currentDate` is `CURRENT_DATE` of the database session. -/
def focusMinutes (tz now currentDate : Int) (parsed : Option Int) (uid : Nat)
    (sessions : List TimerSession) : List FocusRecord :=
  let days := resolveDays parsed
  let start := startDate tz now days
  focusFilled tz (focusRows sessions uid (pgParam tz start / 86400) currentDate)

/-! ## `GET /analytics/task-throughput` -/

/-- The CTE `created_tasks`: `COUNT(*)` of the group of day `d`. -/
def createdCount (tasks : List Task) (uid : Nat) (p2 d : Int) : Nat :=
  (tasks.filter (fun t =>
    decide (t.user_id = uid) && tsGeDate t.created_at p2 &&
      decide (sqlDate t.created_at = some d))).length

/-- The CTE `completed_tasks`: `COUNT(*)` of the group of day `d`. -/
def completedCount (tasks : List Task) (uid : Nat) (p2 d : Int) : Nat :=
  (tasks.filter (fun t =>
    decide (t.user_id = uid) && decide (t.status = "completed") &&
      tsGeDate t.updated_at p2 && decide (sqlDate t.updated_at = some d))).length

/-- Result rows of the task-throughput query: `(date, created, completed)`; a day without
a group has a null count, and `COALESCE(_, 0)` is the count of its empty group. -/
def taskRows (tasks : List Task) (uid : Nat) (p2 currentDate : Int) : List (Int × Nat × Nat) :=
  (dateSeries p2 currentDate).map (fun d =>
    (d, createdCount tasks uid p2 d, completedCount tasks uid p2 d))

/-- An element of the task-throughput response. -/
structure TaskRecord where
  date : String
  created : Int
  completed : Int
deriving DecidableEq, Repr

/-- The `filledData` of task-throughput (`parseInt(n) || 0` of a count is the count). -/
def taskFilled (tz : Int) (rows : List (Int × Nat × Nat)) : List TaskRecord :=
  rows.map (fun row =>
    { date := toISODate (pgDate tz row.1), created := (row.2.1 : Int),
      completed := (row.2.2 : Int) })

/-- The success path of the task-throughput handler. -/
def taskThroughput (tz now currentDate : Int) (parsed : Option Int) (uid : Nat)
    (tasks : List Task) : List TaskRecord :=
  let days := resolveDays parsed
  let start := startDate tz now days
  taskFilled tz (taskRows tasks uid (pgParam tz start / 86400) currentDate)

/-! ## `GET /analytics/mood-focus` -/

/-- The `WHERE` clause of the mood-focus query: `ml.user_id = $1 AND ml.created_at >= $2`. -/
def moodInWindow (uid : Nat) (p2 : Int) (ml : MoodLog) : Bool :=
  decide (ml.user_id = uid) && tsGe ml.created_at p2

/-- The `ON` clause of the join of a mood log with a timer session. -/
def moodJoinOn (ml : MoodLog) (ts : TimerSession) : Bool :=
  (sqlDate ts.completed_at).isSome && decide (sqlDate ml.created_at = sqlDate ts.completed_at) &&
    decide (ts.user_id = ml.user_id) && decide (ts.session_type = "work")

/-- The non-null values `ts.duration / 60.0` of the joined rows in the group of label `l`:
one value for each pair of a mood log of the group and a session joined to it. -/
def moodJoin (moods : List MoodLog) (sessions : List TimerSession) (uid : Nat) (p2 : Int)
    (l : String) : List ℚ :=
  (moods.filter (fun ml => moodInWindow uid p2 ml && decide (ml.mood = l))).flatMap (fun ml =>
    (sessions.filter (fun ts => moodJoinOn ml ts)).map (fun ts => (ts.duration : ℚ) / 60))

/-- SQL `AVG` over the non-null values of a group: null when there is none. -/
def sqlAvg (xs : List ℚ) : Option ℚ :=
  match xs with
  | [] => none
  | _ => some (xs.sum / (xs.length : ℚ))

/-- The labels of the groups of `GROUP BY ml.mood`, in the order of `ORDER BY ml.mood`
(strings compared by code points, as under the `C` collation). -/
def moodLabels (moods : List MoodLog) (uid : Nat) (p2 : Int) : List String :=
  (((moods.filter (moodInWindow uid p2)).map (fun ml => ml.mood)).dedup).insertionSort
    (fun a b => a ≤ b)

/-- Result rows of the mood-focus query: `(mood, COALESCE(AVG(ts.duration / 60.0), 0))`. -/
def moodRows (moods : List MoodLog) (sessions : List TimerSession) (uid : Nat) (p2 : Int) :
    List (String × ℚ) :=
  (moodLabels moods uid p2).map (fun l => (l, (sqlAvg (moodJoin moods sessions uid p2 l)).getD 0))

/-- An element of the mood-focus response. -/
structure MoodRecord where
  mood : String
  focusMinutes : Int
deriving DecidableEq, Repr

/-- The `data` of mood-focus: one record for each result row. -/
def moodData (rows : List (String × ℚ)) : List MoodRecord :=
  rows.map (fun row => { mood := row.1, focusMinutes := mathRound row.2 })

/-- The success path of the mood-focus handler (`$2` is a timestamp here). -/
def moodFocus (tz now : Int) (parsed : Option Int) (uid : Nat) (moods : List MoodLog)
    (sessions : List TimerSession) : List MoodRecord :=
  let days := resolveDays parsed
  let start := startDate tz now days
  moodData (moodRows moods sessions uid (pgParam tz start))

/-! ## The client reconciler (`src/hooks/useAnalytics.js`)

Values fetched from the network are modelled as follows.  An array element is an `Option`:
`none` is a falsy element (such as `null`); an element that is truthy but not an object has
no fields, like a record whose fields are all absent.  A `date` field is an `Option String`:
`none` is an absent or falsy field, or a value that is not a string (such a value either
makes `formatDate` return `null` or is stored under a key that is no string, and no date key
is ever looked up under it), and the empty string is falsy as well.  A numeric field is an
`Option JsField`: `none` is an absent field, a JSON number is the rational it denotes, and a
value of another type is given by what `parseFloat` and `parseInt` read from it.  A `mood`
field is a `JsMood`. -/

/-- A number that is not `NaN`: a finite number, or an infinity. -/
inductive JsReal where
  | fin (q : ℚ)
  | posInf
  | negInf
deriving DecidableEq, Repr

/-- An integral number, as `Math.round` yields it: an integer, or an infinity. -/
inductive JsInteger where
  | fin (n : Int)
  | posInf
  | negInf
deriving DecidableEq, Repr

instance (n : Nat) : OfNat JsInteger n := ⟨JsInteger.fin n⟩

/-- A numeric field of a fetched record, when the field is present: a finite JSON number,
which is the rational it denotes (binary floating point is not modelled), or a value of
another type (a string, a boolean, `null`, an array, an object), given by the number that
`parseFloat` reads from it and the integer that `parseInt` reads from it, `none` being `NaN`.
A literal such as `30` is the JSON number 30. -/
inductive JsField where
  | num (q : ℚ)
  | other (asFloat : Option JsReal) (asInt : Option Int)
deriving DecidableEq, Repr

instance (n : Nat) : OfNat JsField n := ⟨JsField.num n⟩

/-- Outcome of one promise of `Promise.allSettled`, with the `Array.isArray` test applied to
a fulfilled value. -/
inductive Settled (α : Type) where
  | fulfilled (value : List α)
  | fulfilledNonArray
  | rejected
deriving Repr

/-- A `mood` field: absent or falsy, a string, or a truthy value that is not a string (on
which `charAt` is not a function). -/
inductive JsMood where
  | absent
  | text (s : String)
  | other
deriving DecidableEq, Repr

/-- A fetched focus-minutes record. -/
structure FocusItem where
  date : Option String
  minutes : Option JsField
deriving DecidableEq, Repr

/-- A fetched task-throughput record. -/
structure TaskItem where
  date : Option String
  created : Option JsField
  completed : Option JsField
deriving DecidableEq, Repr

/-- A fetched mood-focus record. -/
structure MoodItem where
  mood : JsMood
  focusMinutes : Option JsField
deriving DecidableEq, Repr

/-- The expression `parseFloat(v)` on a numeric field; `none` is `NaN`.  The string form of
a finite number is read back as that number, and an absent field is `undefined`. -/
def fieldParseFloat (v : Option JsField) : Option JsReal :=
  match v with
  | some (.num q) => some (.fin q)
  | some (.other f _) => f
  | none => none

/-- The expression `parseFloat(v) || 0` on a numeric field: `NaN` and 0 are falsy. -/
def parseFloatOr0 (v : Option JsField) : JsReal := (fieldParseFloat v).getD (.fin 0)

/-- The expression `Math.round(x)` on a number that is not `NaN`; an infinity is itself. -/
def roundReal (x : JsReal) : JsInteger :=
  match x with
  | .fin q => .fin (mathRound q)
  | .posInf => .posInf
  | .negInf => .negInf

/-- First decimal digit of a natural number (the number itself below 10). -/
def firstDigitAux (fuel n : Nat) : Nat :=
  match fuel with
  | 0 => n
  | fuel + 1 => if n < 10 then n else firstDigitAux fuel (n / 10)

/-- First significant decimal digit of the fraction `a / b`, for `0 < a < b`. -/
def firstFractionDigitAux (fuel a b : Nat) : Nat :=
  match fuel with
  | 0 => a / b
  | fuel + 1 => if b ≤ a then a / b else firstFractionDigitAux fuel (a * 10) b

/-- The expression `parseInt(x)` on a finite number `x`, which is first converted to a
string.  From 1e-6 to 1e21 in magnitude the string is in decimal notation and the integer
part is read: the number truncated towards zero.  Outside (and apart from 0) the string is in
exponent notation, `d.ddde+21` or `de-7`, and only the digit `d` before the point is read,
with the sign; `d` is taken here to be the first significant digit of `x` itself.  The
magnitude of `x` is `x.num.natAbs / x.den`, and the comparisons are made on these naturals. -/
def parseIntNumber (q : ℚ) : Int :=
  if q.num = 0 then 0
  else if q.den ≤ 1000000 * q.num.natAbs ∧ q.num.natAbs < 1000000000000000000000 * q.den then
    Int.tdiv q.num q.den
  else if 1000000000000000000000 * q.den ≤ q.num.natAbs then
    q.num.sign * (firstDigitAux (q.num.natAbs / q.den) (q.num.natAbs / q.den) : Nat)
  else q.num.sign * (firstFractionDigitAux q.den q.num.natAbs q.den : Nat)

/-- The expression `parseInt(v)` on a numeric field; `none` is `NaN`. -/
def fieldParseInt (v : Option JsField) : Option Int :=
  match v with
  | some (.num q) => some (parseIntNumber q)
  | some (.other _ i) => i
  | none => none

/-- The expression `parseInt(v) || 0` on a numeric field: `NaN` and 0 are falsy. -/
def parseIntOr0 (v : Option JsField) : Int := (fieldParseInt v).getD 0

/-- Truthiness of a `date` field. -/
def truthyDate (d : Option String) : Option String :=
  match d with
  | some k => if k = "" then none else some k
  | none => none

/-- `Map.prototype.set` on a map kept as its list of entries in insertion order. -/
def mapSet {β : Type} (m : List (String × β)) (k : String) (v : β) : List (String × β) :=
  if m.any (fun p => p.1 == k) then m.map (fun p => if p.1 == k then (k, v) else p)
  else m ++ [(k, v)]

/-- `Map.prototype.get`. -/
def mapGet {β : Type} (m : List (String × β)) (k : String) : Option β :=
  (m.find? (fun p => p.1 == k)).map (fun p => p.2)

/-- The loop `value.forEach(item => { if (item && item.date) { ... } })` that fills
`focusMap` and `taskMap`: every truthy element with a truthy `date` is stored under that
date (`formatDate` returns an object for every string, so its test never fails); `entry`
computes the fields of the stored object that are read afterwards. -/
def collectByDate {α β : Type} (date : α → Option String) (entry : α → β)
    (value : List (Option α)) : List (String × β) :=
  value.foldl (fun m item =>
    match item with
    | some it =>
      match truthyDate (date it) with
      | some k => mapSet m k (entry it)
      | none => m
    | none => m) []

/-- The `focusMap` of `fetchData`; of each stored entry only `minutes` is ever read. -/
def focusMap (focusResult : Settled (Option FocusItem)) : List (String × JsInteger) :=
  match focusResult with
  | .fulfilled value =>
    collectByDate (fun it => it.date) (fun it => roundReal (parseFloatOr0 it.minutes)) value
  | _ => []

/-- The `taskMap` of `fetchData`; of each stored entry only `created` and `completed` are
ever read. -/
def taskMap (tasksResult : Settled (Option TaskItem)) : List (String × Int × Int) :=
  match tasksResult with
  | .fulfilled value =>
    collectByDate (fun it => it.date)
      (fun it => (parseIntOr0 it.created, parseIntOr0 it.completed)) value
  | _ => []

/-- An element of `moodData`. -/
structure MoodPoint where
  mood : String
  focusMinutes : JsInteger
deriving DecidableEq, Repr

/-- The simple upper-case mappings of the Basic Multilingual Plane (Unicode 14), as runs
`(first, last, step, delta)`: a code point `c` with `first ≤ c ≤ last` and `c - first` a
multiple of `step` has the upper case `c + delta`. -/
def upperRuns : List (Nat × Nat × Nat × Int) :=
  [
   (97, 122, 1, -32), (181, 181, 1, 743), (224, 246, 1, -32), (248, 254, 1, -32),
   (255, 255, 1, 121), (257, 303, 2, -1), (305, 305, 1, -232), (307, 311, 2, -1),
   (314, 328, 2, -1), (331, 375, 2, -1), (378, 382, 2, -1), (383, 383, 1, -300),
   (384, 384, 1, 195), (387, 389, 2, -1), (392, 392, 1, -1), (396, 396, 1, -1), (402, 402, 1, -1),
   (405, 405, 1, 97), (409, 409, 1, -1), (410, 410, 1, 163), (414, 414, 1, 130),
   (417, 421, 2, -1), (424, 424, 1, -1), (429, 429, 1, -1), (432, 432, 1, -1), (436, 438, 2, -1),
   (441, 441, 1, -1), (445, 445, 1, -1), (447, 447, 1, 56), (453, 453, 1, -1), (454, 454, 1, -2),
   (456, 456, 1, -1), (457, 457, 1, -2), (459, 459, 1, -1), (460, 460, 1, -2), (462, 476, 2, -1),
   (477, 477, 1, -79), (479, 495, 2, -1), (498, 498, 1, -1), (499, 499, 1, -2), (501, 501, 1, -1),
   (505, 543, 2, -1), (547, 563, 2, -1), (572, 572, 1, -1), (575, 576, 1, 10815),
   (578, 578, 1, -1), (583, 591, 2, -1), (592, 592, 1, 10783), (593, 593, 1, 10780),
   (594, 594, 1, 10782), (595, 595, 1, -210), (596, 596, 1, -206), (598, 599, 1, -205),
   (601, 601, 1, -202), (603, 603, 1, -203), (604, 604, 1, 42319), (608, 608, 1, -205),
   (609, 609, 1, 42315), (611, 611, 1, -207), (613, 613, 1, 42280), (614, 614, 1, 42308),
   (616, 616, 1, -209), (617, 617, 1, -211), (618, 618, 1, 42308), (619, 619, 1, 10743),
   (620, 620, 1, 42305), (623, 623, 1, -211), (625, 625, 1, 10749), (626, 626, 1, -213),
   (629, 629, 1, -214), (637, 637, 1, 10727), (640, 640, 1, -218), (642, 642, 1, 42307),
   (643, 643, 1, -218), (647, 647, 1, 42282), (648, 648, 1, -218), (649, 649, 1, -69),
   (650, 651, 1, -217), (652, 652, 1, -71), (658, 658, 1, -219), (669, 669, 1, 42261),
   (670, 670, 1, 42258), (837, 837, 1, 84), (881, 883, 2, -1), (887, 887, 1, -1),
   (891, 893, 1, 130), (940, 940, 1, -38), (941, 943, 1, -37), (945, 961, 1, -32),
   (962, 962, 1, -31), (963, 971, 1, -32), (972, 972, 1, -64), (973, 974, 1, -63),
   (976, 976, 1, -62), (977, 977, 1, -57), (981, 981, 1, -47), (982, 982, 1, -54),
   (983, 983, 1, -8), (985, 1007, 2, -1), (1008, 1008, 1, -86), (1009, 1009, 1, -80),
   (1010, 1010, 1, 7), (1011, 1011, 1, -116), (1013, 1013, 1, -96), (1016, 1016, 1, -1),
   (1019, 1019, 1, -1), (1072, 1103, 1, -32), (1104, 1119, 1, -80), (1121, 1153, 2, -1),
   (1163, 1215, 2, -1), (1218, 1230, 2, -1), (1231, 1231, 1, -15), (1233, 1327, 2, -1),
   (1377, 1414, 1, -48), (4304, 4346, 1, 3008), (4349, 4351, 1, 3008), (5112, 5117, 1, -8),
   (7296, 7296, 1, -6254), (7297, 7297, 1, -6253), (7298, 7298, 1, -6244), (7299, 7300, 1, -6242),
   (7301, 7301, 1, -6243), (7302, 7302, 1, -6236), (7303, 7303, 1, -6181), (7304, 7304, 1, 35266),
   (7545, 7545, 1, 35332), (7549, 7549, 1, 3814), (7566, 7566, 1, 35384), (7681, 7829, 2, -1),
   (7835, 7835, 1, -59), (7841, 7935, 2, -1), (7936, 7943, 1, 8), (7952, 7957, 1, 8),
   (7968, 7975, 1, 8), (7984, 7991, 1, 8), (8000, 8005, 1, 8), (8017, 8023, 2, 8),
   (8032, 8039, 1, 8), (8048, 8049, 1, 74), (8050, 8053, 1, 86), (8054, 8055, 1, 100),
   (8056, 8057, 1, 128), (8058, 8059, 1, 112), (8060, 8061, 1, 126), (8112, 8113, 1, 8),
   (8126, 8126, 1, -7205), (8144, 8145, 1, 8), (8160, 8161, 1, 8), (8165, 8165, 1, 7),
   (8526, 8526, 1, -28), (8560, 8575, 1, -16), (8580, 8580, 1, -1), (9424, 9449, 1, -26),
   (11312, 11359, 1, -48), (11361, 11361, 1, -1), (11365, 11365, 1, -10795),
   (11366, 11366, 1, -10792), (11368, 11372, 2, -1), (11379, 11379, 1, -1), (11382, 11382, 1, -1),
   (11393, 11491, 2, -1), (11500, 11502, 2, -1), (11507, 11507, 1, -1), (11520, 11557, 1, -7264),
   (11559, 11559, 1, -7264), (11565, 11565, 1, -7264), (42561, 42605, 2, -1),
   (42625, 42651, 2, -1), (42787, 42799, 2, -1), (42803, 42863, 2, -1), (42874, 42876, 2, -1),
   (42879, 42887, 2, -1), (42892, 42892, 1, -1), (42897, 42899, 2, -1), (42900, 42900, 1, 48),
   (42903, 42921, 2, -1), (42933, 42947, 2, -1), (42952, 42954, 2, -1), (42961, 42961, 1, -1),
   (42967, 42969, 2, -1), (42998, 42998, 1, -1), (43859, 43859, 1, -928),
   (43888, 43967, 1, -38864), (65345, 65370, 1, -32)]

/-- The letters of the Basic Multilingual Plane whose upper case is more than one character
(`SpecialCasing.txt`, the unconditional mappings, Unicode 14), each with its upper case. -/
def upperSpecial : List (Nat × List Nat) :=
  [
   (223, [83, 83]), (329, [700, 78]), (496, [74, 780]), (912, [921, 776, 769]),
   (944, [933, 776, 769]), (1415, [1333, 1362]), (7830, [72, 817]), (7831, [84, 776]),
   (7832, [87, 778]), (7833, [89, 778]), (7834, [65, 702]), (8016, [933, 787]),
   (8018, [933, 787, 768]), (8020, [933, 787, 769]), (8022, [933, 787, 834]), (8064, [7944, 921]),
   (8065, [7945, 921]), (8066, [7946, 921]), (8067, [7947, 921]), (8068, [7948, 921]),
   (8069, [7949, 921]), (8070, [7950, 921]), (8071, [7951, 921]), (8072, [7944, 921]),
   (8073, [7945, 921]), (8074, [7946, 921]), (8075, [7947, 921]), (8076, [7948, 921]),
   (8077, [7949, 921]), (8078, [7950, 921]), (8079, [7951, 921]), (8080, [7976, 921]),
   (8081, [7977, 921]), (8082, [7978, 921]), (8083, [7979, 921]), (8084, [7980, 921]),
   (8085, [7981, 921]), (8086, [7982, 921]), (8087, [7983, 921]), (8088, [7976, 921]),
   (8089, [7977, 921]), (8090, [7978, 921]), (8091, [7979, 921]), (8092, [7980, 921]),
   (8093, [7981, 921]), (8094, [7982, 921]), (8095, [7983, 921]), (8096, [8040, 921]),
   (8097, [8041, 921]), (8098, [8042, 921]), (8099, [8043, 921]), (8100, [8044, 921]),
   (8101, [8045, 921]), (8102, [8046, 921]), (8103, [8047, 921]), (8104, [8040, 921]),
   (8105, [8041, 921]), (8106, [8042, 921]), (8107, [8043, 921]), (8108, [8044, 921]),
   (8109, [8045, 921]), (8110, [8046, 921]), (8111, [8047, 921]), (8114, [8122, 921]),
   (8115, [913, 921]), (8116, [902, 921]), (8118, [913, 834]), (8119, [913, 834, 921]),
   (8124, [913, 921]), (8130, [8138, 921]), (8131, [919, 921]), (8132, [905, 921]),
   (8134, [919, 834]), (8135, [919, 834, 921]), (8140, [919, 921]), (8146, [921, 776, 768]),
   (8147, [921, 776, 769]), (8150, [921, 834]), (8151, [921, 776, 834]), (8162, [933, 776, 768]),
   (8163, [933, 776, 769]), (8164, [929, 787]), (8166, [933, 834]), (8167, [933, 776, 834]),
   (8178, [8186, 921]), (8179, [937, 921]), (8180, [911, 921]), (8182, [937, 834]),
   (8183, [937, 834, 921]), (8188, [937, 921]), (64256, [70, 70]), (64257, [70, 73]),
   (64258, [70, 76]), (64259, [70, 70, 73]), (64260, [70, 70, 76]), (64261, [83, 84]),
   (64262, [83, 84]), (64275, [1348, 1350]), (64276, [1348, 1333]), (64277, [1348, 1339]),
   (64278, [1358, 1350]), (64279, [1348, 1341])]

/-- The expression `c.toUpperCase()` on a string of one UTF-16 code unit, the character `c`
(Unicode default case conversion, independent of the locale). -/
def toUpperCase (c : Char) : List Char :=
  match upperSpecial.find? (fun e => e.1 == c.toNat) with
  | some e => e.2.map Char.ofNat
  | none =>
    match upperRuns.find? (fun r =>
      decide (r.1 ≤ c.toNat) && decide (c.toNat ≤ r.2.1) &&
        decide ((c.toNat - r.1) % r.2.2.1 = 0)) with
    | some r => [Char.ofNat ((c.toNat : Int) + r.2.2.2).toNat]
    | none => [c]

/-- The expression `s.charAt(0).toUpperCase() + s.slice(1)`.  `charAt(0)` is the first UTF-16
code unit: when the first character is outside the Basic Multilingual Plane it is a lone
surrogate, which `toUpperCase` leaves as it is, and the string is unchanged. -/
def capitalize (s : String) : String :=
  match s.data with
  | [] => ""
  | c :: cs => if 65536 ≤ c.toNat then s else String.mk (toUpperCase c ++ cs)

/-- The filter `item => item && item.mood`. -/
def moodKept (item : Option MoodItem) : Bool :=
  match item with
  | some it =>
    match it.mood with
    | .absent => false
    | .text s => decide (s ≠ "")
    | .other => true
  | none => false

/-- The callback of `.map` on a kept mood record; `none` when it throws a `TypeError`. -/
def moodMapped (item : Option MoodItem) : Option MoodPoint :=
  match item with
  | some it =>
    match it.mood with
    | .text s =>
      some { mood := capitalize s, focusMinutes := roundReal (parseFloatOr0 it.focusMinutes) }
    | _ => none
  | none => none

/-- The first assignment of `formattedMood`; `none` when the `.map` throws. -/
def formattedMood (moodResult : Settled (Option MoodItem)) : Option (List MoodPoint) :=
  match moodResult with
  | .fulfilled value => (value.filter moodKept).mapM moodMapped
  | _ => some []

/-- The sentinel substituted for an empty `formattedMood`. -/
def moodSentinel : MoodPoint := { mood := "No mood data yet", focusMinutes := 0 }

/-- The statement `if (formattedMood.length === 0) formattedMood = [sentinel]`. -/
def orSentinel (mood : List MoodPoint) : List MoodPoint :=
  match mood with
  | [] => [moodSentinel]
  | _ => mood

/-- An element of `last7Days` (its `dateObj` is never read). -/
structure Day where
  date : String
  dateKey : String
  isToday : Bool
deriving DecidableEq, Repr

/-- The loop that builds `last7Days`; `today` is the instant of local midnight. -/
def last7Days (tz today : Int) : List Day :=
  [6, 5, 4, 3, 2, 1, 0].map (fun i =>
    let date := localMidnight tz (localDay tz today - i)
    { date := toLocaleShort tz date, dateKey := toISODate date, isToday := decide (date = today) })

/-- An element of `focusData`. -/
structure FocusPoint where
  date : String
  minutes : JsInteger
  isToday : Bool
deriving DecidableEq, Repr

/-- An element of `taskData`. -/
structure TaskPoint where
  date : String
  created : Int
  completed : Int
  isToday : Bool
deriving DecidableEq, Repr

/-- The array `finalFocusData`. -/
def finalFocusData (days : List Day) (m : List (String × JsInteger)) : List FocusPoint :=
  days.map (fun day =>
    match mapGet m day.dateKey with
    | some minutes => { date := day.date, minutes := minutes, isToday := day.isToday }
    | none => { date := day.date, minutes := 0, isToday := day.isToday })

/-- The array `finalTaskData`. -/
def finalTaskData (days : List Day) (m : List (String × Int × Int)) : List TaskPoint :=
  days.map (fun day =>
    match mapGet m day.dateKey with
    | some real =>
      { date := day.date, created := real.1, completed := real.2, isToday := day.isToday }
    | none => { date := day.date, created := 0, completed := 0, isToday := day.isToday })

/-- The display state set by `fetchData`. -/
structure AnalyticsState where
  focusData : List FocusPoint
  moodData : List MoodPoint
  taskData : List TaskPoint
  loading : Bool
deriving DecidableEq, Repr

/-- The loop of the `catch` block that builds `emptyDays`, as `(date, isToday)` pairs. -/
def emptyDays (tz today : Int) : List (String × Bool) :=
  [6, 5, 4, 3, 2, 1, 0].map (fun i =>
    let date := localMidnight tz (localDay tz today - i)
    (toLocaleShort tz date, decide (date = today)))

/-- The function `fetchData`, from the settled results to the state it leaves.  `tz` and
`now` are the zone and clock of the browser.  The `try` block throws exactly when the
`.map` over the mood records does, and then the `catch` block sets the state. -/
def fetchData (tz now : Int) (focusResult : Settled (Option FocusItem))
    (moodResult : Settled (Option MoodItem)) (tasksResult : Settled (Option TaskItem)) :
    AnalyticsState :=
  let today := localMidnight tz (localDay tz now)
  match formattedMood moodResult with
  | some mood =>
    { focusData := finalFocusData (last7Days tz today) (focusMap focusResult)
      moodData := orSentinel mood
      taskData := finalTaskData (last7Days tz today) (taskMap tasksResult)
      loading := false }
  | none =>
    { focusData := (emptyDays tz today).map (fun d =>
        { date := d.1, minutes := 0, isToday := d.2 })
      moodData := [{ mood := "No data available", focusMinutes := 0 }]
      taskData := (emptyDays tz today).map (fun d =>
        { date := d.1, created := 0, completed := 0, isToday := d.2 })
      loading := false }

/-! ## The handlers with the outcomes of their queries -/

/-- White space of `parseInt` and `parseFloat` (`StrWhiteSpaceChar`): TAB, VT, FF, SP, NBSP,
the other space separators of Unicode (U+1680, U+2000 to U+200A, U+202F, U+205F, U+3000),
the byte order mark U+FEFF, and the line terminators LF, CR, U+2028 and U+2029. -/
def jsWhiteSpace (c : Char) : Bool :=
  c.toNat = 9 || c.toNat = 10 || c.toNat = 11 || c.toNat = 12 || c.toNat = 13 ||
    c.toNat = 32 || c.toNat = 160 || c.toNat = 5760 || (8192 ≤ c.toNat && c.toNat ≤ 8202) ||
    c.toNat = 8232 || c.toNat = 8233 || c.toNat = 8239 || c.toNat = 8287 ||
    c.toNat = 12288 || c.toNat = 65279

/-- The expression `parseInt(s)` on a string, in radix 10 or, after a `0x` prefix, 16:
leading white space is skipped, an optional sign is read, then the longest run of digits;
`none` is `NaN` (no digit was read). -/
def jsParseInt (s : String) : Option Int :=
  let cs := s.data.dropWhile jsWhiteSpace
  let neg := decide (cs.head? = some '-')
  let body := if cs.head? = some '-' ∨ cs.head? = some '+' then cs.tail else cs
  let hexDigit := fun (c : Char) =>
    c.isDigit || ('a'.toNat ≤ c.toNat && c.toNat ≤ 'f'.toNat) ||
      ('A'.toNat ≤ c.toNat && c.toNat ≤ 'F'.toNat)
  let hexValue := fun (c : Char) =>
    if c.isDigit then c.toNat - '0'.toNat
    else if 'a'.toNat ≤ c.toNat then c.toNat - 'a'.toNat + 10
    else c.toNat - 'A'.toNat + 10
  let hex := decide (body.take 2 = ['0', 'x'] ∨ body.take 2 = ['0', 'X'])
  let digits :=
    if hex then (body.drop 2).takeWhile hexDigit else body.takeWhile (fun c => c.isDigit)
  let value := digits.foldl (fun n c => n * (if hex then 16 else 10) + hexValue c) 0
  if digits = [] then none
  else some (if neg then -(value : Int) else (value : Int))

/-- The value `parseInt(req.query.days)`: `q` is the string form of the parameter (the string
itself; for a repeated parameter, which the query parser turns into an array, its elements
joined by commas), and `none` is an absent parameter, `undefined`, which parses to `NaN`. -/
def queryDays (q : Option String) : Option Int :=
  match q with
  | some s => jsParseInt s
  | none => none

/-- The database as one query of a handler finds it. -/
structure Store where
  sessions : List TimerSession
  tasks : List Task
  moods : List MoodLog
  currentDate : Int
deriving Repr

/-- The response of an analytics handler: `res.json(rows)`, or
`res.status(500).json({ message: 'Server error' })`. -/
inductive Response (α : Type) where
  | json (rows : List α)
  | serverError
deriving Repr

/-- HTTP status of a response. -/
def Response.status {α : Type} (r : Response α) : Nat :=
  match r with
  | .json _ => 200
  | .serverError => 500

/-- The `message` of the body of a response, when its body is an object. -/
def Response.message {α : Type} (r : Response α) : Option String :=
  match r with
  | .json _ => none
  | .serverError => some "Server error"

/-- The data rows that a response carries. -/
def Response.rows {α : Type} (r : Response α) : List α :=
  match r with
  | .json rows => rows
  | .serverError => []

/-- The handler of `GET /analytics/focus-minutes`.  It awaits two queries in turn, inside one
`try`: `sessionCheck` and `result` are their outcomes, `none` when the query is rejected. -/
def focusMinutesHandler (tz now : Int) (q : Option String) (uid : Nat)
    (sessionCheck result : Option Store) : Response FocusRecord :=
  match sessionCheck with
  | none => .serverError
  | some _ =>
    match result with
    | none => .serverError
    | some db => .json (focusMinutes tz now db.currentDate (queryDays q) uid db.sessions)

/-- The handler of `GET /analytics/mood-focus`, with the outcomes of its two queries. -/
def moodFocusHandler (tz now : Int) (q : Option String) (uid : Nat)
    (moodCheck result : Option Store) : Response MoodRecord :=
  match moodCheck with
  | none => .serverError
  | some _ =>
    match result with
    | none => .serverError
    | some db => .json (moodFocus tz now (queryDays q) uid db.moods db.sessions)

/-- The handler of `GET /analytics/task-throughput`, with the outcomes of its two queries. -/
def taskThroughputHandler (tz now : Int) (q : Option String) (uid : Nat)
    (taskCheck result : Option Store) : Response TaskRecord :=
  match taskCheck with
  | none => .serverError
  | some _ =>
    match result with
    | none => .serverError
    | some db => .json (taskThroughput tz now db.currentDate (queryDays q) uid db.tasks)

/-! ## The handlers with the range of dates of the platform

The `startDate` of a handler is a JavaScript `Date`, whose time value is at most 8.64e15
milliseconds from the epoch on either side, and the parameter built from it is read by
PostgreSQL as a `date` or a `timestamp`, whose first day is 4714-11-24 BC.  A query whose
parameter is outside these ranges is rejected. -/

/-- Whether an instant, in seconds, is a time value of a JavaScript `Date` (`TimeClip`). -/
def jsTimeValue (t : Int) : Bool := decide (-8640000000000 ≤ t) && decide (t ≤ 8640000000000)

/-- Whether the `startDate` of a handler is a valid `Date`: both `setDate`, which keeps the
time of day of the request, and `setHours` must yield a time value; otherwise the `Date` is
invalid, and it stays so. -/
def startValid (tz now days : Int) : Bool :=
  jsTimeValue (now - (days - 1) * 86400) && jsTimeValue (startDate tz now days)

/-- First day of the range of the types `date` and `timestamp` of PostgreSQL: 4714-11-24 BC,
the year -4713 of the proleptic Gregorian calendar. -/
def pgFirstDay : Int := ymd (-4713) 11 24

/-- Whether the database accepts the parameter `$2` that a handler builds for `days`: the
`startDate` is a valid `Date` and its local calendar day is in the range of PostgreSQL (the
end of that range is beyond the last valid `Date`). -/
def startAccepted (tz now days : Int) : Bool :=
  startValid tz now days && decide (pgFirstDay ≤ pgParam tz (startDate tz now days) / 86400)

/-- Outcome of the second query of a handler, which carries the parameter `$2`, on a database
that answers with the state `db`, or fails (`none`): the query is rejected when the parameter
is not accepted. -/
def windowQuery (tz now : Int) (q : Option String) (db : Option Store) : Option Store :=
  if startAccepted tz now (resolveDays (queryDays q)) then db else none

/-- The route `GET /analytics/focus-minutes` on a database that answers with the state `db`,
or fails (`none`). -/
def getFocusMinutes (tz now : Int) (q : Option String) (uid : Nat) (db : Option Store) :
    Response FocusRecord :=
  focusMinutesHandler tz now q uid db (windowQuery tz now q db)

/-- The route `GET /analytics/mood-focus` on a database that answers with the state `db`, or
fails (`none`). -/
def getMoodFocus (tz now : Int) (q : Option String) (uid : Nat) (db : Option Store) :
    Response MoodRecord :=
  moodFocusHandler tz now q uid db (windowQuery tz now q db)

/-- The route `GET /analytics/task-throughput` on a database that answers with the state `db`,
or fails (`none`). -/
def getTaskThroughput (tz now : Int) (q : Option String) (uid : Nat) (db : Option Store) :
    Response TaskRecord :=
  taskThroughputHandler tz now q uid db (windowQuery tz now q db)

/-! ## `PUT /tasks/:id` (`backend/src/routes/tasks.js`) -/

/-- A row of `tasks` with all its columns. -/
structure TaskRow where
  id : Nat
  user_id : Nat
  title : String
  description : Option String
  tag : Option String
  priority : Option String
  status : String
  due_date : Option Int
  task_order : Option Int
  created_at : Option Int
  updated_at : Option Int
deriving DecidableEq, Repr

/-- The columns of a row of `tasks` that the analytics queries read. -/
def TaskRow.toTask (r : TaskRow) : Task :=
  { user_id := r.user_id, status := r.status, created_at := r.created_at,
    updated_at := r.updated_at }

/-- The fields of the body of `PUT /tasks/:id`; `none` is an absent or null field. -/
structure TaskUpdate where
  title : Option String
  description : Option String
  tag : Option String
  priority : Option String
  status : Option String
  due_date : Option Int
deriving DecidableEq, Repr

/-- The `SET` clause of the `UPDATE` of `PUT /tasks/:id` on one row; `ts` is
`CURRENT_TIMESTAMP`. -/
def setTask (ts : Int) (b : TaskUpdate) (r : TaskRow) : TaskRow :=
  { r with
    title := b.title.getD r.title
    description := b.description.orElse (fun _ => r.description)
    tag := b.tag.orElse (fun _ => r.tag)
    priority := b.priority.orElse (fun _ => r.priority)
    status := b.status.getD r.status
    due_date := b.due_date.orElse (fun _ => r.due_date)
    updated_at := some ts }

/-- The table after the `UPDATE ... WHERE id = $7 AND user_id = $8` of `PUT /tasks/:id`. -/
def updateTask (ts : Int) (uid id : Nat) (b : TaskUpdate) (tasks : List TaskRow) :
    List TaskRow :=
  tasks.map (fun r => if r.id = id ∧ r.user_id = uid then setTask ts b r else r)

/-! ## `PUT /tasks/:id`, `DELETE /tasks/:id` and `POST /tasks/reorder`: the handlers -/

/-- The response of a handler of `tasks.js`: a row sent with `res.json`, or a status with a
`{ message }` body. -/
inductive TaskResponse where
  | row (r : TaskRow)
  | message (status : Nat) (text : String)
deriving DecidableEq, Repr

/-- The `WHERE id = ... AND user_id = ...` clause of the task statements. -/
def taskMatches (uid id : Nat) (r : TaskRow) : Bool :=
  decide (r.id = id) && decide (r.user_id = uid)

/-- The success path of `PUT /tasks/:id`: the table after the `UPDATE` and the response,
which is 404 when `RETURNING *` yields no row and the first returned row otherwise. -/
def putTask (ts : Int) (uid id : Nat) (b : TaskUpdate) (tasks : List TaskRow) :
    List TaskRow × TaskResponse :=
  match (tasks.filter (taskMatches uid id)).map (setTask ts b) with
  | [] => (updateTask ts uid id b tasks, .message 404 "Task not found")
  | r :: _ => (updateTask ts uid id b tasks, .row r)

/-- The success path of `DELETE /tasks/:id`: the table after the `DELETE` and the response. -/
def deleteTask (uid id : Nat) (tasks : List TaskRow) : List TaskRow × TaskResponse :=
  match tasks.filter (taskMatches uid id) with
  | [] => (tasks.filter (fun r => !taskMatches uid id r), .message 404 "Task not found")
  | _ :: _ =>
    (tasks.filter (fun r => !taskMatches uid id r), .message 200 "Task deleted successfully")

/-- One `UPDATE tasks SET task_order = $1 WHERE id = $2 AND user_id = $3` of the reorder loop,
on one row; the trigger `update_tasks_updated_at` stamps the rows it updates. -/
def reorderRow (ts : Int) (uid : Nat) (i id : Nat) (r : TaskRow) : TaskRow :=
  if taskMatches uid id r then { r with task_order := some (i : Int), updated_at := some ts }
  else r

/-- The success path of `POST /tasks/reorder`; `taskIds` is `none` when the body field is not
an array, and `clock i` is `CURRENT_TIMESTAMP` of the statement of index `i`. -/
def reorderTasks (clock : Nat → Int) (uid : Nat) (taskIds : Option (List Nat))
    (tasks : List TaskRow) : List TaskRow × TaskResponse :=
  match taskIds with
  | none => (tasks, .message 400 "taskIds must be an array")
  | some ids =>
    (ids.enum.foldl (fun t p => t.map (reorderRow (clock p.1) uid p.1 p.2)) tasks,
      .message 200 "Tasks reordered successfully")

/-! ## `backend/src/routes/gamification.js` -/

/-- The row of `user_gamification` of one user. -/
structure GamRow where
  user_id : Nat
  level : Int
  points : Int
  total_points : Int
  streak : Int
  last_activity_date : Option Int
  unlocked_badges : List String
  updated_at : Option Int
deriving DecidableEq, Repr

/-- Range of the SQL type `INTEGER`. -/
def inInt4 (x : Int) : Bool := decide (-2147483648 ≤ x) && decide (x ≤ 2147483647)

/-- The expression `FLOOR(total / 1000) + 1` on SQL integers: the division of two integers
truncates towards zero, and `FLOOR` of its integer result changes nothing. -/
def sqlLevel (total : Int) : Int := Int.tdiv total 1000 + 1

/-- The `UPDATE` of award-points on the row of the user, for an integer parameter `p`; the
right-hand sides read the old values of the columns.  `none` when a value leaves the range of
`INTEGER` and the statement fails.  The trigger stamps `updated_at`. -/
def awardRow (ts : Int) (p : Int) (r : GamRow) : Option GamRow :=
  if inInt4 p && inInt4 (r.points + p) && inInt4 (r.total_points + p) then
    some { r with
      points := r.points + p
      total_points := r.total_points + p
      level := sqlLevel (r.total_points + p)
      updated_at := some ts }
  else none

/-- The response of a handler of `gamification.js`: `res.json(result.rows[0])`, a 400 with a
message, or the 500 of the `catch` block. -/
inductive GamResponse where
  | row (r : Option GamRow)
  | badRequest (text : String)
  | serverError
deriving DecidableEq, Repr

/-- HTTP status of a response of `gamification.js`. -/
def GamResponse.status (r : GamResponse) : Nat :=
  match r with
  | .row _ => 200
  | .badRequest _ => 400
  | .serverError => 500

/-- The field `points` of the body of award-points when it is neither missing nor null: a
JSON number, or a value of another type (a string, a boolean, an array, an object), given by
what the handler and the database observe of it: its truthiness, the comparison
`points <= 0` (made after the conversion to a number, and false when that is `NaN`), and the
integer that PostgreSQL reads from the text that node-postgres sends for it, `none` when that
text is not the text of an `INTEGER`. -/
inductive JsPoints where
  | num (q : ℚ)
  | other (truthy : Bool) (leZero : Bool) (asInteger : Option Int)
deriving DecidableEq, Repr

instance : Coe ℚ JsPoints := ⟨JsPoints.num⟩

/-- Truthiness of a `points` value: a number is falsy when it is 0. -/
def JsPoints.truthy (v : JsPoints) : Bool :=
  match v with
  | .num q => decide (q ≠ 0)
  | .other t _ _ => t

/-- The comparison `points <= 0`. -/
def JsPoints.leZero (v : JsPoints) : Bool :=
  match v with
  | .num q => decide (q ≤ 0)
  | .other _ l _ => l

/-- The value of the parameter `$1`, of type `INTEGER`: node-postgres sends the text of the
value, and PostgreSQL reads the text of a number only when it is an integer in the range of
`INTEGER`; `none` when the query is rejected for its parameter. -/
def JsPoints.asInteger (v : JsPoints) : Option Int :=
  match v with
  | .num q => if q.isInt && inInt4 q.num then some q.num else none
  | .other _ _ i => i

/-- The handler of `POST /gamification/award-points`.  `points` is the body field, `none` when
it is missing or null.  `row` is the row of the authenticated user, when it exists.  Returns
that row afterwards, and the response. -/
def awardPoints (ts : Int) (points : Option JsPoints) (row : Option GamRow) :
    Option GamRow × GamResponse :=
  match points with
  | none => (row, .badRequest "Invalid points value")
  | some v =>
    if v.truthy = false ∨ v.leZero = true then (row, .badRequest "Invalid points value")
    else
      match v.asInteger with
      | none => (row, .serverError)
      | some p =>
        match row with
        | none => (none, .row none)
        | some r =>
          match awardRow ts p r with
          | some r2 => (some r2, .row (some r2))
          | none => (some r, .serverError)

/-- The fields of the body of `PUT /gamification/profile`; `none` is `undefined`. -/
structure ProfileBody (V : Type) where
  level : Option V
  points : Option V
  total_points : Option V
  streak : Option V
  last_activity_date : Option V
  unlocked_badges : Option V

/-- An element of the array `values` bound to a query. -/
inductive QueryValue (V : Type) where
  | field (v : V)
  | userId (uid : Nat)
deriving DecidableEq, Repr

/-- The text `$n` of a placeholder. -/
def placeholder (n : Nat) : String := "$" ++ toString n

/-- One block `if (x !== undefined) { updates.push(...); values.push(x) }`, on the state
`(updates, values, paramCount)`. -/
def pushField {V : Type} (name : String) (x : Option V)
    (st : List String × List (QueryValue V) × Nat) : List String × List (QueryValue V) × Nat :=
  match x with
  | some v => (st.1 ++ [name ++ " = " ++ placeholder st.2.2], st.2.1 ++ [.field v], st.2.2 + 1)
  | none => st

/-- The six blocks of `PUT /gamification/profile`, in the order of the source. -/
def profileUpdates {V : Type} (b : ProfileBody V) :
    List String × List (QueryValue V) × Nat :=
  pushField "unlocked_badges" b.unlocked_badges
    (pushField "last_activity_date" b.last_activity_date
      (pushField "streak" b.streak
        (pushField "total_points" b.total_points
          (pushField "points" b.points
            (pushField "level" b.level ([], [], 1))))))

/-- What `PUT /gamification/profile` does before it awaits the database: a 400 response, or
the query it issues, with the array of its values. -/
inductive ProfileAction (V : Type) where
  | badRequest (text : String)
  | query (text : String) (values : List (QueryValue V))
deriving DecidableEq, Repr

/-- The handler of `PUT /gamification/profile`, up to the query it issues. -/
def putProfile {V : Type} (b : ProfileBody V) (uid : Nat) : ProfileAction V :=
  let st := profileUpdates b
  if st.1.length = 0 then .badRequest "No fields to update"
  else
    .query ("UPDATE user_gamification SET " ++ ", ".intercalate st.1
        ++ ", updated_at = CURRENT_TIMESTAMP WHERE user_id = " ++ placeholder st.2.2
        ++ " RETURNING *")
      (st.2.1 ++ [.userId uid])

/-! ## `PointsCard.jsx` -/

/-- The `progress` of `PointsCard`: `(totalPoints % 1000) / 10`; the JavaScript remainder has
the sign of the dividend. -/
def progress (totalPoints : Int) : ℚ := ((Int.tmod totalPoints 1000 : Int) : ℚ) / 10

/-! ## `backend/src/routes/ml.js` -/

/-- Outcome of the `axios.post` to the ML service: it resolves with `response.data`, or it
rejects (error status, network error, timeout). -/
inductive MlOutcome (D : Type) where
  | resolved (data : D)
  | rejected
deriving DecidableEq, Repr

/-- A scalar of a JSON object literal. -/
inductive JsonScalar where
  | num (q : ℚ)
  | str (s : String)
deriving DecidableEq, Repr

/-- The `data` of a response of an ML proxy: the data of the service, or an object literal
of the handler. -/
inductive MlData (D : Type) where
  | service (data : D)
  | fallback (fields : List (String × JsonScalar))
deriving DecidableEq, Repr

/-- A response of an ML proxy: status, `success`, `data`, `error`. -/
structure MlResponse (D : Type) where
  status : Nat
  success : Bool
  data : Option (MlData D)
  error : Option String
deriving DecidableEq, Repr

/-- The handler of `POST /ml/recommend-pomodoro`, given the outcome of its call. -/
def recommendPomodoro {D : Type} (call : MlOutcome D) : MlResponse D :=
  match call with
  | .resolved d => { status := 200, success := true, data := some (.service d), error := none }
  | .rejected =>
    { status := 200, success := true,
      data := some (.fallback [("focus_minutes", .num 25), ("break_minutes", .num 5),
        ("confidence", .num 0),
        ("explanation", .str "Using default Pomodoro timing (ML service unavailable)")]),
      error := none }

/-- The handler of `POST /ml/sentiment`; `text` is the body field, `none` when absent.  The
call is made only for a truthy `text`. -/
def sentiment {D : Type} (text : Option String) (call : MlOutcome D) : MlResponse D :=
  if text = none ∨ text = some "" then
    { status := 400, success := false, data := none, error := some "Text is required" }
  else
    match call with
    | .resolved d => { status := 200, success := true, data := some (.service d), error := none }
    | .rejected =>
      { status := 200, success := true,
        data := some (.fallback [("sentiment_score", .num 0), ("label", .str "neutral")]),
        error := none }

/-- The handler of `POST /ml/distraction-predict`, given the outcome of its call. -/
def distractionPredict {D : Type} (call : MlOutcome D) : MlResponse D :=
  match call with
  | .resolved d => { status := 200, success := true, data := some (.service d), error := none }
  | .rejected =>
    { status := 200, success := true,
      data := some (.fallback [("distraction_probability", .num (3 / 10)),
        ("top_trigger", .str "Unknown (ML service unavailable)")]),
      error := none }

/-! ## Specification-side quantities -/

/-- Specification: total duration, in seconds, of the work sessions of user `uid` completed
on calendar day `d`. -/
def specWorkSeconds (sessions : List TimerSession) (uid : Nat) (d : Int) : Int :=
  ((sessions.filter (fun s =>
    decide (s.user_id = uid ∧ s.session_type = "work" ∧ sqlDate s.completed_at = some d))).map
      (fun s => s.duration)).sum

/-- Specification: number of tasks of user `uid` whose `created_at` falls on day `d`. -/
def specCreated (tasks : List Task) (uid : Nat) (d : Int) : Nat :=
  (tasks.filter (fun t => decide (t.user_id = uid ∧ sqlDate t.created_at = some d))).length

/-- Specification: number of tasks of user `uid` with status `completed` whose `updated_at`
falls on day `d`. -/
def specCompleted (tasks : List Task) (uid : Nat) (d : Int) : Nat :=
  (tasks.filter (fun t =>
    decide (t.user_id = uid ∧ t.status = "completed" ∧ sqlDate t.updated_at = some d))).length

/-- Specification: the record that a fetched array holds for the date key `k`: the last
element, in array order, that is a record whose `date` is the string `k`. -/
def specRecordFor {α : Type} (date : α → Option String) (value : List (Option α))
    (k : String) : Option α :=
  ((value.filterMap id).filter (fun it => decide (date it = some k))).getLast?

/-- Specification: the focus record of a settled result for the date key `k`; none when the
fetch did not succeed with an array. -/
def specFocusFor (focusResult : Settled (Option FocusItem)) (k : String) : Option FocusItem :=
  match focusResult with
  | .fulfilled value => specRecordFor (fun it => it.date) value k
  | _ => none

/-- Specification: the task record of a settled result for the date key `k`; none when the
fetch did not succeed with an array. -/
def specTaskFor (tasksResult : Settled (Option TaskItem)) (k : String) : Option TaskItem :=
  match tasksResult with
  | .fulfilled value => specRecordFor (fun it => it.date) value k
  | _ => none

/-- Specification, in the words of the claim on mood-focus: the work sessions of user `uid`
completed on the same calendar day as some mood entry of the window labelled `l`, each
session once. -/
def specMoodSessions (moods : List MoodLog) (sessions : List TimerSession) (uid : Nat)
    (p2 : Int) (l : String) : List TimerSession :=
  sessions.filter (fun ts =>
    decide (ts.user_id = uid) && decide (ts.session_type = "work") &&
      moods.any (fun ml =>
        decide (ml.user_id = uid) && tsGe ml.created_at p2 && decide (ml.mood = l) &&
          (sqlDate ts.completed_at).isSome &&
          decide (sqlDate ml.created_at = sqlDate ts.completed_at)))

/-- Specification, in the words of the claim on mood-focus: the rounded average of
`duration / 60` over `specMoodSessions`, and 0 when there is no such session. -/
def specMoodFocus (moods : List MoodLog) (sessions : List TimerSession) (uid : Nat)
    (p2 : Int) (l : String) : Int :=
  mathRound ((sqlAvg ((specMoodSessions moods sessions uid p2 l).map
    (fun ts => (ts.duration : ℚ) / 60))).getD 0)

/-- Specification: the pairs of a mood entry of user `uid`, in the window and labelled `l`,
and a work session of the same user completed on the calendar day of that entry. -/
def specMoodPairs (moods : List MoodLog) (sessions : List TimerSession) (uid : Nat)
    (p2 : Int) (l : String) : List (MoodLog × TimerSession) :=
  (moods.product sessions).filter (fun pr =>
    decide (pr.1.user_id = uid) && tsGe pr.1.created_at p2 && decide (pr.1.mood = l) &&
      decide (pr.2.user_id = uid) && decide (pr.2.session_type = "work") &&
      (sqlDate pr.2.completed_at).isSome &&
      decide (sqlDate pr.1.created_at = sqlDate pr.2.completed_at))

/-- Specification: an element of a fetched focus or task array is well formed when it is a
record (not a falsy entry such as `null`) that carries a date. -/
def specHasDate {α : Type} (date : α → Option String) (item : Option α) : Bool :=
  match item with
  | some it => (truthyDate (date it)).isSome
  | none => false

/-- Specification: a settled result with the malformed elements removed from its array. -/
def specRemoveMalformed {α : Type} (wellFormed : α → Bool) (r : Settled α) : Settled α :=
  match r with
  | .fulfilled value => .fulfilled (value.filter wellFormed)
  | .fulfilledNonArray => .fulfilledNonArray
  | .rejected => .rejected

/-- Specification: the fields present in a body of `PUT /gamification/profile`, with their
values, in the fixed order of the six updatable fields. -/
def specPresent {V : Type} (b : ProfileBody V) : List (String × V) :=
  [("level", b.level), ("points", b.points), ("total_points", b.total_points),
    ("streak", b.streak), ("last_activity_date", b.last_activity_date),
    ("unlocked_badges", b.unlocked_badges)].filterMap (fun f => f.2.map (fun v => (f.1, v)))

/-- Specification: the text `$i` of the placeholder number `i`, written out for the seven
indices that a statement with at most six assignments and one condition can use. -/
def specDollar (i : Nat) : String :=
  ["$1", "$2", "$3", "$4", "$5", "$6", "$7"].getD (i - 1) ""

/-- Specification: the assignments `name = $i` of the present fields, numbered from 1. -/
def specAssignments {V : Type} (b : ProfileBody V) : List String :=
  (specPresent b).enum.map (fun f => f.2.1 ++ " = " ++ specDollar (f.1 + 1))

/-! ## Lemmas: clocks and windows -/

theorem localDay_localMidnight (tz d : Int) : localDay tz (localMidnight tz d) = d := by
  unfold localDay localMidnight
  have h : d * 86400 - 60 * tz + 60 * tz = d * 86400 := by ring
  rw [h]
  exact Int.mul_ediv_cancel d (by decide)

theorem pgParam_startDate (tz now days : Int) :
    pgParam tz (startDate tz now days) = (localDay tz now - (days - 1)) * 86400 := by
  unfold pgParam startDate localMidnight
  ring

theorem pgParam_startDate_date (tz now days : Int) :
    pgParam tz (startDate tz now days) / 86400 = localDay tz now - (days - 1) := by
  rw [pgParam_startDate]
  exact Int.mul_ediv_cancel _ (by decide)

theorem dateSeries_window (today n : Int) :
    dateSeries (today - (n - 1)) today
      = (List.range n.toNat).map (fun (i : Nat) => today - (n - 1) + (i : Int)) := by
  unfold dateSeries
  have h : today + 1 - (today - (n - 1)) = n := by ring
  rw [h]

theorem dateSeries_getElem? (a b d : Int) (h1 : a ≤ d) (h2 : d ≤ b) :
    (dateSeries a b)[(d - a).toNat]? = some d := by
  unfold dateSeries
  rw [List.getElem?_map, List.getElem?_range (by omega)]
  simp
  omega

theorem utcDay_pgDate (tz d : Int) : pgDate tz d / 86400 = d + (-(60 * tz)) / 86400 := by
  unfold pgDate localMidnight
  have h : d * 86400 - 60 * tz = -(60 * tz) + 86400 * d := by ring
  rw [h, Int.add_mul_ediv_left _ _ (by decide : (86400 : Int) ≠ 0)]
  ring

theorem resolveDays_pos (n : Int) (hn : 1 ≤ n) : resolveDays (some n) = n := by
  unfold resolveDays
  simp
  omega

theorem mathRound_intCast (n : Int) : mathRound (n : ℚ) = n := by
  unfold mathRound
  rw [Int.floor_eq_iff]
  constructor <;> norm_num

theorem mathRound_near (x : ℚ) : |((mathRound x : Int) : ℚ) - x| ≤ 1 / 2 := by
  unfold mathRound
  have h1 := Int.floor_le (x + 1 / 2)
  have h2 := Int.lt_floor_add_one (x + 1 / 2)
  rw [abs_le]
  constructor <;> linarith


theorem mathRound_eq (x : ℚ) : mathRound x = (2 * x.num + x.den) / (2 * (x.den : Int)) := by
  unfold mathRound
  have h : x + 1 / 2 = ((2 * x.num + x.den : Int) : ℚ) / ((2 * x.den : Nat) : ℚ) := by
    have hx : x = (x.num : ℚ) / (x.den : ℚ) := (Rat.num_div_den x).symm
    rw [eq_div_iff (by positivity)]
    push_cast
    nth_rewrite 1 [hx]
    field_simp
    ring
  rw [h, Rat.floor_intCast_div_natCast]
  push_cast
  rfl

theorem roundReal_compute (x : JsReal) :
    roundReal x
      = match x with
        | .fin q => .fin ((2 * q.num + q.den) / (2 * (q.den : Int)))
        | .posInf => .posInf
        | .negInf => .negInf := by
  cases x with
  | fin q => simp only [roundReal, mathRound_eq]
  | posInf => rfl
  | negInf => rfl

theorem rounded_number (q : ℚ) :
    roundReal (parseFloatOr0 (some (.num q))) = .fin (mathRound q) := rfl

theorem rounded_integer (n : Int) :
    roundReal (parseFloatOr0 (some (.num (n : ℚ)))) = .fin n := by
  rw [rounded_number, mathRound_intCast]

theorem abs_eq_natAbs_div (q : ℚ) : |q| = (q.num.natAbs : ℚ) / (q.den : ℚ) := by
  have hx : q = (q.num : ℚ) / (q.den : ℚ) := (Rat.num_div_den q).symm
  have hd : (0 : ℚ) < (q.den : ℚ) := by exact_mod_cast q.den_pos
  nth_rewrite 1 [hx]
  rw [abs_div, abs_of_pos hd]
  congr 1
  rw [Nat.cast_natAbs, Int.cast_abs]

theorem parseIntNumber_trunc (q : ℚ) (h1 : 1 / 1000000 ≤ |q|)
    (h2 : |q| < 1000000000000000000000) : parseIntNumber q = Int.tdiv q.num q.den := by
  have hd : (0 : ℚ) < (q.den : ℚ) := by exact_mod_cast q.den_pos
  rw [abs_eq_natAbs_div] at h1 h2
  have h0 : q.num ≠ 0 := by
    intro h
    rw [h] at h1
    norm_num at h1
  have ha : q.den ≤ 1000000 * q.num.natAbs := by
    rw [div_le_div_iff₀ (by norm_num) hd] at h1
    have : (q.den : ℚ) ≤ 1000000 * (q.num.natAbs : ℚ) := by linarith
    exact_mod_cast this
  have hb : q.num.natAbs < 1000000000000000000000 * q.den := by
    rw [div_lt_iff₀ hd] at h2
    exact_mod_cast h2
  simp only [parseIntNumber, if_neg h0, ha, hb, and_self, if_true]

theorem parseIntNumber_int (n : Int) (h : |n| < 1000000000000000000000) :
    parseIntNumber (n : ℚ) = n := by
  by_cases h0 : n = 0
  · subst h0
    simp [parseIntNumber]
  · have h1 : (1 : ℚ) / 1000000 ≤ |(n : ℚ)| := by
      have : (1 : Int) ≤ |n| := Int.one_le_abs h0
      have h' : (1 : ℚ) ≤ |(n : ℚ)| := by exact_mod_cast this
      linarith
    have h2 : |(n : ℚ)| < 1000000000000000000000 := by exact_mod_cast h
    rw [parseIntNumber_trunc _ h1 h2, Rat.intCast_num, Rat.intCast_den]
    simp

theorem rounded_nan (i : Option Int) :
    roundReal (parseFloatOr0 none) = 0 ∧
    roundReal (parseFloatOr0 (some (.other none i))) = 0 := by
  have h : roundReal (.fin 0) = 0 := by
    show JsInteger.fin (mathRound 0) = JsInteger.fin ((0 : Nat) : Int)
    have := mathRound_intCast 0
    simp only [Int.cast_zero] at this
    rw [this]
    rfl
  exact ⟨h, h⟩

theorem mem_dateSeries (a b d : Int) (h : d ∈ dateSeries a b) : a ≤ d ∧ d ≤ b := by
  unfold dateSeries at h
  rw [List.mem_map] at h
  obtain ⟨i, hi, rfl⟩ := h
  rw [List.mem_range] at hi
  omega

theorem tsGeDate_of_sqlDate (ts : Option Int) (p2 d : Int) (hd : p2 ≤ d)
    (h : sqlDate ts = some d) : tsGeDate ts p2 = true := by
  cases ts with
  | none => simp [sqlDate] at h
  | some t =>
    simp only [sqlDate, Option.map_some', Option.some.injEq] at h
    simp only [tsGeDate, decide_eq_true_eq]
    have h1 : p2 ≤ t / 86400 := by omega
    exact (Int.le_ediv_iff_mul_le (by decide)).1 h1

theorem sessionGroup_eq (sessions : List TimerSession) (uid : Nat) (p2 d : Int) (hd : p2 ≤ d) :
    sessionGroup sessions uid p2 d
      = sessions.filter (fun s =>
          decide (s.user_id = uid ∧ s.session_type = "work" ∧ sqlDate s.completed_at = some d)) := by
  unfold sessionGroup
  apply List.filter_congr
  intro s _
  by_cases h : sqlDate s.completed_at = some d
  · simp [h, tsGeDate_of_sqlDate _ _ _ hd h]
  · simp [h]

theorem sessionData_getD (sessions : List TimerSession) (uid : Nat) (p2 d : Int) :
    (sessionData sessions uid p2 d).getD 0
      = ((((sessionGroup sessions uid p2 d).map (fun s => s.duration)).sum : Int) : ℚ) / 60 := by
  unfold sessionData
  cases h : sessionGroup sessions uid p2 d with
  | nil => simp
  | cons a l => simp

theorem focusRow_value (sessions : List TimerSession) (uid : Nat) (p2 d : Int) (hd : p2 ≤ d) :
    (sessionData sessions uid p2 d).getD 0 = (specWorkSeconds sessions uid d : ℚ) / 60 := by
  rw [sessionData_getD, sessionGroup_eq _ _ _ _ hd]
  rfl

theorem focusMinutes_eq (tz now cur n : Int) (uid : Nat) (sessions : List TimerSession)
    (hn : 1 ≤ n) :
    focusMinutes tz now cur (some n) uid sessions
      = (dateSeries (localDay tz now - (n - 1)) cur).map (fun d =>
          ({ date := toISODate (pgDate tz d),
             minutes := mathRound ((specWorkSeconds sessions uid d : ℚ) / 60) } : FocusRecord)) := by
  unfold focusMinutes focusFilled focusRows
  simp only [resolveDays_pos n hn, pgParam_startDate_date, List.map_map]
  apply List.map_congr_left
  intro d hd
  have h := (mem_dateSeries _ _ _ hd).1
  simp [focusRow_value _ _ _ _ h]


theorem mathRound_div60 (s : Int) : mathRound ((s : ℚ) / 60) = (s + 30) / 60 := by
  unfold mathRound
  have h : (s : ℚ) / 60 + 1 / 2 = ((s + 30 : Int) : ℚ) / ((60 : Nat) : ℚ) := by
    push_cast
    ring
  rw [h, Rat.floor_intCast_div_natCast]
  rfl

theorem createdCount_eq (tasks : List Task) (uid : Nat) (p2 d : Int) (hd : p2 ≤ d) :
    createdCount tasks uid p2 d = specCreated tasks uid d := by
  unfold createdCount specCreated
  congr 1
  apply List.filter_congr
  intro t _
  by_cases h : sqlDate t.created_at = some d
  · simp [h, tsGeDate_of_sqlDate _ _ _ hd h]
  · simp [h]

theorem completedCount_eq (tasks : List Task) (uid : Nat) (p2 d : Int) (hd : p2 ≤ d) :
    completedCount tasks uid p2 d = specCompleted tasks uid d := by
  unfold completedCount specCompleted
  congr 1
  apply List.filter_congr
  intro t _
  by_cases h : sqlDate t.updated_at = some d
  · simp [h, tsGeDate_of_sqlDate _ _ _ hd h]
  · simp [h]

theorem taskThroughput_eq (tz now cur n : Int) (uid : Nat) (tasks : List Task) (hn : 1 ≤ n) :
    taskThroughput tz now cur (some n) uid tasks
      = (dateSeries (localDay tz now - (n - 1)) cur).map (fun d =>
          ({ date := toISODate (pgDate tz d), created := (specCreated tasks uid d : Int),
             completed := (specCompleted tasks uid d : Int) } : TaskRecord)) := by
  unfold taskThroughput taskFilled taskRows
  simp only [resolveDays_pos n hn, pgParam_startDate_date, List.map_map]
  apply List.map_congr_left
  intro d hd
  have h := (mem_dateSeries _ _ _ hd).1
  simp [createdCount_eq _ _ _ _ h, completedCount_eq _ _ _ _ h]

theorem length_dateSeries_window (today n : Int) (hn : 1 ≤ n) :
    ((dateSeries (today - (n - 1)) today).length : Int) = n := by
  rw [dateSeries_window]
  simp
  omega

/-! ## Claims on the aggregation handlers -/

/-- The series at the level of bucket days.  For `days = n ≥ 1`, with the database's
`CURRENT_DATE` equal to the server's local calendar day, the success paths of focus-minutes
and task-throughput each yield exactly `n` records: the `i`-th one is the record of calendar
day `today - (n - 1) + i`, its `date` being the string the handler renders for that day; the rendered days are strictly ascending; the result is the same
for two request instants of the same calendar day; and when the server zone is UTC or west of
it the rendered string is the ISO date of the day itself. -/
theorem series_days_of_window (tz now cur n : Int) (uid : Nat)
    (sessions : List TimerSession) (tasks : List Task) (hn : 1 ≤ n)
    (hcur : cur = localDay tz now) :
    ((focusMinutes tz now cur (some n) uid sessions).length : Int) = n ∧
    ((taskThroughput tz now cur (some n) uid tasks).length : Int) = n ∧
    (focusMinutes tz now cur (some n) uid sessions).map (fun r => r.date)
      = (List.range n.toNat).map (fun (i : Nat) =>
          toISODate (pgDate tz (localDay tz now - (n - 1) + (i : Int)))) ∧
    (taskThroughput tz now cur (some n) uid tasks).map (fun r => r.date)
      = (List.range n.toNat).map (fun (i : Nat) =>
          toISODate (pgDate tz (localDay tz now - (n - 1) + (i : Int)))) ∧
    List.Pairwise (fun a b => a < b) ((List.range n.toNat).map (fun (i : Nat) =>
      pgDate tz (localDay tz now - (n - 1) + (i : Int)) / 86400)) ∧
    (∀ now2 : Int, localDay tz now2 = localDay tz now →
      focusMinutes tz now2 cur (some n) uid sessions = focusMinutes tz now cur (some n) uid sessions ∧
      taskThroughput tz now2 cur (some n) uid tasks = taskThroughput tz now cur (some n) uid tasks) ∧
    (-1440 < tz → tz ≤ 0 →
      (focusMinutes tz now cur (some n) uid sessions).map (fun r => r.date)
        = (List.range n.toNat).map (fun (i : Nat) => isoDate (localDay tz now - (n - 1) + (i : Int))) ∧
      (taskThroughput tz now cur (some n) uid tasks).map (fun r => r.date)
        = (List.range n.toNat).map (fun (i : Nat) => isoDate (localDay tz now - (n - 1) + (i : Int)))) := by
  subst hcur
  have hf : (focusMinutes tz now (localDay tz now) (some n) uid sessions).map (fun r => r.date)
      = (List.range n.toNat).map (fun (i : Nat) =>
          toISODate (pgDate tz (localDay tz now - (n - 1) + (i : Int)))) := by
    rw [focusMinutes_eq _ _ _ _ _ _ hn, dateSeries_window]
    simp [List.map_map, Function.comp_def]
  have ht : (taskThroughput tz now (localDay tz now) (some n) uid tasks).map (fun r => r.date)
      = (List.range n.toNat).map (fun (i : Nat) =>
          toISODate (pgDate tz (localDay tz now - (n - 1) + (i : Int)))) := by
    rw [taskThroughput_eq _ _ _ _ _ _ hn, dateSeries_window]
    simp [List.map_map, Function.comp_def]
  refine ⟨?_, ?_, hf, ht, ?_, ?_, ?_⟩
  · rw [focusMinutes_eq _ _ _ _ _ _ hn, List.length_map]
    exact length_dateSeries_window _ _ hn
  · rw [taskThroughput_eq _ _ _ _ _ _ hn, List.length_map]
    exact length_dateSeries_window _ _ hn
  · rw [List.pairwise_map]
    refine List.Pairwise.imp_of_mem ?_ (List.pairwise_lt_range n.toNat)
    intro a b _ _ hab
    rw [utcDay_pgDate, utcDay_pgDate]
    omega
  · intro now2 h2
    rw [focusMinutes_eq _ _ _ _ _ _ hn, focusMinutes_eq _ _ _ _ _ _ hn,
      taskThroughput_eq _ _ _ _ _ _ hn, taskThroughput_eq _ _ _ _ _ _ hn, h2]
    exact ⟨rfl, rfl⟩
  · intro h1 h2
    have hz : ∀ d : Int, toISODate (pgDate tz d) = isoDate d := by
      intro d
      unfold toISODate
      rw [utcDay_pgDate]
      have : (-(60 * tz)) / 86400 = 0 := by omega
      rw [this, add_zero]
    rw [hf, ht]
    simp only [hz, and_self]

/-- Gap days at the level of bucket days.  In the window of focus-minutes and
task-throughput, the record of a calendar day `d` is present, at position `d - (today - (n - 1))`, and carries the number `0` for each metric
without a matching event on `d`: `minutes = 0` when the user has no work session completed on
`d`, `created = 0` when no task of the user was created on `d`, `completed = 0` when no
completed task of the user was last updated on `d`. -/
theorem gap_bucket_is_zero (tz now cur n d : Int) (uid : Nat)
    (sessions : List TimerSession) (tasks : List Task) (hn : 1 ≤ n)
    (hcur : cur = localDay tz now) (hlo : localDay tz now - (n - 1) ≤ d)
    (hhi : d ≤ localDay tz now) :
    ((∀ s ∈ sessions,
        ¬ (s.user_id = uid ∧ s.session_type = "work" ∧ sqlDate s.completed_at = some d)) →
      (focusMinutes tz now cur (some n) uid sessions)[(d - (localDay tz now - (n - 1))).toNat]?
        = some { date := toISODate (pgDate tz d), minutes := 0 }) ∧
    (∃ r : TaskRecord,
      (taskThroughput tz now cur (some n) uid tasks)[(d - (localDay tz now - (n - 1))).toNat]?
        = some r ∧ r.date = toISODate (pgDate tz d) ∧
      ((∀ t ∈ tasks, ¬ (t.user_id = uid ∧ sqlDate t.created_at = some d)) → r.created = 0) ∧
      ((∀ t ∈ tasks,
          ¬ (t.user_id = uid ∧ t.status = "completed" ∧ sqlDate t.updated_at = some d)) →
        r.completed = 0)) := by
  subst hcur
  constructor
  · intro hno
    rw [focusMinutes_eq _ _ _ _ _ _ hn, List.getElem?_map, dateSeries_getElem? _ _ _ hlo hhi]
    have h0 : specWorkSeconds sessions uid d = 0 := by
      unfold specWorkSeconds
      rw [List.filter_eq_nil_iff.2]
      · rfl
      · intro s hs
        simpa using hno s hs
    have hr : mathRound (((0 : Int) : ℚ) / 60) = 0 := by rw [mathRound_div60]; decide
    simp only [Option.map_some', h0, hr]
  · rw [taskThroughput_eq _ _ _ _ _ _ hn, List.getElem?_map, dateSeries_getElem? _ _ _ hlo hhi]
    refine ⟨_, rfl, rfl, ?_, ?_⟩
    · intro hno
      have h0 : specCreated tasks uid d = 0 := by
        unfold specCreated
        rw [List.filter_eq_nil_iff.2]
        · rfl
        · intro t ht
          simpa using hno t ht
      simp [h0]
    · intro hno
      have h0 : specCompleted tasks uid d = 0 := by
        unfold specCompleted
        rw [List.filter_eq_nil_iff.2]
        · rfl
        · intro t ht
          simpa using hno t ht
      simp [h0]

/-- The value of a bucket of focus-minutes.  For every day `d` of the window, the record at
the position of `d` carries
`Math.round(S / 60)`, where `S` is the sum of the durations, in seconds, of the user's
sessions of type `work` completed on `d`; that integer is within one half of `S / 60`; and
sessions of another type never contribute: dropping them leaves the response unchanged. -/
theorem focus_bucket_value (tz now cur n d : Int) (uid : Nat)
    (sessions : List TimerSession) (hn : 1 ≤ n) (hcur : cur = localDay tz now)
    (hlo : localDay tz now - (n - 1) ≤ d) (hhi : d ≤ localDay tz now) :
    (focusMinutes tz now cur (some n) uid sessions)[(d - (localDay tz now - (n - 1))).toNat]?
      = some { date := toISODate (pgDate tz d),
               minutes := mathRound ((specWorkSeconds sessions uid d : ℚ) / 60) } ∧
    |((mathRound ((specWorkSeconds sessions uid d : ℚ) / 60) : Int) : ℚ)
        - (specWorkSeconds sessions uid d : ℚ) / 60| ≤ 1 / 2 ∧
    focusMinutes tz now cur (some n) uid
        (sessions.filter (fun s => decide (s.session_type = "work")))
      = focusMinutes tz now cur (some n) uid sessions := by
  subst hcur
  refine ⟨?_, mathRound_near _, ?_⟩
  · rw [focusMinutes_eq _ _ _ _ _ _ hn, List.getElem?_map, dateSeries_getElem? _ _ _ hlo hhi]
    rfl
  · rw [focusMinutes_eq _ _ _ _ _ _ hn, focusMinutes_eq _ _ _ _ _ _ hn]
    apply List.map_congr_left
    intro e _
    have h : specWorkSeconds (sessions.filter (fun s => decide (s.session_type = "work"))) uid e
        = specWorkSeconds sessions uid e := by
      unfold specWorkSeconds
      rw [List.filter_filter]
      congr 2
      apply List.filter_congr
      intro s _
      by_cases hw : s.session_type = "work" <;> simp [hw]
    rw [h]

/-- The scenario of the specification for focus-minutes, on a UTC server: one work session
of 1500 seconds on 2024-06-08, today 2024-06-10, `days = 7`: 25 on 2024-06-08, 0 elsewhere. -/
theorem focus_scenario_at_utc :
    ((1 : Int) ≤ 7 ∧ ymd 2024 6 10 = localDay 0 (ymd 2024 6 10 * 86400 + 43200) ∧
      localDay 0 (ymd 2024 6 10 * 86400 + 43200) - (7 - 1) ≤ ymd 2024 6 8 ∧
      ymd 2024 6 8 ≤ localDay 0 (ymd 2024 6 10 * 86400 + 43200)) ∧
    (focusMinutes 0 (ymd 2024 6 10 * 86400 + 43200) (ymd 2024 6 10) (some 7) 1
        [{ user_id := 1, session_type := "work", duration := 1500,
           completed_at := some (ymd 2024 6 8 * 86400 + 36000) }])[
          (ymd 2024 6 8 - (localDay 0 (ymd 2024 6 10 * 86400 + 43200) - (7 - 1))).toNat]?
      = some { date := "2024-06-08", minutes := 25 } ∧
    focusMinutes 0 (ymd 2024 6 10 * 86400 + 43200) (ymd 2024 6 10) (some 7) 1
        [{ user_id := 1, session_type := "work", duration := 1500,
           completed_at := some (ymd 2024 6 8 * 86400 + 36000) }]
      = [{ date := "2024-06-04", minutes := 0 }, { date := "2024-06-05", minutes := 0 },
         { date := "2024-06-06", minutes := 0 }, { date := "2024-06-07", minutes := 0 },
         { date := "2024-06-08", minutes := 25 }, { date := "2024-06-09", minutes := 0 },
         { date := "2024-06-10", minutes := 0 }] := by
  refine ⟨⟨by decide, by decide, by decide, by decide⟩, ?_, ?_⟩
  · have h := (focus_bucket_value 0 (ymd 2024 6 10 * 86400 + 43200) (ymd 2024 6 10) 7
      (ymd 2024 6 8) 1
      [{ user_id := 1, session_type := "work", duration := 1500,
         completed_at := some (ymd 2024 6 8 * 86400 + 36000) }]
      (by decide) (by decide) (by decide) (by decide)).1
    rw [h, mathRound_div60]
    decide
  · rw [focusMinutes_eq _ _ _ _ _ _ (by decide)]
    simp only [mathRound_div60]
    decide

/-- The values of a bucket of task-throughput.  For every day `d` of the window, the record
at the position of `d` carries
`created` = the number of the user's tasks whose `created_at` falls on `d`, and `completed` =
the number of the user's tasks with status `completed` whose `updated_at` falls on `d`.  The
two counts are independent: `created` reads neither `status` nor `updated_at`, and
`completed` does not read `created_at`. -/
theorem task_bucket_value (tz now cur n d : Int) (uid : Nat) (tasks : List Task)
    (hn : 1 ≤ n) (hcur : cur = localDay tz now)
    (hlo : localDay tz now - (n - 1) ≤ d) (hhi : d ≤ localDay tz now) :
    (taskThroughput tz now cur (some n) uid tasks)[(d - (localDay tz now - (n - 1))).toNat]?
      = some { date := toISODate (pgDate tz d), created := (specCreated tasks uid d : Int),
               completed := (specCompleted tasks uid d : Int) } ∧
    (∀ f : Task → String × Option Int,
      (taskThroughput tz now cur (some n) uid
          (tasks.map (fun t => { t with status := (f t).1, updated_at := (f t).2 }))).map
          (fun r => r.created)
        = (taskThroughput tz now cur (some n) uid tasks).map (fun r => r.created)) ∧
    (∀ f : Task → Option Int,
      (taskThroughput tz now cur (some n) uid
          (tasks.map (fun t => { t with created_at := f t }))).map (fun r => r.completed)
        = (taskThroughput tz now cur (some n) uid tasks).map (fun r => r.completed)) := by
  subst hcur
  refine ⟨?_, ?_, ?_⟩
  · rw [taskThroughput_eq _ _ _ _ _ _ hn, List.getElem?_map, dateSeries_getElem? _ _ _ hlo hhi]
    rfl
  · intro f
    rw [taskThroughput_eq _ _ _ _ _ _ hn, taskThroughput_eq _ _ _ _ _ _ hn, List.map_map,
      List.map_map]
    apply List.map_congr_left
    intro e _
    simp only [Function.comp_apply, Nat.cast_inj]
    unfold specCreated
    rw [List.filter_map, List.length_map]
    rfl
  · intro f
    rw [taskThroughput_eq _ _ _ _ _ _ hn, taskThroughput_eq _ _ _ _ _ _ hn, List.map_map,
      List.map_map]
    apply List.map_congr_left
    intro e _
    simp only [Function.comp_apply, Nat.cast_inj]
    unfold specCompleted
    rw [List.filter_map, List.length_map]
    rfl

/-- The scenario of the specification for task-throughput, on a UTC server: a task created
on 2024-06-09 and completed (updated) on 2024-06-10: `created = 1` on 06-09 and
`completed = 1` on 06-10. -/
theorem task_scenario_at_utc :
    ((1 : Int) ≤ 7 ∧ ymd 2024 6 10 = localDay 0 (ymd 2024 6 10 * 86400 + 43200) ∧
      localDay 0 (ymd 2024 6 10 * 86400 + 43200) - (7 - 1) ≤ ymd 2024 6 9 ∧
      ymd 2024 6 9 ≤ localDay 0 (ymd 2024 6 10 * 86400 + 43200)) ∧
    (taskThroughput 0 (ymd 2024 6 10 * 86400 + 43200) (ymd 2024 6 10) (some 7) 1
        [{ user_id := 1, status := "completed", created_at := some (ymd 2024 6 9 * 86400 + 3600),
           updated_at := some (ymd 2024 6 10 * 86400 + 7200) }])[
          (ymd 2024 6 9 - (localDay 0 (ymd 2024 6 10 * 86400 + 43200) - (7 - 1))).toNat]?
      = some { date := "2024-06-09", created := 1, completed := 0 } ∧
    taskThroughput 0 (ymd 2024 6 10 * 86400 + 43200) (ymd 2024 6 10) (some 7) 1
        [{ user_id := 1, status := "completed", created_at := some (ymd 2024 6 9 * 86400 + 3600),
           updated_at := some (ymd 2024 6 10 * 86400 + 7200) }]
      = [{ date := "2024-06-04", created := 0, completed := 0 },
         { date := "2024-06-05", created := 0, completed := 0 },
         { date := "2024-06-06", created := 0, completed := 0 },
         { date := "2024-06-07", created := 0, completed := 0 },
         { date := "2024-06-08", created := 0, completed := 0 },
         { date := "2024-06-09", created := 1, completed := 0 },
         { date := "2024-06-10", created := 0, completed := 1 }] := by
  refine ⟨⟨by decide, by decide, by decide, by decide⟩, ?_, by decide⟩
  have h := (task_bucket_value 0 (ymd 2024 6 10 * 86400 + 43200) (ymd 2024 6 10) 7
    (ymd 2024 6 9) 1
    [{ user_id := 1, status := "completed", created_at := some (ymd 2024 6 9 * 86400 + 3600),
       updated_at := some (ymd 2024 6 10 * 86400 + 7200) }]
    (by decide) (by decide) (by decide) (by decide)).1
  rw [h]
  decide

/-! ## Lemmas: the canonical days of the reconciler -/

theorem localMidnight_inj (tz a b : Int) : localMidnight tz a = localMidnight tz b ↔ a = b := by
  unfold localMidnight
  constructor
  · intro h
    omega
  · intro h
    rw [h]

theorem last7Days_eq (tz now : Int) :
    last7Days tz (localMidnight tz (localDay tz now))
      = [6, 5, 4, 3, 2, 1, 0].map (fun (i : Int) =>
          ({ date := shortLabel (localDay tz now - i),
             dateKey := toISODate (localMidnight tz (localDay tz now - i)),
             isToday := decide (i = 0) } : Day)) := by
  unfold last7Days
  apply List.map_congr_left
  intro i _
  have h : decide (localMidnight tz (localDay tz now - i) = localMidnight tz (localDay tz now))
      = decide (i = 0) := by
    rw [decide_eq_decide, localMidnight_inj]
    omega
  simp only [localDay_localMidnight, toLocaleShort, h]

theorem emptyDays_eq (tz now : Int) :
    emptyDays tz (localMidnight tz (localDay tz now))
      = [6, 5, 4, 3, 2, 1, 0].map (fun (i : Int) =>
          (shortLabel (localDay tz now - i), decide (i = 0))) := by
  unfold emptyDays
  apply List.map_congr_left
  intro i _
  have h : decide (localMidnight tz (localDay tz now - i) = localMidnight tz (localDay tz now))
      = decide (i = 0) := by
    rw [decide_eq_decide, localMidnight_inj]
    omega
  simp only [localDay_localMidnight, toLocaleShort, h]

theorem finalFocusData_frame (days : List Day) (m : List (String × JsInteger)) :
    (finalFocusData days m).map (fun p => (p.date, p.isToday))
      = days.map (fun day => (day.date, day.isToday)) := by
  unfold finalFocusData
  rw [List.map_map]
  apply List.map_congr_left
  intro day _
  simp only [Function.comp_apply]
  cases mapGet m day.dateKey <;> rfl

theorem finalTaskData_frame (days : List Day) (m : List (String × Int × Int)) :
    (finalTaskData days m).map (fun p => (p.date, p.isToday))
      = days.map (fun day => (day.date, day.isToday)) := by
  unfold finalTaskData
  rw [List.map_map]
  apply List.map_congr_left
  intro day _
  simp only [Function.comp_apply]
  cases mapGet m day.dateKey <;> rfl

/-! ## Claims on the reconciler -/

/-- C2. Whatever the three settled results (fulfilled with any array, fulfilled with a value
that is not an array, or rejected), `fetchData` sets `focusData` and `taskData` to exactly
seven points, labelled with the consecutive calendar days `today - 6`, ..., `today` in this
order, and `isToday` is true on the last point and false on the six others. -/
theorem fetchData_seven_points (tz now : Int) (focusResult : Settled (Option FocusItem))
    (moodResult : Settled (Option MoodItem)) (tasksResult : Settled (Option TaskItem)) :
    (fetchData tz now focusResult moodResult tasksResult).focusData.length = 7 ∧
    (fetchData tz now focusResult moodResult tasksResult).taskData.length = 7 ∧
    (fetchData tz now focusResult moodResult tasksResult).focusData.map
        (fun p => (p.date, p.isToday))
      = [(shortLabel (localDay tz now - 6), false), (shortLabel (localDay tz now - 5), false),
         (shortLabel (localDay tz now - 4), false), (shortLabel (localDay tz now - 3), false),
         (shortLabel (localDay tz now - 2), false), (shortLabel (localDay tz now - 1), false),
         (shortLabel (localDay tz now), true)] ∧
    (fetchData tz now focusResult moodResult tasksResult).taskData.map
        (fun p => (p.date, p.isToday))
      = [(shortLabel (localDay tz now - 6), false), (shortLabel (localDay tz now - 5), false),
         (shortLabel (localDay tz now - 4), false), (shortLabel (localDay tz now - 3), false),
         (shortLabel (localDay tz now - 2), false), (shortLabel (localDay tz now - 1), false),
         (shortLabel (localDay tz now), true)] := by
  have hf : (fetchData tz now focusResult moodResult tasksResult).focusData.map
        (fun p => (p.date, p.isToday))
      = [6, 5, 4, 3, 2, 1, 0].map (fun (i : Int) =>
          (shortLabel (localDay tz now - i), decide (i = 0))) := by
    unfold fetchData
    cases formattedMood moodResult with
    | some mood =>
      simp only [finalFocusData_frame, last7Days_eq, List.map_map]
      rfl
    | none =>
      simp only [emptyDays_eq, List.map_map]
      rfl
  have ht : (fetchData tz now focusResult moodResult tasksResult).taskData.map
        (fun p => (p.date, p.isToday))
      = [6, 5, 4, 3, 2, 1, 0].map (fun (i : Int) =>
          (shortLabel (localDay tz now - i), decide (i = 0))) := by
    unfold fetchData
    cases formattedMood moodResult with
    | some mood =>
      simp only [finalTaskData_frame, last7Days_eq, List.map_map]
      rfl
    | none =>
      simp only [emptyDays_eq, List.map_map]
      rfl
  have hlf := congrArg List.length hf
  have hlt := congrArg List.length ht
  simp only [List.length_map, List.length_cons, List.length_nil] at hlf hlt
  refine ⟨hlf, hlt, ?_, ?_⟩
  · rw [hf]
    simp
  · rw [ht]
    simp

/-! ## Lemmas: the maps of the reconciler -/

theorem mapGet_nil {β : Type} (k : String) : mapGet ([] : List (String × β)) k = none := rfl

theorem mapGet_cons {β : Type} (p : String × β) (m : List (String × β)) (k : String) :
    mapGet (p :: m) k = if p.1 = k then some p.2 else mapGet m k := by
  unfold mapGet
  by_cases h : p.1 = k
  · simp [List.find?_cons, h]
  · have hb : (p.1 == k) = false := by simpa using h
    simp [List.find?_cons, h, hb]

theorem mapGet_of_any_false {β : Type} (m : List (String × β)) (k : String)
    (h : m.any (fun p => p.1 == k) = false) : mapGet m k = none := by
  induction m with
  | nil => rfl
  | cons p m ih =>
    simp only [List.any_cons, Bool.or_eq_false_iff, beq_eq_false_iff_ne, ne_eq] at h
    rw [mapGet_cons, if_neg h.1]
    exact ih h.2

theorem mapGet_replace {β : Type} (m : List (String × β)) (k : String) (v : β) (k2 : String) :
    mapGet (m.map (fun p => if p.1 == k then (k, v) else p)) k2
      = if k2 = k then (if m.any (fun p => p.1 == k) then some v else none) else mapGet m k2 := by
  induction m with
  | nil => simp [mapGet_nil]
  | cons p m ih =>
    rw [List.map_cons, mapGet_cons, ih, mapGet_cons, List.any_cons]
    by_cases h1 : p.1 = k
    · by_cases h2 : k2 = k
      · simp [h1, h2]
      · have h3 : ¬ k = k2 := fun h => h2 h.symm
        simp [h1, h2, h3]
    · have hb : (p.1 == k) = false := by simpa using h1
      by_cases h2 : k2 = k
      · subst h2
        rw [hb, Bool.false_or]
        simp [h1, hb]
      · simp [h1, h2, hb]

theorem mapGet_append_single {β : Type} (m : List (String × β)) (k : String) (v : β)
    (k2 : String) :
    mapGet (m ++ [(k, v)]) k2
      = (mapGet m k2).orElse (fun _ => if k2 = k then some v else none) := by
  induction m with
  | nil =>
    rw [List.nil_append, mapGet_cons, mapGet_nil]
    by_cases h : k = k2
    · simp [h]
    · have h3 : ¬ k2 = k := fun e => h e.symm
      simp [h, h3]
  | cons p m ih =>
    rw [List.cons_append, mapGet_cons, ih, mapGet_cons]
    by_cases h : p.1 = k2 <;> simp [h]

theorem mapGet_mapSet {β : Type} (m : List (String × β)) (k : String) (v : β) (k2 : String) :
    mapGet (mapSet m k v) k2 = if k2 = k then some v else mapGet m k2 := by
  unfold mapSet
  by_cases h : m.any (fun p => p.1 == k) = true
  · rw [if_pos h, mapGet_replace, if_pos h]
  · rw [if_neg h, mapGet_append_single]
    have h0 : m.any (fun p => p.1 == k) = false := by
      cases hb : m.any (fun p => p.1 == k)
      · rfl
      · exact absurd hb h
    by_cases h2 : k2 = k
    · subst h2
      rw [mapGet_of_any_false _ _ h0]
      simp
    · cases hg : mapGet m k2 <;> simp [h2]

theorem truthyDate_eq_some (d : Option String) (k : String) (hk : k ≠ "") :
    truthyDate d = some k ↔ d = some k := by
  unfold truthyDate
  cases d with
  | none => simp
  | some s =>
    by_cases hs : s = ""
    · subst hs
      simp
      exact fun e => hk e.symm
    · simp [hs]

theorem mapGet_collectByDate {α β : Type} (date : α → Option String) (entry : α → β)
    (value : List (Option α)) (k : String) (hk : k ≠ "") :
    mapGet (collectByDate date entry value) k = (specRecordFor date value k).map entry := by
  unfold collectByDate specRecordFor
  induction value using List.reverseRecOn with
  | nil => rfl
  | append_singleton xs x ih =>
    rw [List.foldl_append, List.foldl_cons, List.foldl_nil, List.filterMap_append,
      List.filter_append]
    cases x with
    | none =>
      have e : List.filterMap id ([none] : List (Option α)) = [] := rfl
      rw [e, List.filter_nil, List.append_nil]
      exact ih
    | some it =>
      have e : List.filterMap id [some it] = [it] := rfl
      rw [e]
      cases hd : truthyDate (date it) with
      | none =>
        have hne : ¬ date it = some k := fun h => by
          rw [← truthyDate_eq_some _ _ hk, hd] at h
          cases h
        have e2 : List.filter (fun it => decide (date it = some k)) [it] = [] := by
          simp [List.filter_cons, hne]
        rw [e2, List.append_nil]
        simp only [hd]
        exact ih
      | some k1 =>
        simp only [hd]
        rw [mapGet_mapSet, ih]
        by_cases h : k = k1
        · subst h
          have hdk : date it = some k := (truthyDate_eq_some _ _ hk).1 hd
          have e2 : List.filter (fun it => decide (date it = some k)) [it] = [it] := by
            simp [List.filter_cons, hdk]
          rw [e2, List.getLast?_append]
          simp
        · have hne : ¬ date it = some k := fun h2 => by
            rw [← truthyDate_eq_some _ _ hk, hd] at h2
            exact h (Option.some.inj h2).symm
          have e2 : List.filter (fun it => decide (date it = some k)) [it] = [] := by
            simp [List.filter_cons, hne]
          rw [e2, List.append_nil, if_neg h]

theorem specRecordFor_some {α : Type} (date : α → Option String) (value : List (Option α))
    (k : String) (it : α) (h : specRecordFor date value k = some it) :
    some it ∈ value ∧ date it = some k := by
  unfold specRecordFor at h
  have hm := List.mem_of_getLast?_eq_some h
  rw [List.mem_filter, List.mem_filterMap] at hm
  obtain ⟨⟨a, ha, hid⟩, hd⟩ := hm
  simp only [id_eq] at hid
  subst hid
  exact ⟨ha, by simpa using hd⟩

theorem specRecordFor_none {α : Type} (date : α → Option String) (value : List (Option α))
    (k : String) (h : specRecordFor date value k = none) (it : α) (hit : some it ∈ value) :
    date it ≠ some k := by
  unfold specRecordFor at h
  rw [List.getLast?_eq_none_iff, List.filter_eq_nil_iff] at h
  intro hd
  have hm : it ∈ value.filterMap id := by
    rw [List.mem_filterMap]
    exact ⟨some it, hit, rfl⟩
  exact h it hm (by simpa using hd)

theorem toISODate_ne_empty (t : Int) : toISODate t ≠ "" := by
  intro h
  have hl := congrArg String.length h
  simp only [toISODate, isoDate, pad2, String.length_append, String.length_mk,
    List.length_cons, List.length_nil, String.length_empty] at hl
  omega

theorem mapGet_focusMap (focusResult : Settled (Option FocusItem)) (k : String) (hk : k ≠ "") :
    mapGet (focusMap focusResult) k
      = (specFocusFor focusResult k).map (fun it => roundReal (parseFloatOr0 it.minutes)) := by
  cases focusResult with
  | fulfilled value =>
    simp only [focusMap, specFocusFor]
    rw [mapGet_collectByDate _ _ _ _ hk]
  | fulfilledNonArray => rfl
  | rejected => rfl

theorem mapGet_taskMap (tasksResult : Settled (Option TaskItem)) (k : String) (hk : k ≠ "") :
    mapGet (taskMap tasksResult) k
      = (specTaskFor tasksResult k).map
          (fun it => (parseIntOr0 it.created, parseIntOr0 it.completed)) := by
  cases tasksResult with
  | fulfilled value =>
    simp only [taskMap, specTaskFor]
    rw [mapGet_collectByDate _ _ _ _ hk]
  | fulfilledNonArray => rfl
  | rejected => rfl

theorem mem_last7Days_dateKey (tz today : Int) (day : Day) (h : day ∈ last7Days tz today) :
    day.dateKey ≠ "" := by
  unfold last7Days at h
  rw [List.mem_map] at h
  obtain ⟨i, _, rfl⟩ := h
  exact toISODate_ne_empty _

/-- C3 as stated fails: at noon of 2024-06-10 (UTC browser) the focus fetch succeeds with a
record dated `2024-06-10`, the key of the seventh canonical day, carrying 30 minutes, while the
mood fetch succeeds with a record whose `mood` is a truthy value that is not a string (the
number 5, say); `item.mood.charAt` is not a function, the `.map` over the mood records
throws, the `catch` block runs, and the point of that day carries 0 instead of 30.  And when
nothing throws, the point carries what `Math.round(parseFloat(...))` and `parseInt` read,
which need not be the value of the record: 25.5 minutes are shown as 26, 1e21 created tasks
as 1 and 2.7 completed tasks as 2. -/
theorem reconciler_point_values_counterexample :
    (last7Days 0 (localMidnight 0 (localDay 0 (ymd 2024 6 10 * 86400 + 43200))))[6]?
      = some { date := "Jun 10", dateKey := "2024-06-10", isToday := true } ∧
    (fetchData 0 (ymd 2024 6 10 * 86400 + 43200)
        (.fulfilled [some { date := some "2024-06-10", minutes := some 30 }])
        (.fulfilled [some { mood := .other, focusMinutes := some 1 }])
        .rejected).focusData[6]?
      = some { date := "Jun 10", minutes := 0, isToday := true } ∧
    (fetchData 0 (ymd 2024 6 10 * 86400 + 43200)
        (.fulfilled [some { date := some "2024-06-10", minutes := some (.num (51 / 2)) }])
        .rejected
        (.fulfilled [some { date := some "2024-06-10",
                            created := some (.num 1000000000000000000000),
                            completed := some (.num (27 / 10)) }])).focusData[6]?
      = some { date := "Jun 10", minutes := 26, isToday := true } ∧
    (fetchData 0 (ymd 2024 6 10 * 86400 + 43200)
        (.fulfilled [some { date := some "2024-06-10", minutes := some (.num (51 / 2)) }])
        .rejected
        (.fulfilled [some { date := some "2024-06-10",
                            created := some (.num 1000000000000000000000),
                            completed := some (.num (27 / 10)) }])).taskData[6]?
      = some { date := "Jun 10", created := 1, completed := 2, isToday := true } := by
  have h1 : (51 / 2 : ℚ) = Rat.divInt 51 2 := by
    rw [Rat.divInt_eq_div]
    norm_num
  have h2 : (27 / 10 : ℚ) = Rat.divInt 27 10 := by
    rw [Rat.divInt_eq_div]
    norm_num
  have h3 : (1000000000000000000000 : ℚ) = ((1000000000000000000000 : Nat) : ℚ) := by
    norm_num
  refine ⟨by decide, by decide, ?_, ?_⟩
  · rw [h1]
    simp only [fetchData, formattedMood, focusMap, roundReal_compute]
    decide
  · rw [h2, h3]
    decide

/-- C3, amended.  When the processing of the mood result does not throw, then for each of
the seven canonical days, in order: if the focus (resp. task) fetch succeeded with an array
holding a record whose `date` is the day's date key, the point carries
`Math.round(parseFloat(minutes) || 0)` (resp. `parseInt(created) || 0` and
`parseInt(completed) || 0`) of the last such record; otherwise (no such record, or the fetch
did not succeed with an array) the point is present with zeros.  No canonical day is omitted.
The value carried is the record's own value when that is an integer of magnitude below 1e21;
for a number `q` in general it is `q` rounded to the nearest integer, halves going up (resp.
`q` truncated towards zero, from 1e-6 to 1e21 in magnitude, and outside that range the
first digit of its exponent notation); and it is 0 when the field is absent or `parseFloat`
(resp. `parseInt`) reads no number from it. -/
theorem reconciler_point_values (tz now : Int) (focusResult : Settled (Option FocusItem))
    (moodResult : Settled (Option MoodItem)) (tasksResult : Settled (Option TaskItem))
    (mood : List MoodPoint) (hmood : formattedMood moodResult = some mood) :
    (fetchData tz now focusResult moodResult tasksResult).focusData
      = (last7Days tz (localMidnight tz (localDay tz now))).map (fun day =>
          ({ date := day.date,
             minutes := match specFocusFor focusResult day.dateKey with
               | some it => roundReal (parseFloatOr0 it.minutes)
               | none => 0,
             isToday := day.isToday } : FocusPoint)) ∧
    (fetchData tz now focusResult moodResult tasksResult).taskData
      = (last7Days tz (localMidnight tz (localDay tz now))).map (fun day =>
          ({ date := day.date,
             created := match specTaskFor tasksResult day.dateKey with
               | some it => parseIntOr0 it.created
               | none => 0,
             completed := match specTaskFor tasksResult day.dateKey with
               | some it => parseIntOr0 it.completed
               | none => 0,
             isToday := day.isToday } : TaskPoint)) ∧
    (last7Days tz (localMidnight tz (localDay tz now))).length = 7 ∧
    (∀ (k : String) (it : FocusItem), specFocusFor focusResult k = some it →
      ∃ value, focusResult = .fulfilled value ∧ some it ∈ value ∧ it.date = some k) ∧
    (∀ (k : String), specFocusFor focusResult k = none →
      ∀ value, focusResult = .fulfilled value → ∀ it, some it ∈ value → it.date ≠ some k) ∧
    (∀ (k : String) (it : TaskItem), specTaskFor tasksResult k = some it →
      ∃ value, tasksResult = .fulfilled value ∧ some it ∈ value ∧ it.date = some k) ∧
    (∀ (k : String), specTaskFor tasksResult k = none →
      ∀ value, tasksResult = .fulfilled value → ∀ it, some it ∈ value → it.date ≠ some k) ∧
    (∀ n : Int, roundReal (parseFloatOr0 (some (.num (n : ℚ)))) = .fin n) ∧
    (∀ q : ℚ, roundReal (parseFloatOr0 (some (.num q))) = .fin ⌊q + 1 / 2⌋) ∧
    (∀ i : Option Int, roundReal (parseFloatOr0 none) = 0 ∧
      roundReal (parseFloatOr0 (some (.other none i))) = 0) ∧
    (∀ (q : ℚ) (i : Option Int),
      roundReal (parseFloatOr0 (some (.other (some (.fin q)) i))) = .fin ⌊q + 1 / 2⌋ ∧
      roundReal (parseFloatOr0 (some (.other (some .posInf) i))) = .posInf ∧
      roundReal (parseFloatOr0 (some (.other (some .negInf) i))) = .negInf) ∧
    (∀ n : Int, |n| < 1000000000000000000000 → parseIntOr0 (some (.num (n : ℚ))) = n) ∧
    (∀ q : ℚ, 1 / 1000000 ≤ |q| → |q| < 1000000000000000000000 →
      parseIntOr0 (some (.num q)) = Int.tdiv q.num q.den) ∧
    (∀ f : Option JsReal, parseIntOr0 none = 0 ∧ parseIntOr0 (some (.other f none)) = 0) ∧
    (∀ (f : Option JsReal) (m : Int), parseIntOr0 (some (.other f (some m))) = m) ∧
    (parseIntOr0 (some (.num (51 / 2))) = 25 ∧ parseIntOr0 (some (.num (-51 / 2))) = -25 ∧
      parseIntOr0 (some (.num (1 / 2))) = 0 ∧
      parseIntOr0 (some (.num 1000000000000000000000)) = 1 ∧
      parseIntOr0 (some (.num 75000000000000000000000)) = 7 ∧
      parseIntOr0 (some (.num (-2500000000000000000000))) = -2 ∧
      parseIntOr0 (some (.num (1 / 1000000))) = 0 ∧
      parseIntOr0 (some (.num (5 / 10000000))) = 5 ∧
      parseIntOr0 (some (.num (-37 / 100000000))) = -3) := by
  refine ⟨?_, ?_, rfl, ?_, ?_, ?_, ?_, rounded_integer, fun q => rfl, rounded_nan,
    fun q i => ⟨rfl, rfl, rfl⟩, ?_, ?_, fun f => ⟨rfl, rfl⟩, ?_, ?_⟩
  · unfold fetchData
    simp only [hmood, finalFocusData]
    apply List.map_congr_left
    intro day hday
    rw [mapGet_focusMap _ _ (mem_last7Days_dateKey _ _ _ hday)]
    cases specFocusFor focusResult day.dateKey <;> rfl
  · unfold fetchData
    simp only [hmood, finalTaskData]
    apply List.map_congr_left
    intro day hday
    rw [mapGet_taskMap _ _ (mem_last7Days_dateKey _ _ _ hday)]
    cases specTaskFor tasksResult day.dateKey <;> rfl
  · intro k it h
    cases focusResult with
    | fulfilled value => exact ⟨value, rfl, specRecordFor_some _ _ _ _ h⟩
    | fulfilledNonArray => cases h
    | rejected => cases h
  · intro k h value hv it hit
    subst hv
    exact specRecordFor_none _ _ _ h it hit
  · intro k it h
    cases tasksResult with
    | fulfilled value => exact ⟨value, rfl, specRecordFor_some _ _ _ _ h⟩
    | fulfilledNonArray => cases h
    | rejected => cases h
  · intro k h value hv it hit
    subst hv
    exact specRecordFor_none _ _ _ h it hit
  · intro n hn
    show (some (parseIntNumber (n : ℚ))).getD 0 = n
    rw [parseIntNumber_int n hn]
    rfl
  · intro q h1 h2
    show (some (parseIntNumber q)).getD 0 = _
    rw [parseIntNumber_trunc q h1 h2]
    rfl
  · intro f m
    rfl
  · have e1 : (51 / 2 : ℚ) = Rat.divInt 51 2 := by rw [Rat.divInt_eq_div]; norm_num
    have e2 : (-51 / 2 : ℚ) = Rat.divInt (-51) 2 := by rw [Rat.divInt_eq_div]; norm_num
    have e3 : (1 / 2 : ℚ) = Rat.divInt 1 2 := by rw [Rat.divInt_eq_div]; norm_num
    have e4 : (1000000000000000000000 : ℚ) = ((1000000000000000000000 : Nat) : ℚ) := by
      norm_num
    have e5 : (75000000000000000000000 : ℚ) = ((75000000000000000000000 : Nat) : ℚ) := by
      norm_num
    have e6 : (-2500000000000000000000 : ℚ) = Rat.divInt (-2500000000000000000000) 1 := by
      rw [Rat.divInt_eq_div]
      norm_num
    have e7 : (1 / 1000000 : ℚ) = Rat.divInt 1 1000000 := by rw [Rat.divInt_eq_div]; norm_num
    have e8 : (5 / 10000000 : ℚ) = Rat.divInt 5 10000000 := by
      rw [Rat.divInt_eq_div]
      norm_num
    have e9 : (-37 / 100000000 : ℚ) = Rat.divInt (-37) 100000000 := by
      rw [Rat.divInt_eq_div]
      norm_num
    rw [e1, e2, e3, e4, e5, e6, e7, e8, e9]
    decide

/-- Witness of the amended C3: the mood fetch is rejected (its processing does not throw),
the focus fetch holds two records for 2024-06-08 and the last one is used. -/
theorem reconciler_point_values_witness :
    formattedMood (.rejected : Settled (Option MoodItem)) = some [] ∧
    ((fetchData 0 (ymd 2024 6 10 * 86400 + 43200)
        (.fulfilled [some { date := some "2024-06-08", minutes := some 25 }, none,
          some { date := some "2024-06-08", minutes := some 26 }])
        .rejected .rejected).focusData.map (fun p => p.minutes))
      = [0, 0, 0, 0, 26, 0, 0] := by
  refine ⟨rfl, ?_⟩
  rw [(reconciler_point_values 0 (ymd 2024 6 10 * 86400 + 43200)
    (.fulfilled [some { date := some "2024-06-08", minutes := some 25 }, none,
      some { date := some "2024-06-08", minutes := some 26 }])
    .rejected .rejected [] rfl).1]
  simp only [roundReal_compute]
  decide

/-- C9 as stated fails: at noon of 2024-06-10 (UTC browser), with a focus series carrying 30
minutes and a task series carrying 2 created and 1 completed on 2024-06-10, a rejected mood
fetch leaves these values on the point of today, while a mood fetch that succeeds with a
record whose `mood` is a truthy value that is not a string makes the `.map` throw, and the
`catch` block zeroes both series: the series are not those obtained had the mood fetch
succeeded. -/
theorem mood_rejected_counterexample :
    (fetchData 0 (ymd 2024 6 10 * 86400 + 43200)
        (.fulfilled [some { date := some "2024-06-10", minutes := some 30 }]) .rejected
        (.fulfilled [some { date := some "2024-06-10", created := some 2,
                            completed := some 1 }])).focusData[6]?
      = some { date := "Jun 10", minutes := 30, isToday := true } ∧
    (fetchData 0 (ymd 2024 6 10 * 86400 + 43200)
        (.fulfilled [some { date := some "2024-06-10", minutes := some 30 }]) .rejected
        (.fulfilled [some { date := some "2024-06-10", created := some 2,
                            completed := some 1 }])).taskData[6]?
      = some { date := "Jun 10", created := 2, completed := 1, isToday := true } ∧
    (fetchData 0 (ymd 2024 6 10 * 86400 + 43200)
        (.fulfilled [some { date := some "2024-06-10", minutes := some 30 }])
        (.fulfilled [some { mood := .other, focusMinutes := some 1 }])
        (.fulfilled [some { date := some "2024-06-10", created := some 2,
                            completed := some 1 }])).focusData[6]?
      = some { date := "Jun 10", minutes := 0, isToday := true } ∧
    (fetchData 0 (ymd 2024 6 10 * 86400 + 43200)
        (.fulfilled [some { date := some "2024-06-10", minutes := some 30 }])
        (.fulfilled [some { mood := .other, focusMinutes := some 1 }])
        (.fulfilled [some { date := some "2024-06-10", created := some 2,
                            completed := some 1 }])).taskData[6]?
      = some { date := "Jun 10", created := 0, completed := 0, isToday := true } := by
  refine ⟨?_, ?_, by decide, by decide⟩
  · simp only [fetchData, formattedMood, focusMap, roundReal_compute]
    decide
  · decide

/-- C9, amended.  When the mood fetch is rejected and the focus and task fetches are
fulfilled with arrays, `moodData` is exactly the one sentinel record `No mood data yet` with
0 minutes, and `focusData` and `taskData` are the seven points reconciled from their own
arrays: the same series as for every fulfilled mood fetch whose processing does not throw
(no kept mood record has a truthy mood that is not a string). -/
theorem mood_rejected_keeps_series (tz now : Int) (fv : List (Option FocusItem))
    (tv : List (Option TaskItem)) :
    (fetchData tz now (.fulfilled fv) .rejected (.fulfilled tv)).moodData
      = [{ mood := "No mood data yet", focusMinutes := 0 }] ∧
    (fetchData tz now (.fulfilled fv) .rejected (.fulfilled tv)).focusData
      = (last7Days tz (localMidnight tz (localDay tz now))).map (fun day =>
          ({ date := day.date,
             minutes := match specRecordFor (fun it => it.date) fv day.dateKey with
               | some it => roundReal (parseFloatOr0 it.minutes)
               | none => 0,
             isToday := day.isToday } : FocusPoint)) ∧
    (fetchData tz now (.fulfilled fv) .rejected (.fulfilled tv)).taskData
      = (last7Days tz (localMidnight tz (localDay tz now))).map (fun day =>
          ({ date := day.date,
             created := match specRecordFor (fun it => it.date) tv day.dateKey with
               | some it => parseIntOr0 it.created
               | none => 0,
             completed := match specRecordFor (fun it => it.date) tv day.dateKey with
               | some it => parseIntOr0 it.completed
               | none => 0,
             isToday := day.isToday } : TaskPoint)) ∧
    (fetchData tz now (.fulfilled fv) .rejected (.fulfilled tv)).focusData.length = 7 ∧
    (fetchData tz now (.fulfilled fv) .rejected (.fulfilled tv)).taskData.length = 7 ∧
    (∀ (mv : List (Option MoodItem)) (mood : List MoodPoint),
      formattedMood (.fulfilled mv) = some mood →
      (fetchData tz now (.fulfilled fv) (.fulfilled mv) (.fulfilled tv)).focusData
        = (fetchData tz now (.fulfilled fv) .rejected (.fulfilled tv)).focusData ∧
      (fetchData tz now (.fulfilled fv) (.fulfilled mv) (.fulfilled tv)).taskData
        = (fetchData tz now (.fulfilled fv) .rejected (.fulfilled tv)).taskData) := by
  have hf : (fetchData tz now (.fulfilled fv) .rejected (.fulfilled tv)).focusData
      = (last7Days tz (localMidnight tz (localDay tz now))).map (fun day =>
          ({ date := day.date,
             minutes := match specRecordFor (fun it => it.date) fv day.dateKey with
               | some it => roundReal (parseFloatOr0 it.minutes)
               | none => 0,
             isToday := day.isToday } : FocusPoint)) := by
    simp only [fetchData, formattedMood, finalFocusData]
    apply List.map_congr_left
    intro day hday
    rw [mapGet_focusMap _ _ (mem_last7Days_dateKey _ _ _ hday)]
    simp only [specFocusFor]
    cases specRecordFor (fun it => it.date) fv day.dateKey <;> rfl
  have ht : (fetchData tz now (.fulfilled fv) .rejected (.fulfilled tv)).taskData
      = (last7Days tz (localMidnight tz (localDay tz now))).map (fun day =>
          ({ date := day.date,
             created := match specRecordFor (fun it => it.date) tv day.dateKey with
               | some it => parseIntOr0 it.created
               | none => 0,
             completed := match specRecordFor (fun it => it.date) tv day.dateKey with
               | some it => parseIntOr0 it.completed
               | none => 0,
             isToday := day.isToday } : TaskPoint)) := by
    simp only [fetchData, formattedMood, finalTaskData]
    apply List.map_congr_left
    intro day hday
    rw [mapGet_taskMap _ _ (mem_last7Days_dateKey _ _ _ hday)]
    simp only [specTaskFor]
    cases specRecordFor (fun it => it.date) tv day.dateKey <;> rfl
  refine ⟨rfl, hf, ht, ?_, ?_, ?_⟩
  · rw [hf]
    rfl
  · rw [ht]
    rfl
  · intro mv mood hm
    have hr : formattedMood (.rejected : Settled (Option MoodItem)) = some [] := rfl
    unfold fetchData
    simp only [hm, hr, and_self]

/-- C10. When the three fetches are rejected, the `try` block completes (the mood processing
yields the empty list, nothing throws) and `fetchData` leaves: seven focus points and seven
task points with all values zero, labelled `today - 6`, ..., `today`, `isToday` true only
on the last one; `moodData` equal to the one sentinel record, with 0 minutes; and `loading`
false. -/
theorem all_rejected_zero_series (tz now : Int) :
    formattedMood (.rejected : Settled (Option MoodItem)) = some [] ∧
    (fetchData tz now .rejected .rejected .rejected).focusData
      = [{ date := shortLabel (localDay tz now - 6), minutes := 0, isToday := false },
         { date := shortLabel (localDay tz now - 5), minutes := 0, isToday := false },
         { date := shortLabel (localDay tz now - 4), minutes := 0, isToday := false },
         { date := shortLabel (localDay tz now - 3), minutes := 0, isToday := false },
         { date := shortLabel (localDay tz now - 2), minutes := 0, isToday := false },
         { date := shortLabel (localDay tz now - 1), minutes := 0, isToday := false },
         { date := shortLabel (localDay tz now), minutes := 0, isToday := true }] ∧
    (fetchData tz now .rejected .rejected .rejected).taskData
      = [{ date := shortLabel (localDay tz now - 6), created := 0, completed := 0,
           isToday := false },
         { date := shortLabel (localDay tz now - 5), created := 0, completed := 0,
           isToday := false },
         { date := shortLabel (localDay tz now - 4), created := 0, completed := 0,
           isToday := false },
         { date := shortLabel (localDay tz now - 3), created := 0, completed := 0,
           isToday := false },
         { date := shortLabel (localDay tz now - 2), created := 0, completed := 0,
           isToday := false },
         { date := shortLabel (localDay tz now - 1), created := 0, completed := 0,
           isToday := false },
         { date := shortLabel (localDay tz now), created := 0, completed := 0,
           isToday := true }] ∧
    (fetchData tz now .rejected .rejected .rejected).moodData
      = [{ mood := "No mood data yet", focusMinutes := 0 }] ∧
    (fetchData tz now .rejected .rejected .rejected).loading = false := by
  refine ⟨rfl, ?_, ?_, rfl, rfl⟩
  · simp only [fetchData, formattedMood, finalFocusData, last7Days_eq, focusMap, mapGet_nil,
      List.map_map]
    simp
  · simp only [fetchData, formattedMood, finalTaskData, last7Days_eq, taskMap, mapGet_nil,
      List.map_map]
    simp

/-! ## Lemmas: the mood-focus join -/

theorem moodJoin_sessions (uid : Nat) (p2 : Int) (l : String) (ml : MoodLog)
    (sessions : List TimerSession) :
    ((sessions.map (Prod.mk ml)).filter (fun pr =>
        decide (pr.1.user_id = uid) && tsGe pr.1.created_at p2 && decide (pr.1.mood = l) &&
          decide (pr.2.user_id = uid) && decide (pr.2.session_type = "work") &&
          (sqlDate pr.2.completed_at).isSome &&
          decide (sqlDate pr.1.created_at = sqlDate pr.2.completed_at))).map
        (fun pr => (pr.2.duration : ℚ) / 60)
      = if (moodInWindow uid p2 ml && decide (ml.mood = l)) = true then
          (sessions.filter (fun ts => moodJoinOn ml ts)).map (fun ts => (ts.duration : ℚ) / 60)
        else [] := by
  induction sessions with
  | nil => simp
  | cons ts rest ih =>
    rw [List.map_cons, List.filter_cons, List.filter_cons]
    by_cases hA : (moodInWindow uid p2 ml && decide (ml.mood = l)) = true
    · rw [if_pos hA] at ih ⊢
      have hA2 := hA
      simp only [moodInWindow, Bool.and_eq_true, decide_eq_true_eq] at hA2
      obtain ⟨⟨hu, hw⟩, hl⟩ := hA2
      by_cases hJ : moodJoinOn ml ts = true
      · have hJ2 := hJ
        simp only [moodJoinOn, Bool.and_eq_true, decide_eq_true_eq] at hJ2
        obtain ⟨⟨⟨hs, hd⟩, hu2⟩, hwk⟩ := hJ2
        have hP : (decide (ml.user_id = uid) && tsGe ml.created_at p2 && decide (ml.mood = l) &&
          decide (ts.user_id = uid) && decide (ts.session_type = "work") &&
          (sqlDate ts.completed_at).isSome &&
          decide (sqlDate ml.created_at = sqlDate ts.completed_at)) = true := by
          simp [hu, hw, hl, hu2, hwk, hs, hd]
        rw [if_pos hP, if_pos hJ, List.map_cons, List.map_cons, ih]
      · have hP : ¬ (decide (ml.user_id = uid) && tsGe ml.created_at p2 && decide (ml.mood = l) &&
          decide (ts.user_id = uid) && decide (ts.session_type = "work") &&
          (sqlDate ts.completed_at).isSome &&
          decide (sqlDate ml.created_at = sqlDate ts.completed_at)) = true := by
          intro hP
          apply hJ
          simp only [Bool.and_eq_true, decide_eq_true_eq] at hP
          obtain ⟨⟨⟨⟨⟨⟨_, _⟩, _⟩, hu2⟩, hwk⟩, hs⟩, hd⟩ := hP
          simp [moodJoinOn, hu, hu2, hwk, hs, hd]
        rw [if_neg hP, if_neg hJ, ih]
    · rw [if_neg hA] at ih ⊢
      have hP : ¬ (decide (ml.user_id = uid) && tsGe ml.created_at p2 && decide (ml.mood = l) &&
          decide (ts.user_id = uid) && decide (ts.session_type = "work") &&
          (sqlDate ts.completed_at).isSome &&
          decide (sqlDate ml.created_at = sqlDate ts.completed_at)) = true := by
        intro hP
        apply hA
        simp only [Bool.and_eq_true, decide_eq_true_eq] at hP
        obtain ⟨⟨⟨⟨⟨⟨hu, hw⟩, hl⟩, _⟩, _⟩, _⟩, _⟩ := hP
        simp [moodInWindow, hu, hw, hl]
      rw [if_neg hP, ih]

theorem moodJoin_eq_pairs (moods : List MoodLog) (sessions : List TimerSession) (uid : Nat)
    (p2 : Int) (l : String) :
    moodJoin moods sessions uid p2 l
      = (specMoodPairs moods sessions uid p2 l).map (fun pr => (pr.2.duration : ℚ) / 60) := by
  unfold moodJoin specMoodPairs
  induction moods with
  | nil => rfl
  | cons ml rest ih =>
    have hp : (ml :: rest).product sessions
        = sessions.map (Prod.mk ml) ++ rest.product sessions := List.product_cons ml rest sessions
    rw [hp, List.filter_append, List.map_append, moodJoin_sessions, ← ih, List.filter_cons]
    by_cases hA : (moodInWindow uid p2 ml && decide (ml.mood = l)) = true
    · rw [if_pos hA, if_pos hA, List.flatMap_cons]
    · rw [if_neg hA, if_neg hA, List.nil_append]

/-! ## Claims on mood-focus -/

/-- C7 as stated fails.  The user logs `happy` twice on 2024-06-08 and once on 2024-06-09,
and completes one work session of 600 seconds on 06-08 and one of 2400 seconds on 06-09.
The average of `duration / 60` over these two sessions is 25, but the handler returns 20:
the join yields the session of 06-08 once for each of the two entries of that day. -/
theorem mood_focus_average_counterexample :
    moodFocus 0 (ymd 2024 6 10 * 86400 + 43200) (some 7) 1
        [{ user_id := 1, mood := "happy", created_at := some (ymd 2024 6 8 * 86400 + 100) },
         { user_id := 1, mood := "happy", created_at := some (ymd 2024 6 8 * 86400 + 200) },
         { user_id := 1, mood := "happy", created_at := some (ymd 2024 6 9 * 86400 + 100) }]
        [{ user_id := 1, session_type := "work", duration := 600,
           completed_at := some (ymd 2024 6 8 * 86400 + 3600) },
         { user_id := 1, session_type := "work", duration := 2400,
           completed_at := some (ymd 2024 6 9 * 86400 + 3600) }]
      = [{ mood := "happy", focusMinutes := 20 }] ∧
    specMoodFocus
        [{ user_id := 1, mood := "happy", created_at := some (ymd 2024 6 8 * 86400 + 100) },
         { user_id := 1, mood := "happy", created_at := some (ymd 2024 6 8 * 86400 + 200) },
         { user_id := 1, mood := "happy", created_at := some (ymd 2024 6 9 * 86400 + 100) }]
        [{ user_id := 1, session_type := "work", duration := 600,
           completed_at := some (ymd 2024 6 8 * 86400 + 3600) },
         { user_id := 1, session_type := "work", duration := 2400,
           completed_at := some (ymd 2024 6 9 * 86400 + 3600) }]
        1 (pgParam 0 (startDate 0 (ymd 2024 6 10 * 86400 + 43200) 7)) "happy"
      = 25 := by
  constructor
  · simp [moodFocus, moodData, moodRows, moodLabels, moodJoin, moodInWindow, moodJoinOn,
      sqlAvg, tsGe, sqlDate, resolveDays, startDate, pgParam, localMidnight, localDay, ymd,
      mathRound, List.dedup]
    norm_num
  · simp [specMoodFocus, specMoodSessions, sqlAvg, tsGe, sqlDate, startDate, pgParam,
      localMidnight, localDay, ymd, mathRound]
    norm_num

/-- C7, amended.  For every mood label `l` of the response, `focusMinutes` is
`Math.round` of the average of `duration / 60` over all pairs of a mood entry of the user
labelled `l` in the window and a work session of the user completed on the calendar day of
that entry (a session counts once for each such entry of its day), and it is 0 when there is
no such pair. -/
theorem mood_focus_pair_average (tz now : Int) (parsed : Option Int) (uid : Nat)
    (moods : List MoodLog) (sessions : List TimerSession) :
    moodFocus tz now parsed uid moods sessions
      = (moodLabels moods uid (pgParam tz (startDate tz now (resolveDays parsed)))).map (fun l =>
          ({ mood := l,
             focusMinutes :=
               match specMoodPairs moods sessions uid
                 (pgParam tz (startDate tz now (resolveDays parsed))) l with
               | [] => 0
               | prs => mathRound
                   ((prs.map (fun pr => (pr.2.duration : ℚ) / 60)).sum / (prs.length : ℚ)) }
            : MoodRecord)) := by
  unfold moodFocus moodData moodRows
  simp only [List.map_map]
  apply List.map_congr_left
  intro l _
  simp only [Function.comp_apply, moodJoin_eq_pairs]
  cases h : specMoodPairs moods sessions uid
      (pgParam tz (startDate tz now (resolveDays parsed))) l with
  | nil =>
    have h0 : mathRound ((0 : Int) : ℚ) = 0 := mathRound_intCast 0
    simpa [sqlAvg] using h0
  | cons pr prs => simp [sqlAvg]

/-- Witness of the amended C7, the scenario of the specification: the mood `happy` and one
work session of 1500 seconds, both on 2024-06-08, give `happy` with 25 focus minutes. -/
theorem mood_focus_pair_average_witness :
    moodFocus 0 (ymd 2024 6 10 * 86400 + 43200) (some 7) 1
        [{ user_id := 1, mood := "happy", created_at := some (ymd 2024 6 8 * 86400 + 100) }]
        [{ user_id := 1, session_type := "work", duration := 1500,
           completed_at := some (ymd 2024 6 8 * 86400 + 3600) }]
      = [{ mood := "happy", focusMinutes := 25 }] := by
  rw [mood_focus_pair_average]
  simp [moodLabels, specMoodPairs, moodInWindow, tsGe, sqlDate, resolveDays, startDate,
    pgParam, localMidnight, localDay, ymd, mathRound, List.dedup, List.product]
  norm_num

/-- C8. With `days = n ≥ 1` and no mood entry dated after the current day, mood-focus
returns exactly one record for each distinct mood label that the user logged in the window
`today - (n - 1)`, ..., `today`: the labels of the response are strictly ascending (so none
is repeated), and a label occurs in the response exactly when the user has an entry with
that label on a day of the window. -/
theorem mood_focus_labels (tz now n : Int) (uid : Nat) (moods : List MoodLog)
    (sessions : List TimerSession) (hn : 1 ≤ n)
    (hpast : ∀ ml ∈ moods, ∀ d, sqlDate ml.created_at = some d → d ≤ localDay tz now) :
    List.Sorted (fun a b => a < b)
      ((moodFocus tz now (some n) uid moods sessions).map (fun r => r.mood)) ∧
    ((moodFocus tz now (some n) uid moods sessions).map (fun r => r.mood)).Nodup ∧
    (∀ l : String,
      l ∈ (moodFocus tz now (some n) uid moods sessions).map (fun r => r.mood) ↔
        ∃ ml ∈ moods, ml.user_id = uid ∧ ml.mood = l ∧
          ∃ d, sqlDate ml.created_at = some d ∧
            localDay tz now - (n - 1) ≤ d ∧ d ≤ localDay tz now) := by
  have hlab : (moodFocus tz now (some n) uid moods sessions).map (fun r => r.mood)
      = moodLabels moods uid ((localDay tz now - (n - 1)) * 86400) := by
    unfold moodFocus moodData moodRows
    simp only [List.map_map, resolveDays_pos n hn, pgParam_startDate]
    exact List.map_id _
  rw [hlab]
  unfold moodLabels
  have hnd : (List.insertionSort (fun a b => a ≤ b)
      ((List.map (fun ml => ml.mood)
        (List.filter (moodInWindow uid ((localDay tz now - (n - 1)) * 86400)) moods)).dedup)).Nodup :=
    (List.perm_insertionSort _ _).nodup_iff.2 (List.nodup_dedup _)
  refine ⟨?_, hnd, ?_⟩
  · exact (List.sorted_insertionSort (fun (a b : String) => a ≤ b) _).lt_of_le hnd
  · intro l
    rw [(List.perm_insertionSort _ _).mem_iff, List.mem_dedup, List.mem_map]
    constructor
    · rintro ⟨ml, hml, rfl⟩
      rw [List.mem_filter] at hml
      obtain ⟨hmem, hw⟩ := hml
      simp only [moodInWindow, Bool.and_eq_true, decide_eq_true_eq] at hw
      obtain ⟨hu, hge⟩ := hw
      refine ⟨ml, hmem, hu, rfl, ?_⟩
      cases hc : ml.created_at with
      | none => simp [hc, tsGe] at hge
      | some t =>
        simp only [hc, tsGe, decide_eq_true_eq] at hge
        refine ⟨t / 86400, rfl, ?_, hpast ml hmem (t / 86400) (by simp [hc, sqlDate])⟩
        exact (Int.le_ediv_iff_mul_le (by decide)).2 hge
    · rintro ⟨ml, hmem, hu, rfl, d, hd, hlo, _⟩
      refine ⟨ml, ?_, rfl⟩
      rw [List.mem_filter]
      refine ⟨hmem, ?_⟩
      simp only [moodInWindow, Bool.and_eq_true, decide_eq_true_eq]
      refine ⟨hu, ?_⟩
      cases hc : ml.created_at with
      | none => simp [hc, sqlDate] at hd
      | some t =>
        simp only [hc, sqlDate, Option.map_some', Option.some.injEq] at hd
        simp only [tsGe, decide_eq_true_eq]
        have : localDay tz now - (n - 1) ≤ t / 86400 := by omega
        exact (Int.le_ediv_iff_mul_le (by decide)).1 this

/-- Witness of C8: today 2024-06-10, `days = 7`, the moods `happy` (06-08) and `calm`
(06-09) of user 1. -/
theorem mood_focus_labels_witness :
    ((1 : Int) ≤ 7 ∧
      ∀ ml ∈ ([{ user_id := 1, mood := "happy", created_at := some (ymd 2024 6 8 * 86400 + 100) },
               { user_id := 1, mood := "calm", created_at := some (ymd 2024 6 9 * 86400 + 100) }]
              : List MoodLog),
        ∀ d, sqlDate ml.created_at = some d → d ≤ localDay 0 (ymd 2024 6 10 * 86400 + 43200)) ∧
    ((moodFocus 0 (ymd 2024 6 10 * 86400 + 43200) (some 7) 1
        [{ user_id := 1, mood := "happy", created_at := some (ymd 2024 6 8 * 86400 + 100) },
         { user_id := 1, mood := "calm", created_at := some (ymd 2024 6 9 * 86400 + 100) }]
        []).map (fun r => r.mood)).Nodup := by
  have hp : ∀ ml ∈ ([{ user_id := 1, mood := "happy", created_at := some (ymd 2024 6 8 * 86400 + 100) },
               { user_id := 1, mood := "calm", created_at := some (ymd 2024 6 9 * 86400 + 100) }]
              : List MoodLog),
        ∀ d, sqlDate ml.created_at = some d → d ≤ localDay 0 (ymd 2024 6 10 * 86400 + 43200) := by
    intro ml hml d hd
    simp only [List.mem_cons, List.mem_singleton, List.not_mem_nil, or_false] at hml
    rcases hml with rfl | rfl
    · simp only [sqlDate, Option.map_some', Option.some.injEq] at hd
      subst hd
      decide
    · simp only [sqlDate, Option.map_some', Option.some.injEq] at hd
      subst hd
      decide
  exact ⟨⟨by decide, hp⟩,
    (mood_focus_labels 0 (ymd 2024 6 10 * 86400 + 43200) 7 1 _ [] (by decide) hp).2.1⟩

/-! ## Lemmas: the mood records of the reconciler -/

theorem mapM_moodMapped_some (l : List (Option MoodItem))
    (h : ∀ item ∈ l, ∃ p, moodMapped item = some p) :
    l.mapM moodMapped = some (l.filterMap moodMapped) ∧
      (l.filterMap moodMapped).length = l.length := by
  induction l with
  | nil => exact ⟨rfl, rfl⟩
  | cons a l ih =>
    obtain ⟨p, hp⟩ := h a (List.mem_cons_self a l)
    obtain ⟨h1, h2⟩ := ih (fun item hi => h item (List.mem_cons_of_mem a hi))
    constructor
    · rw [List.mapM_cons, hp, h1, List.filterMap_cons_some hp]
      rfl
    · rw [List.filterMap_cons_some hp, List.length_cons, List.length_cons, h2]

theorem mapM_moodMapped_none (l : List (Option MoodItem))
    (h : ∃ item ∈ l, moodMapped item = none) : l.mapM moodMapped = none := by
  induction l with
  | nil =>
    obtain ⟨item, hi, _⟩ := h
    cases hi
  | cons a l ih =>
    rw [List.mapM_cons]
    cases ha : moodMapped a with
    | none => rfl
    | some p =>
      obtain ⟨item, hi, hn⟩ := h
      rcases List.mem_cons.1 hi with rfl | hi2
      · rw [ha] at hn
        cases hn
      · rw [ih ⟨item, hi2, hn⟩]
        rfl

theorem moodMapped_of_kept (item : Option MoodItem) (hk : moodKept item = true)
    (hs : ∀ it, item = some it → it.mood ≠ .other) : ∃ p, moodMapped item = some p := by
  cases item with
  | none => cases hk
  | some it =>
    have hne := hs it rfl
    cases hm : it.mood with
    | absent => simp [moodKept, hm] at hk
    | text s =>
      refine ⟨{ mood := capitalize s,
                focusMinutes := roundReal (parseFloatOr0 it.focusMinutes) }, ?_⟩
      simp [moodMapped, hm]
    | other => exact absurd hm hne

/-! ## Further claims on the reconciler -/

/-- C11 as stated fails, in a case where the mood fetch succeeds with a record carrying a
non-empty mood.  First, when that mood is a truthy value that is not a string (the number 5,
say), the mood `.map` throws and `moodData` is the one placeholder record
`No data available` of the `catch` block.  Second, when that mood is the string
`no mood data yet` with 0 focus minutes, `moodData` is one record equal to the sentinel. -/
theorem mood_sentinel_counterexample :
    moodKept (some { mood := .other, focusMinutes := some 1 }) = true ∧
    (fetchData 0 (ymd 2024 6 10 * 86400 + 43200) .rejected
        (.fulfilled [some { mood := .other, focusMinutes := some 1 }]) .rejected).moodData
      = [{ mood := "No data available", focusMinutes := 0 }] ∧
    moodKept (some { mood := .text "no mood data yet", focusMinutes := none }) = true ∧
    (fetchData 0 (ymd 2024 6 10 * 86400 + 43200) .rejected
        (.fulfilled [some { mood := .text "no mood data yet", focusMinutes := none }])
        .rejected).moodData
      = [{ mood := "No mood data yet", focusMinutes := 0 }] := by
  refine ⟨by decide, by decide, by decide, ?_⟩
  have hk : moodKept (some { mood := .text "no mood data yet", focusMinutes := none }) = true := by
    decide
  have hm : formattedMood
      (.fulfilled [some { mood := .text "no mood data yet", focusMinutes := none }])
      = some [{ mood := "No mood data yet", focusMinutes := 0 }] := by
    simp only [formattedMood, List.filter, hk, List.mapM_cons, List.mapM_nil, moodMapped,
      roundReal_compute]
    decide
  simp only [fetchData, hm]
  rfl

/-- C11, amended.  `moodData` is the single sentinel record `No mood data yet` with 0 minutes
whenever the mood fetch fails, returns a value that is not an array, or returns an array
with no record carrying a non-empty mood.  When the array holds such a record and every such
mood is a string, `moodData` is exactly the list of those records, in order, each with its
label capitalised and its minutes rounded: it is not empty, no sentinel is substituted and
nothing is filled per day. -/
theorem mood_sentinel_cases (tz now : Int) (focusResult : Settled (Option FocusItem))
    (moodResult : Settled (Option MoodItem)) (tasksResult : Settled (Option TaskItem)) :
    ((∀ value, moodResult = .fulfilled value → ∀ item ∈ value, moodKept item = false) →
      (fetchData tz now focusResult moodResult tasksResult).moodData
        = [{ mood := "No mood data yet", focusMinutes := 0 }]) ∧
    (∀ value, moodResult = .fulfilled value →
      (∃ item ∈ value, moodKept item = true) →
      (∀ item ∈ value, ∀ it, item = some it → it.mood ≠ .other) →
      (fetchData tz now focusResult moodResult tasksResult).moodData
          = (value.filter moodKept).filterMap moodMapped ∧
        (fetchData tz now focusResult moodResult tasksResult).moodData.length
          = (value.filter moodKept).length ∧
        (fetchData tz now focusResult moodResult tasksResult).moodData ≠ []) := by
  constructor
  · intro h
    cases moodResult with
    | fulfilled value =>
      have hf : value.filter moodKept = [] := by
        rw [List.filter_eq_nil_iff]
        intro item hi
        simp [h value rfl item hi]
      simp only [fetchData, formattedMood, hf, List.mapM_nil]
      rfl
    | fulfilledNonArray => rfl
    | rejected => rfl
  · intro value hv hex hstr
    subst hv
    have hall : ∀ item ∈ value.filter moodKept, ∃ p, moodMapped item = some p := by
      intro item hi
      rw [List.mem_filter] at hi
      exact moodMapped_of_kept item hi.2 (hstr item hi.1)
    obtain ⟨h1, h2⟩ := mapM_moodMapped_some _ hall
    have hne : value.filter moodKept ≠ [] := by
      obtain ⟨item, hi, hk⟩ := hex
      intro h0
      have : item ∈ value.filter moodKept := List.mem_filter.2 ⟨hi, hk⟩
      rw [h0] at this
      cases this
    have hne2 : (value.filter moodKept).filterMap moodMapped ≠ [] := by
      intro h0
      rw [h0] at h2
      exact hne (List.length_eq_zero.1 h2.symm)
    have hd : (fetchData tz now focusResult (.fulfilled value) tasksResult).moodData
        = (value.filter moodKept).filterMap moodMapped := by
      simp only [fetchData, formattedMood, h1]
      cases hl : (value.filter moodKept).filterMap moodMapped with
      | nil => exact absurd hl hne2
      | cons a l => rfl
    exact ⟨hd, by rw [hd, h2], by rw [hd]; exact hne2⟩

theorem formattedMood_texts (recs : List (String × Option JsField))
    (hne : ∀ r ∈ recs, r.1 ≠ "") :
    formattedMood (.fulfilled (recs.map (fun r =>
        some ({ mood := .text r.1, focusMinutes := r.2 } : MoodItem))))
      = some (recs.map (fun r =>
          ({ mood := capitalize r.1,
             focusMinutes := roundReal (parseFloatOr0 r.2) } : MoodPoint))) := by
  induction recs with
  | nil => rfl
  | cons r recs ih =>
    have hr : r.1 ≠ "" := hne r (List.mem_cons_self r recs)
    have ih2 := ih (fun x hx => hne x (List.mem_cons_of_mem r hx))
    simp only [formattedMood] at ih2 ⊢
    have hk : moodKept (some ({ mood := .text r.1, focusMinutes := r.2 } : MoodItem)) = true := by
      simp [moodKept, hr]
    rw [List.map_cons, List.filter_cons, if_pos hk, List.mapM_cons, ih2]
    simp only [moodMapped, List.map_cons]
    rfl

/-- C12 as stated fails: the mood fetch succeeds with the two records `happy` and `Happy`,
whose labels are non-empty and distinct; `moodData` has two entries, both labelled `Happy`. -/
theorem mood_labels_distinct_counterexample :
    ("happy" : String) ≠ "Happy" ∧
    (fetchData 0 (ymd 2024 6 10 * 86400 + 43200) .rejected
        (.fulfilled [some { mood := .text "happy", focusMinutes := none },
          some { mood := .text "Happy", focusMinutes := none }]) .rejected).moodData
      = [{ mood := "Happy", focusMinutes := 0 }, { mood := "Happy", focusMinutes := 0 }] := by
  refine ⟨by decide, ?_⟩
  have hm := formattedMood_texts [("happy", none), ("Happy", none)] (by decide)
  simp only [List.map_cons, List.map_nil] at hm
  simp only [fetchData, hm, roundReal_compute]
  decide

/-- C12, amended.  When the mood fetch succeeds with `k ≥ 1` records whose mood labels are
non-empty strings, `moodData` has exactly `k` entries, in the same order, the label of each
being the fetched label with its first UTF-16 code unit in upper case (by the case mapping
of Unicode, under which one letter can become several: `ß` becomes `SS`), and its minutes
being `Math.round(parseFloat(focusMinutes) || 0)`; these labels are pairwise distinct exactly
when the fetched labels are still pairwise distinct once capitalised. -/
theorem mood_entries_in_order (tz now : Int) (focusResult : Settled (Option FocusItem))
    (tasksResult : Settled (Option TaskItem)) (recs : List (String × Option JsField))
    (hk : recs ≠ []) (hne : ∀ r ∈ recs, r.1 ≠ "") :
    (fetchData tz now focusResult
        (.fulfilled (recs.map (fun r =>
          some ({ mood := .text r.1, focusMinutes := r.2 } : MoodItem)))) tasksResult).moodData
      = recs.map (fun r =>
          ({ mood := capitalize r.1,
             focusMinutes := roundReal (parseFloatOr0 r.2) } : MoodPoint)) ∧
    (fetchData tz now focusResult
        (.fulfilled (recs.map (fun r =>
          some ({ mood := .text r.1, focusMinutes := r.2 } : MoodItem)))) tasksResult).moodData.length
      = recs.length ∧
    (((fetchData tz now focusResult
        (.fulfilled (recs.map (fun r =>
          some ({ mood := .text r.1, focusMinutes := r.2 } : MoodItem)))) tasksResult).moodData.map
        (fun p => p.mood)).Nodup ↔ (recs.map (fun r => capitalize r.1)).Nodup) ∧
    capitalize "happy" = "Happy" ∧ capitalize "Happy" = "Happy" ∧
    capitalize "émue" = "Émue" ∧ capitalize "ärgerlich" = "Ärgerlich" ∧
    capitalize "ßig" = "SSig" ∧ capitalize "ﬁne" = "FIne" ∧ capitalize "я" = "Я" ∧
    capitalize "ǆ" = "Ǆ" ∧ capitalize "😀 ok" = "😀 ok" ∧ capitalize "𐐨x" = "𐐨x" ∧
    capitalize "7 up" = "7 up" := by
  have hd : (fetchData tz now focusResult
        (.fulfilled (recs.map (fun r =>
          some ({ mood := .text r.1, focusMinutes := r.2 } : MoodItem)))) tasksResult).moodData
      = recs.map (fun r =>
          ({ mood := capitalize r.1,
             focusMinutes := roundReal (parseFloatOr0 r.2) } : MoodPoint)) := by
    simp only [fetchData, formattedMood_texts recs hne]
    cases recs with
    | nil => exact absurd rfl hk
    | cons r rs => rfl
  refine ⟨hd, ?_, ?_, ?_⟩
  · rw [hd, List.length_map]
  · rw [hd, List.map_map]
    rfl
  · decide

/-- Witness of the amended C12: the records `happy` (25 minutes) and `calm` (no minutes). -/
theorem mood_entries_in_order_witness :
    (([("happy", some 25), ("calm", none)] : List (String × Option JsField)) ≠ [] ∧
      ∀ r ∈ ([("happy", some 25), ("calm", none)] : List (String × Option JsField)), r.1 ≠ "") ∧
    (fetchData 0 (ymd 2024 6 10 * 86400 + 43200) .rejected
        (.fulfilled [some { mood := .text "happy", focusMinutes := some 25 },
          some { mood := .text "calm", focusMinutes := none }]) .rejected).moodData
      = [{ mood := "Happy", focusMinutes := 25 }, { mood := "Calm", focusMinutes := 0 }] := by
  refine ⟨⟨by decide, by decide⟩, ?_⟩
  have h := (mood_entries_in_order 0 (ymd 2024 6 10 * 86400 + 43200) .rejected .rejected
    [("happy", some 25), ("calm", none)] (by decide) (by decide)).1
  simp only [List.map_cons, List.map_nil] at h
  rw [h]
  simp only [roundReal_compute]
  decide

theorem collectByDate_filter {α β : Type} (date : α → Option String) (entry : α → β)
    (value : List (Option α)) :
    collectByDate date entry (value.filter (specHasDate date)) = collectByDate date entry value := by
  unfold collectByDate
  generalize ([] : List (String × β)) = m
  induction value generalizing m with
  | nil => rfl
  | cons item rest ih =>
    rw [List.filter_cons]
    cases item with
    | none =>
      have h : specHasDate date (none : Option α) = false := rfl
      rw [h]
      simpa using ih m
    | some it =>
      cases hd : truthyDate (date it) with
      | none =>
        have h : specHasDate date (some it) = false := by simp [specHasDate, hd]
        rw [h]
        simp only [Bool.false_eq_true, if_false, List.foldl_cons, hd]
        exact ih m
      | some k =>
        have h : specHasDate date (some it) = true := by simp [specHasDate, hd]
        rw [h]
        simp only [if_true, List.foldl_cons, hd]
        exact ih _

theorem focusMap_removeMalformed (focusResult : Settled (Option FocusItem)) :
    focusMap (specRemoveMalformed (specHasDate (fun it => it.date)) focusResult)
      = focusMap focusResult := by
  cases focusResult with
  | fulfilled value =>
    simp only [specRemoveMalformed, focusMap]
    exact collectByDate_filter _ _ value
  | fulfilledNonArray => rfl
  | rejected => rfl

theorem taskMap_removeMalformed (tasksResult : Settled (Option TaskItem)) :
    taskMap (specRemoveMalformed (specHasDate (fun it => it.date)) tasksResult)
      = taskMap tasksResult := by
  cases tasksResult with
  | fulfilled value =>
    simp only [specRemoveMalformed, taskMap]
    exact collectByDate_filter _ _ value
  | fulfilledNonArray => rfl
  | rejected => rfl

theorem formattedMood_removeMalformed (moodResult : Settled (Option MoodItem)) :
    formattedMood (specRemoveMalformed moodKept moodResult) = formattedMood moodResult := by
  cases moodResult with
  | fulfilled value =>
    simp only [specRemoveMalformed, formattedMood, List.filter_filter, Bool.and_self]
  | fulfilledNonArray => rfl
  | rejected => rfl

/-- C13. A malformed record of a fetched array (a falsy entry such as `null`, a focus or task
record without a date, a mood record without a mood) is skipped on its own: the state that
`fetchData` leaves is the state it leaves for the same arrays with the malformed records
removed, whether they are removed from one array or from the three of them. -/
theorem malformed_records_skipped (tz now : Int) (focusResult : Settled (Option FocusItem))
    (moodResult : Settled (Option MoodItem)) (tasksResult : Settled (Option TaskItem)) :
    fetchData tz now (specRemoveMalformed (specHasDate (fun it => it.date)) focusResult)
        moodResult tasksResult
      = fetchData tz now focusResult moodResult tasksResult ∧
    fetchData tz now focusResult (specRemoveMalformed moodKept moodResult) tasksResult
      = fetchData tz now focusResult moodResult tasksResult ∧
    fetchData tz now focusResult moodResult
        (specRemoveMalformed (specHasDate (fun it => it.date)) tasksResult)
      = fetchData tz now focusResult moodResult tasksResult ∧
    fetchData tz now (specRemoveMalformed (specHasDate (fun it => it.date)) focusResult)
        (specRemoveMalformed moodKept moodResult)
        (specRemoveMalformed (specHasDate (fun it => it.date)) tasksResult)
      = fetchData tz now focusResult moodResult tasksResult := by
  refine ⟨?_, ?_, ?_, ?_⟩ <;>
    simp only [fetchData, focusMap_removeMalformed, taskMap_removeMalformed,
      formattedMood_removeMalformed]

/-- C14 as stated fails: at noon of 2024-06-10 (UTC browser), with the same focus outcome (one
record of 30 minutes dated `2024-06-10`) and the task fetch rejected, the point of today
carries 30 minutes when the mood fetch is rejected and 0 minutes when the mood fetch is
fulfilled with a record whose `mood` is a truthy value that is not a string. -/
theorem sources_independent_counterexample :
    (fetchData 0 (ymd 2024 6 10 * 86400 + 43200)
        (.fulfilled [some { date := some "2024-06-10", minutes := some 30 }])
        .rejected .rejected).focusData[6]?
      = some { date := "Jun 10", minutes := 30, isToday := true } ∧
    (fetchData 0 (ymd 2024 6 10 * 86400 + 43200)
        (.fulfilled [some { date := some "2024-06-10", minutes := some 30 }])
        (.fulfilled [some { mood := .other, focusMinutes := some 1 }])
        .rejected).focusData[6]?
      = some { date := "Jun 10", minutes := 0, isToday := true } := by
  constructor
  · have hr : formattedMood (.rejected : Settled (Option MoodItem)) = some [] := rfl
    simp only [fetchData, hr, focusMap, roundReal_compute]
    decide
  · decide

/-- C14, amended.  For two runs of `fetchData` with the same clock: when the processing of the
mood outcome throws in neither run, `focusData` is the same for the same focus outcome,
whatever the mood and task outcomes, and `taskData` is the same for the same task outcome,
whatever the focus and mood outcomes; `moodData` is the same for the same mood outcome,
whatever the focus and task outcomes. -/
theorem sources_independent (tz now : Int) (f f2 : Settled (Option FocusItem))
    (m m2 : Settled (Option MoodItem)) (t t2 : Settled (Option TaskItem)) :
    (formattedMood m ≠ none → formattedMood m2 ≠ none →
      (fetchData tz now f m t).focusData = (fetchData tz now f m2 t2).focusData) ∧
    (formattedMood m ≠ none → formattedMood m2 ≠ none →
      (fetchData tz now f m t).taskData = (fetchData tz now f2 m2 t).taskData) ∧
    (fetchData tz now f m t).moodData = (fetchData tz now f2 m t2).moodData := by
  refine ⟨?_, ?_, ?_⟩
  · intro h1 h2
    cases hm : formattedMood m with
    | none => exact absurd hm h1
    | some mood =>
      cases hm2 : formattedMood m2 with
      | none => exact absurd hm2 h2
      | some mood2 => simp only [fetchData, hm, hm2]
  · intro h1 h2
    cases hm : formattedMood m with
    | none => exact absurd hm h1
    | some mood =>
      cases hm2 : formattedMood m2 with
      | none => exact absurd hm2 h2
      | some mood2 => simp only [fetchData, hm, hm2]
  · cases hm : formattedMood m with
    | none => simp only [fetchData, hm]
    | some mood => simp only [fetchData, hm]

/-- C15 at a failing input.  In a browser at UTC+05:30, at 12:00 local time of 2024-06-10, the
seventh canonical day is labelled `Jun 10` and flagged `isToday`, but its date key is
`2024-06-09`; a focus record dated `2024-06-10` is shown on no point (today carries 0) and a
record dated `2024-06-09` is shown on the point of today. -/
theorem client_date_key_east_of_utc :
    localDay 330 (ymd 2024 6 10 * 86400 + 23400) = ymd 2024 6 10 ∧
    (last7Days 330 (localMidnight 330 (localDay 330 (ymd 2024 6 10 * 86400 + 23400))))[6]?
      = some { date := "Jun 10", dateKey := "2024-06-09", isToday := true } ∧
    (fetchData 330 (ymd 2024 6 10 * 86400 + 23400)
        (.fulfilled [some { date := some "2024-06-10", minutes := some 25 }])
        .rejected .rejected).focusData.map (fun p => p.minutes)
      = [0, 0, 0, 0, 0, 0, 0] ∧
    (fetchData 330 (ymd 2024 6 10 * 86400 + 23400)
        (.fulfilled [some { date := some "2024-06-09", minutes := some 25 }])
        .rejected .rejected).focusData[6]?
      = some { date := "Jun 10", minutes := 25, isToday := true } := by
  have hr : formattedMood (.rejected : Settled (Option MoodItem)) = some [] := rfl
  refine ⟨by decide, by decide, ?_, ?_⟩
  · simp only [fetchData, hr, focusMap, roundReal_compute]
    decide
  · simp only [fetchData, hr, focusMap, roundReal_compute]
    decide

/-- C19. `fetchData` always completes and leaves `loading` false.  When the processing of the
settled results throws (the `.map` over the mood records, the one step that can), the state
is the fallback of the `catch` block: seven all-zero focus points and seven all-zero task
points labelled `today - 6`, ..., `today`, `isToday` true only on the last, and `moodData`
equal to the one record `No data available` with 0 minutes. -/
theorem fetchData_fallback (tz now : Int) (focusResult : Settled (Option FocusItem))
    (moodResult : Settled (Option MoodItem)) (tasksResult : Settled (Option TaskItem)) :
    (fetchData tz now focusResult moodResult tasksResult).loading = false ∧
    (formattedMood moodResult = none →
      (fetchData tz now focusResult moodResult tasksResult).focusData
        = [{ date := shortLabel (localDay tz now - 6), minutes := 0, isToday := false },
           { date := shortLabel (localDay tz now - 5), minutes := 0, isToday := false },
           { date := shortLabel (localDay tz now - 4), minutes := 0, isToday := false },
           { date := shortLabel (localDay tz now - 3), minutes := 0, isToday := false },
           { date := shortLabel (localDay tz now - 2), minutes := 0, isToday := false },
           { date := shortLabel (localDay tz now - 1), minutes := 0, isToday := false },
           { date := shortLabel (localDay tz now), minutes := 0, isToday := true }] ∧
      (fetchData tz now focusResult moodResult tasksResult).taskData
        = [{ date := shortLabel (localDay tz now - 6), created := 0, completed := 0,
             isToday := false },
           { date := shortLabel (localDay tz now - 5), created := 0, completed := 0,
             isToday := false },
           { date := shortLabel (localDay tz now - 4), created := 0, completed := 0,
             isToday := false },
           { date := shortLabel (localDay tz now - 3), created := 0, completed := 0,
             isToday := false },
           { date := shortLabel (localDay tz now - 2), created := 0, completed := 0,
             isToday := false },
           { date := shortLabel (localDay tz now - 1), created := 0, completed := 0,
             isToday := false },
           { date := shortLabel (localDay tz now), created := 0, completed := 0,
             isToday := true }] ∧
      (fetchData tz now focusResult moodResult tasksResult).moodData
        = [{ mood := "No data available", focusMinutes := 0 }]) ∧
    (formattedMood moodResult = none ↔
      ∃ value, moodResult = .fulfilled value ∧
        ∃ it, some it ∈ value ∧ it.mood = .other) := by
  refine ⟨?_, ?_, ?_⟩
  · unfold fetchData
    cases formattedMood moodResult <;> rfl
  · intro h
    simp only [fetchData, h, emptyDays_eq, List.map_map]
    simp
  · constructor
    · intro h
      cases moodResult with
      | fulfilled value =>
        refine ⟨value, rfl, ?_⟩
        by_contra hno
        have hall : ∀ item ∈ value.filter moodKept, ∃ p, moodMapped item = some p := by
          intro item hi
          rw [List.mem_filter] at hi
          refine moodMapped_of_kept item hi.2 ?_
          intro it hit ho
          exact hno ⟨it, hit ▸ hi.1, ho⟩
        have := (mapM_moodMapped_some _ hall).1
        simp only [formattedMood] at h
        rw [h] at this
        cases this
      | fulfilledNonArray => cases h
      | rejected => cases h
    · rintro ⟨value, rfl, it, hit, ho⟩
      simp only [formattedMood]
      apply mapM_moodMapped_none
      refine ⟨some it, List.mem_filter.2 ⟨hit, ?_⟩, ?_⟩
      · simp [moodKept, ho]
      · simp [moodMapped, ho]

/-- Witness of C19: the mood fetch is fulfilled with a record whose `mood` is a truthy value
that is not a string; the focus record of today is replaced by the fallback. -/
theorem fetchData_fallback_witness :
    formattedMood (.fulfilled [some { mood := .other, focusMinutes := some 1 }]) = none ∧
    (fetchData 0 (ymd 2024 6 10 * 86400 + 43200)
        (.fulfilled [some { date := some "2024-06-10", minutes := some 30 }])
        (.fulfilled [some { mood := .other, focusMinutes := some 1 }]) .rejected).moodData
      = [{ mood := "No data available", focusMinutes := 0 }] :=
  ⟨by decide,
    ((fetchData_fallback 0 (ymd 2024 6 10 * 86400 + 43200)
      (.fulfilled [some { date := some "2024-06-10", minutes := some 30 }])
      (.fulfilled [some { mood := .other, focusMinutes := some 1 }]) .rejected).2.1
      (by decide)).2.2⟩

/-! ## Further claims on the aggregation handlers -/

/-- C16. If one of the two queries that an analytics handler awaits is rejected, the handler
answers with status 500 and the body `{ message: 'Server error' }`, and carries no data row;
an answer with status 200 is produced only when both queries succeeded. -/
theorem query_failure_is_500 (tz now : Int) (q : Option String) (uid : Nat)
    (check result : Option Store) :
    ((check = none ∨ result = none) →
      (focusMinutesHandler tz now q uid check result).status = 500 ∧
      (focusMinutesHandler tz now q uid check result).message = some "Server error" ∧
      (focusMinutesHandler tz now q uid check result).rows = [] ∧
      (moodFocusHandler tz now q uid check result).status = 500 ∧
      (moodFocusHandler tz now q uid check result).message = some "Server error" ∧
      (moodFocusHandler tz now q uid check result).rows = [] ∧
      (taskThroughputHandler tz now q uid check result).status = 500 ∧
      (taskThroughputHandler tz now q uid check result).message = some "Server error" ∧
      (taskThroughputHandler tz now q uid check result).rows = []) ∧
    ((focusMinutesHandler tz now q uid check result).status = 200 →
      check ≠ none ∧ result ≠ none) ∧
    ((moodFocusHandler tz now q uid check result).status = 200 →
      check ≠ none ∧ result ≠ none) ∧
    ((taskThroughputHandler tz now q uid check result).status = 200 →
      check ≠ none ∧ result ≠ none) ∧
    (∀ db, result = some db → check ≠ none →
      focusMinutesHandler tz now q uid check result
        = .json (focusMinutes tz now db.currentDate (queryDays q) uid db.sessions)) := by
  cases check with
  | none =>
    refine ⟨fun _ => ⟨rfl, rfl, rfl, rfl, rfl, rfl, rfl, rfl, rfl⟩, ?_, ?_, ?_, ?_⟩
    · intro h
      cases h
    · intro h
      cases h
    · intro h
      cases h
    · intro db _ h
      exact absurd rfl h
  | some c =>
    cases result with
    | none =>
      refine ⟨fun _ => ⟨rfl, rfl, rfl, rfl, rfl, rfl, rfl, rfl, rfl⟩, ?_, ?_, ?_, ?_⟩
      · intro h
        cases h
      · intro h
        cases h
      · intro h
        cases h
      · intro db h _
        cases h
    | some r =>
      refine ⟨?_, ?_, ?_, ?_, ?_⟩
      · intro h
        rcases h with h | h <;> cases h
      · intro _
        exact ⟨by simp, by simp⟩
      · intro _
        exact ⟨by simp, by simp⟩
      · intro _
        exact ⟨by simp, by simp⟩
      · intro db h _
        cases h
        rfl

/-! ## Lemmas: the aggregations on permuted tables -/

theorem startDate_congr (tz now1 now2 days : Int) (h : localDay tz now1 = localDay tz now2) :
    startDate tz now1 days = startDate tz now2 days := by
  unfold startDate
  rw [h]

theorem specWorkSeconds_perm (s1 s2 : List TimerSession) (uid : Nat) (d : Int)
    (h : s1.Perm s2) : specWorkSeconds s1 uid d = specWorkSeconds s2 uid d := by
  unfold specWorkSeconds
  exact ((h.filter _).map _).sum_eq

theorem sessionGroup_perm (s1 s2 : List TimerSession) (uid : Nat) (p2 d : Int)
    (h : s1.Perm s2) : (sessionGroup s1 uid p2 d).Perm (sessionGroup s2 uid p2 d) :=
  h.filter _

theorem sessionData_perm (s1 s2 : List TimerSession) (uid : Nat) (p2 d : Int)
    (h : s1.Perm s2) :
    (sessionData s1 uid p2 d).getD 0 = (sessionData s2 uid p2 d).getD 0 := by
  rw [sessionData_getD, sessionData_getD, ((sessionGroup_perm s1 s2 uid p2 d h).map _).sum_eq]

theorem createdCount_perm (t1 t2 : List Task) (uid : Nat) (p2 d : Int) (h : t1.Perm t2) :
    createdCount t1 uid p2 d = createdCount t2 uid p2 d := by
  unfold createdCount
  exact (h.filter _).length_eq

theorem completedCount_perm (t1 t2 : List Task) (uid : Nat) (p2 d : Int) (h : t1.Perm t2) :
    completedCount t1 uid p2 d = completedCount t2 uid p2 d := by
  unfold completedCount
  exact (h.filter _).length_eq

theorem moodLabels_perm (m1 m2 : List MoodLog) (uid : Nat) (p2 : Int) (h : m1.Perm m2) :
    moodLabels m1 uid p2 = moodLabels m2 uid p2 := by
  unfold moodLabels
  have hp : (((m1.filter (moodInWindow uid p2)).map (fun ml => ml.mood)).dedup).Perm
      (((m2.filter (moodInWindow uid p2)).map (fun ml => ml.mood)).dedup) :=
    ((h.filter _).map _).dedup
  exact List.eq_of_perm_of_sorted
    (((List.perm_insertionSort _ _).trans hp).trans (List.perm_insertionSort _ _).symm)
    (List.sorted_insertionSort (fun (a b : String) => a ≤ b) _)
    (List.sorted_insertionSort (fun (a b : String) => a ≤ b) _)

theorem sqlAvg_perm (xs ys : List ℚ) (h : xs.Perm ys) : sqlAvg xs = sqlAvg ys := by
  cases xs with
  | nil =>
    rw [List.nil_perm] at h
    rw [h]
  | cons x xs =>
    cases ys with
    | nil =>
      rw [List.perm_nil] at h
      cases h
    | cons y ys =>
      simp only [sqlAvg]
      rw [h.sum_eq, h.length_eq]

theorem moodJoin_perm (m1 m2 : List MoodLog) (s1 s2 : List TimerSession) (uid : Nat)
    (p2 : Int) (l : String) (hm : m1.Perm m2) (hs : s1.Perm s2) :
    (moodJoin m1 s1 uid p2 l).Perm (moodJoin m2 s2 uid p2 l) := by
  rw [moodJoin_eq_pairs, moodJoin_eq_pairs]
  unfold specMoodPairs
  exact ((List.Perm.product hm hs).filter _).map _

/-- C17. Each aggregation is a function of the user, the `days` value, the current calendar
day and the stored rows: two invocations at two instants of the same calendar day, on tables
holding the same rows (in whatever physical order), return identical series. -/
theorem aggregations_deterministic (tz now1 now2 cur : Int) (parsed : Option Int) (uid : Nat)
    (sessions sessions2 : List TimerSession) (tasks tasks2 : List Task)
    (moods moods2 : List MoodLog) (hday : localDay tz now1 = localDay tz now2)
    (hs : sessions.Perm sessions2) (ht : tasks.Perm tasks2) (hm : moods.Perm moods2) :
    focusMinutes tz now1 cur parsed uid sessions
      = focusMinutes tz now2 cur parsed uid sessions2 ∧
    taskThroughput tz now1 cur parsed uid tasks
      = taskThroughput tz now2 cur parsed uid tasks2 ∧
    moodFocus tz now1 parsed uid moods sessions
      = moodFocus tz now2 parsed uid moods2 sessions2 := by
  refine ⟨?_, ?_, ?_⟩
  · unfold focusMinutes focusFilled focusRows
    simp only [startDate_congr tz now1 now2 _ hday, List.map_map]
    apply List.map_congr_left
    intro d _
    simp only [Function.comp_apply, sessionData_perm _ _ uid _ d hs]
  · unfold taskThroughput taskFilled taskRows
    simp only [startDate_congr tz now1 now2 _ hday, List.map_map]
    apply List.map_congr_left
    intro d _
    simp only [Function.comp_apply, createdCount_perm _ _ uid _ d ht,
      completedCount_perm _ _ uid _ d ht]
  · unfold moodFocus moodData moodRows
    simp only [startDate_congr tz now1 now2 _ hday, List.map_map,
      moodLabels_perm _ _ uid _ hm]
    apply List.map_congr_left
    intro l _
    simp only [Function.comp_apply, sqlAvg_perm _ _ (moodJoin_perm _ _ _ _ uid _ l hm hs)]

/-- Witness of C17: two requests on 2024-06-10, at 08:00 and at 20:00, on tables whose two
rows are stored in either order. -/
theorem aggregations_deterministic_witness :
    (localDay 0 (ymd 2024 6 10 * 86400 + 28800) = localDay 0 (ymd 2024 6 10 * 86400 + 72000) ∧
      ([{ user_id := 1, session_type := "work", duration := 1500,
          completed_at := some (ymd 2024 6 8 * 86400 + 3600) },
        { user_id := 1, session_type := "work", duration := 600,
          completed_at := some (ymd 2024 6 8 * 86400 + 7200) }] : List TimerSession).Perm
        [{ user_id := 1, session_type := "work", duration := 600,
           completed_at := some (ymd 2024 6 8 * 86400 + 7200) },
         { user_id := 1, session_type := "work", duration := 1500,
           completed_at := some (ymd 2024 6 8 * 86400 + 3600) }]) ∧
    focusMinutes 0 (ymd 2024 6 10 * 86400 + 28800) (ymd 2024 6 10) (some 7) 1
        [{ user_id := 1, session_type := "work", duration := 1500,
           completed_at := some (ymd 2024 6 8 * 86400 + 3600) },
         { user_id := 1, session_type := "work", duration := 600,
           completed_at := some (ymd 2024 6 8 * 86400 + 7200) }]
      = focusMinutes 0 (ymd 2024 6 10 * 86400 + 72000) (ymd 2024 6 10) (some 7) 1
        [{ user_id := 1, session_type := "work", duration := 600,
           completed_at := some (ymd 2024 6 8 * 86400 + 7200) },
         { user_id := 1, session_type := "work", duration := 1500,
           completed_at := some (ymd 2024 6 8 * 86400 + 3600) }] :=
  ⟨⟨by decide, List.Perm.swap _ _ _⟩,
    (aggregations_deterministic 0 (ymd 2024 6 10 * 86400 + 28800)
      (ymd 2024 6 10 * 86400 + 72000) (ymd 2024 6 10) (some 7) 1 _ _ [] [] [] []
      (by decide) (List.Perm.swap _ _ _) (List.Perm.refl _) (List.Perm.refl _)).1⟩

/-! ## Lemmas: `PUT /tasks/:id` -/

theorem updateTask_of_not_mem (ts : Int) (uid id : Nat) (b : TaskUpdate) (tasks : List TaskRow)
    (h : id ∉ tasks.map (fun r => r.id)) : updateTask ts uid id b tasks = tasks := by
  unfold updateTask
  conv_rhs => rw [← List.map_id tasks]
  apply List.map_congr_left
  intro r hr
  have hne : r.id ≠ id := by
    intro e
    apply h
    rw [← e]
    exact List.mem_map_of_mem (fun r => r.id) hr
  simp [hne]

theorem updateTask_perm (ts : Int) (uid id : Nat) (b : TaskUpdate) (tasks : List TaskRow)
    (r : TaskRow) (hr : r ∈ tasks) (hid : r.id = id) (hu : r.user_id = uid)
    (hnd : (tasks.map (fun r => r.id)).Nodup) :
    (updateTask ts uid id b tasks).Perm (setTask ts b r :: tasks.erase r) := by
  induction tasks with
  | nil => cases hr
  | cons x xs ih =>
    rw [List.map_cons, List.nodup_cons] at hnd
    obtain ⟨hx, hxs⟩ := hnd
    by_cases hxr : x = r
    · subst hxr
      have hnot : id ∉ xs.map (fun r => r.id) := by
        rw [← hid]
        exact hx
      have h1 : updateTask ts uid id b (x :: xs)
          = setTask ts b x :: updateTask ts uid id b xs := by
        simp [updateTask, hid, hu]
      rw [h1, updateTask_of_not_mem ts uid id b xs hnot, List.erase_cons_head]
    · have hrx : r ∈ xs := by
        rcases List.mem_cons.1 hr with h | h
        · exact absurd h.symm hxr
        · exact h
      have hne : x.id ≠ id := by
        intro e
        apply hx
        rw [e, ← hid]
        exact List.mem_map_of_mem (fun r => r.id) hrx
      have h1 : updateTask ts uid id b (x :: xs) = x :: updateTask ts uid id b xs := by
        simp [updateTask, hne]
      have hbeq : ¬ (x == r) = true := by simpa using hxr
      rw [h1, List.erase_cons_tail hbeq]
      exact ((ih hrx hxs).cons x).trans (List.Perm.swap _ _ _)

theorem completedCount_cons (t : Task) (ts : List Task) (uid : Nat) (p2 d : Int) :
    completedCount (t :: ts) uid p2 d
      = (if (decide (t.user_id = uid) && decide (t.status = "completed") &&
            tsGeDate t.updated_at p2 && decide (sqlDate t.updated_at = some d)) = true
          then 1 else 0) + completedCount ts uid p2 d := by
  unfold completedCount
  rw [List.filter_cons]
  split
  · rw [List.length_cons]
    omega
  · omega

/-- C20. The `completed` count follows the latest update.  Let a task of the user have status
`completed`, in a table whose ids are distinct.  After `PUT /tasks/:id` with a body that
leaves the status alone (only a title, say) or sets it to `completed` again, the task is
counted as completed on the day of that update and on no other day, whatever the day it was
counted on before.  After a `PUT` that sets another status, the task is counted on no day.
The counts of the other tasks are unchanged. -/
theorem completed_follows_last_update (ts : Int) (uid id : Nat) (b : TaskUpdate)
    (tasks : List TaskRow) (r : TaskRow) (hr : r ∈ tasks) (hid : r.id = id)
    (hu : r.user_id = uid) (hst : r.status = "completed")
    (hnd : (tasks.map (fun r => r.id)).Nodup) :
    ((b.status = none ∨ b.status = some "completed") →
      ∀ p2 d : Int, p2 ≤ d →
        completedCount ((updateTask ts uid id b tasks).map TaskRow.toTask) uid p2 d
          = (if d = ts / 86400 then 1 else 0)
            + completedCount ((tasks.erase r).map TaskRow.toTask) uid p2 d) ∧
    (∀ s, b.status = some s → s ≠ "completed" →
      ∀ p2 d : Int,
        completedCount ((updateTask ts uid id b tasks).map TaskRow.toTask) uid p2 d
          = completedCount ((tasks.erase r).map TaskRow.toTask) uid p2 d) := by
  have hperm := (updateTask_perm ts uid id b tasks r hr hid hu hnd).map TaskRow.toTask
  constructor
  · intro hb p2 d hd
    rw [completedCount_perm _ _ uid p2 d hperm, List.map_cons, completedCount_cons]
    congr 1
    have hs : (setTask ts b r).status = "completed" := by
      rcases hb with h | h <;> simp [setTask, h, hst]
    by_cases hdd : d = ts / 86400
    · have hge : p2 * 86400 ≤ ts := by
        have : p2 ≤ ts / 86400 := by omega
        exact (Int.le_ediv_iff_mul_le (by decide)).1 this
      simp [TaskRow.toTask, setTask, hu, hs, tsGeDate, sqlDate, hdd, hge]
      rcases hb with h | h <;> simp [h, hst]
    · have hdd2 : ¬ ts / 86400 = d := fun e => hdd e.symm
      simp [TaskRow.toTask, setTask, sqlDate, hdd, hdd2]
  · intro s hb hs p2 d
    rw [completedCount_perm _ _ uid p2 d hperm, List.map_cons, completedCount_cons]
    simp [TaskRow.toTask, setTask, hb, hs]

/-- Witness of C20: task 1 of user 1 was completed on 2024-06-08; on 2024-06-10 a `PUT`
changes only its title.  Task-throughput then reports `completed = 1` on 06-10 and
`completed = 0` on 06-08. -/
theorem completed_follows_last_update_witness :
    (({ id := 1, user_id := 1, title := "a", description := none, tag := none,
        priority := none, status := "completed", due_date := none, task_order := none,
        created_at := some (ymd 2024 6 7 * 86400),
        updated_at := some (ymd 2024 6 8 * 86400 + 60) } : TaskRow) ∈
      ([{ id := 1, user_id := 1, title := "a", description := none, tag := none,
          priority := none, status := "completed", due_date := none, task_order := none,
          created_at := some (ymd 2024 6 7 * 86400),
          updated_at := some (ymd 2024 6 8 * 86400 + 60) }] : List TaskRow)) ∧
    completedCount ((updateTask (ymd 2024 6 10 * 86400 + 600) 1 1
        { title := some "b", description := none, tag := none, priority := none,
          status := none, due_date := none }
        [{ id := 1, user_id := 1, title := "a", description := none, tag := none,
           priority := none, status := "completed", due_date := none, task_order := none,
           created_at := some (ymd 2024 6 7 * 86400),
           updated_at := some (ymd 2024 6 8 * 86400 + 60) }]).map TaskRow.toTask)
        1 (ymd 2024 6 4) (ymd 2024 6 10) = 1 ∧
    (taskThroughput 0 (ymd 2024 6 10 * 86400 + 43200) (ymd 2024 6 10) (some 7) 1
        ((updateTask (ymd 2024 6 10 * 86400 + 600) 1 1
          { title := some "b", description := none, tag := none, priority := none,
            status := none, due_date := none }
          [{ id := 1, user_id := 1, title := "a", description := none, tag := none,
             priority := none, status := "completed", due_date := none, task_order := none,
             created_at := some (ymd 2024 6 7 * 86400),
             updated_at := some (ymd 2024 6 8 * 86400 + 60) }]).map TaskRow.toTask)).map
        (fun rec => rec.completed)
      = [0, 0, 0, 0, 0, 0, 1] :=
  ⟨by decide,
    ((completed_follows_last_update (ymd 2024 6 10 * 86400 + 600) 1 1
      { title := some "b", description := none, tag := none, priority := none,
        status := none, due_date := none }
      [{ id := 1, user_id := 1, title := "a", description := none, tag := none,
         priority := none, status := "completed", due_date := none, task_order := none,
         created_at := some (ymd 2024 6 7 * 86400),
         updated_at := some (ymd 2024 6 8 * 86400 + 60) }]
      { id := 1, user_id := 1, title := "a", description := none, tag := none,
        priority := none, status := "completed", due_date := none, task_order := none,
        created_at := some (ymd 2024 6 7 * 86400),
        updated_at := some (ymd 2024 6 8 * 86400 + 60) }
      (by decide) rfl rfl rfl (by decide)).1 (Or.inl rfl) (ymd 2024 6 4) (ymd 2024 6 10)
      (by decide)).trans (by decide),
    by decide⟩

/-! ## Claims on the rendering of dates and on the isolation of users -/

/-- C21 at a failing input.  On a server at UTC+05:30, for a request at 12:00 local time of
2024-06-10 with `days = 7`, the rows are bucketed on 2024-06-04, ..., 2024-06-10 but the
strings emitted are `2024-06-03`, ..., `2024-06-09`: the string of the last row is not the
date of today, and the 25 minutes of a session completed on 2024-06-08 are emitted under
`2024-06-07`. -/
theorem server_date_string_east_of_utc :
    localDay 330 (ymd 2024 6 10 * 86400 + 23400) = ymd 2024 6 10 ∧
    (focusRows
        [{ user_id := 1, session_type := "work", duration := 1500,
           completed_at := some (ymd 2024 6 8 * 86400 + 36000) }] 1
        (pgParam 330 (startDate 330 (ymd 2024 6 10 * 86400 + 23400) 7) / 86400)
        (ymd 2024 6 10)).map (fun row => row.1)
      = [ymd 2024 6 4, ymd 2024 6 5, ymd 2024 6 6, ymd 2024 6 7, ymd 2024 6 8, ymd 2024 6 9,
         ymd 2024 6 10] ∧
    focusMinutes 330 (ymd 2024 6 10 * 86400 + 23400) (ymd 2024 6 10) (some 7) 1
        [{ user_id := 1, session_type := "work", duration := 1500,
           completed_at := some (ymd 2024 6 8 * 86400 + 36000) }]
      = [{ date := "2024-06-03", minutes := 0 }, { date := "2024-06-04", minutes := 0 },
         { date := "2024-06-05", minutes := 0 }, { date := "2024-06-06", minutes := 0 },
         { date := "2024-06-07", minutes := 25 }, { date := "2024-06-08", minutes := 0 },
         { date := "2024-06-09", minutes := 0 }] ∧
    (taskThroughput 330 (ymd 2024 6 10 * 86400 + 23400) (ymd 2024 6 10) (some 7) 1 []).map
        (fun r => r.date)
      = ["2024-06-03", "2024-06-04", "2024-06-05", "2024-06-06", "2024-06-07", "2024-06-08",
         "2024-06-09"] := by
  refine ⟨by decide, by decide, ?_, by decide⟩
  rw [focusMinutes_eq _ _ _ _ _ _ (by decide)]
  simp only [mathRound_div60]
  decide

theorem sessionGroup_own (sessions : List TimerSession) (uid : Nat) (p2 d : Int) :
    sessionGroup (sessions.filter (fun s => decide (s.user_id = uid))) uid p2 d
      = sessionGroup sessions uid p2 d := by
  unfold sessionGroup
  rw [List.filter_filter]
  apply List.filter_congr
  intro s _
  by_cases h : s.user_id = uid <;> simp [h]

theorem sessionData_own (sessions : List TimerSession) (uid : Nat) (p2 d : Int) :
    sessionData (sessions.filter (fun s => decide (s.user_id = uid))) uid p2 d
      = sessionData sessions uid p2 d := by
  unfold sessionData
  rw [sessionGroup_own]

theorem createdCount_own (tasks : List Task) (uid : Nat) (p2 d : Int) :
    createdCount (tasks.filter (fun t => decide (t.user_id = uid))) uid p2 d
      = createdCount tasks uid p2 d := by
  unfold createdCount
  rw [List.filter_filter]
  congr 1
  apply List.filter_congr
  intro t _
  by_cases h : t.user_id = uid <;> simp [h]

theorem completedCount_own (tasks : List Task) (uid : Nat) (p2 d : Int) :
    completedCount (tasks.filter (fun t => decide (t.user_id = uid))) uid p2 d
      = completedCount tasks uid p2 d := by
  unfold completedCount
  rw [List.filter_filter]
  congr 1
  apply List.filter_congr
  intro t _
  by_cases h : t.user_id = uid <;> simp [h]

theorem moodLabels_own (moods : List MoodLog) (uid : Nat) (p2 : Int) :
    moodLabels (moods.filter (fun ml => decide (ml.user_id = uid))) uid p2
      = moodLabels moods uid p2 := by
  unfold moodLabels
  rw [List.filter_filter]
  congr 3
  apply List.filter_congr
  intro ml _
  by_cases h : ml.user_id = uid <;> simp [moodInWindow, h]

theorem moodJoin_own (moods : List MoodLog) (sessions : List TimerSession) (uid : Nat)
    (p2 : Int) (l : String) :
    moodJoin (moods.filter (fun ml => decide (ml.user_id = uid)))
        (sessions.filter (fun s => decide (s.user_id = uid))) uid p2 l
      = moodJoin moods sessions uid p2 l := by
  unfold moodJoin
  rw [List.filter_filter]
  have hf : List.filter (fun a => (moodInWindow uid p2 a && decide (a.mood = l)) &&
        decide (a.user_id = uid)) moods
      = List.filter (fun ml => moodInWindow uid p2 ml && decide (ml.mood = l)) moods := by
    apply List.filter_congr
    intro ml _
    by_cases h : ml.user_id = uid <;> simp [moodInWindow, h]
  rw [hf]
  apply List.flatMap_congr
  intro ml hml
  rw [List.mem_filter] at hml
  have hu : ml.user_id = uid := by
    have := hml.2
    simp only [moodInWindow, Bool.and_eq_true, decide_eq_true_eq] at this
    exact this.1.1
  rw [List.filter_filter]
  congr 1
  apply List.filter_congr
  intro ts _
  by_cases h : ts.user_id = uid
  · simp [h]
  · have h2 : ¬ ts.user_id = ml.user_id := by
      rw [hu]
      exact h
    simp [moodJoinOn, h, h2]

theorem focusMinutes_own (tz now cur : Int) (parsed : Option Int) (uid : Nat)
    (sessions : List TimerSession) :
    focusMinutes tz now cur parsed uid (sessions.filter (fun s => decide (s.user_id = uid)))
      = focusMinutes tz now cur parsed uid sessions := by
  unfold focusMinutes focusRows
  simp only [sessionData_own]

theorem taskThroughput_own (tz now cur : Int) (parsed : Option Int) (uid : Nat)
    (tasks : List Task) :
    taskThroughput tz now cur parsed uid (tasks.filter (fun t => decide (t.user_id = uid)))
      = taskThroughput tz now cur parsed uid tasks := by
  unfold taskThroughput taskRows
  simp only [createdCount_own, completedCount_own]

theorem moodFocus_own (tz now : Int) (parsed : Option Int) (uid : Nat)
    (moods : List MoodLog) (sessions : List TimerSession) :
    moodFocus tz now parsed uid (moods.filter (fun ml => decide (ml.user_id = uid)))
        (sessions.filter (fun s => decide (s.user_id = uid)))
      = moodFocus tz now parsed uid moods sessions := by
  unfold moodFocus moodRows
  simp only [moodLabels_own, moodJoin_own]

/-- C23. The series returned for user `u` depend only on the rows of `u`: when two database
states hold the same sessions, tasks and mood logs with `user_id = u`, focus-minutes,
task-throughput and mood-focus return the same result for `u` on both.  In particular a
session of another user, on whatever day, changes neither the mood-focus result of `u` nor
the focus-minutes result. -/
theorem series_depend_on_own_rows (tz now cur : Int) (parsed : Option Int) (u : Nat)
    (sessions sessions2 : List TimerSession) (tasks tasks2 : List Task)
    (moods moods2 : List MoodLog)
    (hs : sessions.filter (fun s => decide (s.user_id = u))
      = sessions2.filter (fun s => decide (s.user_id = u)))
    (ht : tasks.filter (fun t => decide (t.user_id = u))
      = tasks2.filter (fun t => decide (t.user_id = u)))
    (hm : moods.filter (fun ml => decide (ml.user_id = u))
      = moods2.filter (fun ml => decide (ml.user_id = u))) :
    focusMinutes tz now cur parsed u sessions = focusMinutes tz now cur parsed u sessions2 ∧
    taskThroughput tz now cur parsed u tasks = taskThroughput tz now cur parsed u tasks2 ∧
    moodFocus tz now parsed u moods sessions = moodFocus tz now parsed u moods2 sessions2 ∧
    (∀ s : TimerSession, s.user_id ≠ u →
      moodFocus tz now parsed u moods (s :: sessions) = moodFocus tz now parsed u moods sessions ∧
      focusMinutes tz now cur parsed u (s :: sessions)
        = focusMinutes tz now cur parsed u sessions) := by
  refine ⟨?_, ?_, ?_, ?_⟩
  · rw [← focusMinutes_own _ _ _ _ _ sessions, hs, focusMinutes_own]
  · rw [← taskThroughput_own _ _ _ _ _ tasks, ht, taskThroughput_own]
  · rw [← moodFocus_own _ _ _ _ moods sessions, hs, hm, moodFocus_own]
  · intro s hne
    have hf : (s :: sessions).filter (fun s => decide (s.user_id = u))
        = sessions.filter (fun s => decide (s.user_id = u)) := by
      simp [List.filter_cons, hne]
    constructor
    · rw [← moodFocus_own _ _ _ _ moods (s :: sessions), hf, moodFocus_own]
    · rw [← focusMinutes_own _ _ _ _ _ (s :: sessions), hf, focusMinutes_own]

/-- Witness of C23: the second state holds, besides the rows of user 1, a work session of
user 2 on the day of the mood entry of user 1. -/
theorem series_depend_on_own_rows_witness :
    (([{ user_id := 1, session_type := "work", duration := 1500,
         completed_at := some (ymd 2024 6 8 * 86400 + 3600) }] : List TimerSession).filter
        (fun s => decide (s.user_id = 1))
      = ([{ user_id := 2, session_type := "work", duration := 6000,
            completed_at := some (ymd 2024 6 8 * 86400 + 7200) },
          { user_id := 1, session_type := "work", duration := 1500,
            completed_at := some (ymd 2024 6 8 * 86400 + 3600) }] : List TimerSession).filter
        (fun s => decide (s.user_id = 1))) ∧
    moodFocus 0 (ymd 2024 6 10 * 86400 + 43200) (some 7) 1
        [{ user_id := 1, mood := "happy", created_at := some (ymd 2024 6 8 * 86400 + 100) }]
        [{ user_id := 1, session_type := "work", duration := 1500,
           completed_at := some (ymd 2024 6 8 * 86400 + 3600) }]
      = moodFocus 0 (ymd 2024 6 10 * 86400 + 43200) (some 7) 1
        [{ user_id := 1, mood := "happy", created_at := some (ymd 2024 6 8 * 86400 + 100) }]
        [{ user_id := 2, session_type := "work", duration := 6000,
           completed_at := some (ymd 2024 6 8 * 86400 + 7200) },
         { user_id := 1, session_type := "work", duration := 1500,
           completed_at := some (ymd 2024 6 8 * 86400 + 3600) }] :=
  ⟨by decide,
    (series_depend_on_own_rows 0 (ymd 2024 6 10 * 86400 + 43200) (ymd 2024 6 10) (some 7) 1
      _ _ [] [] _ _ (by decide) rfl rfl).2.2.1⟩

/-! ## Duplicate dates in a fetched series -/

theorem specRecordFor_last {α : Type} (date : α → Option String)
    (pre post : List (Option α)) (r : α) (k : String) (hr : date r = some k)
    (hpost : ∀ it, some it ∈ post → date it ≠ some k) :
    specRecordFor date (pre ++ [some r] ++ post) k = some r := by
  unfold specRecordFor
  have hp : (post.filterMap id).filter (fun it => decide (date it = some k)) = [] := by
    rw [List.filter_eq_nil_iff]
    intro it hit
    rw [List.mem_filterMap] at hit
    obtain ⟨a, ha, hid⟩ := hit
    simp only [id_eq] at hid
    subst hid
    simpa using hpost it ha
  have e : List.filterMap id [some r] = [r] := rfl
  have e2 : List.filter (fun it => decide (date it = some k)) [r] = [r] := by
    simp [List.filter_cons, hr]
  rw [List.filterMap_append, List.filterMap_append, List.filter_append, List.filter_append, hp,
    e, e2, List.append_nil, List.getLast?_append]
  simp

/-- C28 as stated fails: at noon of 2024-06-10 (UTC browser) the focus series holds two records
dated `2024-06-10`, of 10 and then 20 minutes, and the mood fetch succeeds with a record
whose `mood` is a truthy value that is not a string; the mood `.map` throws, the `catch`
block runs, and the point of that day carries 0 minutes, not the 20 of the last record. -/
theorem duplicate_dates_counterexample :
    (last7Days 0 (localMidnight 0 (localDay 0 (ymd 2024 6 10 * 86400 + 43200))))[6]?
      = some { date := "Jun 10", dateKey := "2024-06-10", isToday := true } ∧
    (fetchData 0 (ymd 2024 6 10 * 86400 + 43200)
        (.fulfilled [some { date := some "2024-06-10", minutes := some 10 },
          some { date := some "2024-06-10", minutes := some 20 }])
        (.fulfilled [some { mood := .other, focusMinutes := some 1 }])
        .rejected).focusData[6]?
      = some { date := "Jun 10", minutes := 0, isToday := true } := by
  decide

/-- C28, amended.  When the processing of the mood result does not throw and a fetched focus
(resp. task) array holds several records with the date key of a canonical day, the point of
that day carries the values of the last of them in array order, as the reconciler reads them
(`Math.round(parseFloat(minutes) || 0)`, `parseInt(created) || 0`,
`parseInt(completed) || 0`: the value itself for an integer of magnitude below 1e21, and 0
for an absent value), whatever the earlier records with that date carry: these are neither
summed nor shown.  The output has seven focus points and seven task points. -/
theorem duplicate_dates_last_wins (tz now : Int) (moodResult : Settled (Option MoodItem))
    (mood : List MoodPoint) (hmood : formattedMood moodResult = some mood)
    (fpre fpost : List (Option FocusItem)) (fr : FocusItem)
    (tpre tpost : List (Option TaskItem)) (tr : TaskItem)
    (i : Nat) (day : Day)
    (hday : (last7Days tz (localMidnight tz (localDay tz now)))[i]? = some day)
    (hfr : fr.date = some day.dateKey)
    (hfpost : ∀ it, some it ∈ fpost → it.date ≠ some day.dateKey)
    (htr : tr.date = some day.dateKey)
    (htpost : ∀ it, some it ∈ tpost → it.date ≠ some day.dateKey) :
    (fetchData tz now (.fulfilled (fpre ++ [some fr] ++ fpost)) moodResult
        (.fulfilled (tpre ++ [some tr] ++ tpost))).focusData[i]?
      = some { date := day.date, minutes := roundReal (parseFloatOr0 fr.minutes),
               isToday := day.isToday } ∧
    (fetchData tz now (.fulfilled (fpre ++ [some fr] ++ fpost)) moodResult
        (.fulfilled (tpre ++ [some tr] ++ tpost))).taskData[i]?
      = some { date := day.date, created := parseIntOr0 tr.created,
               completed := parseIntOr0 tr.completed, isToday := day.isToday } ∧
    (fetchData tz now (.fulfilled (fpre ++ [some fr] ++ fpost)) moodResult
        (.fulfilled (tpre ++ [some tr] ++ tpost))).focusData.length = 7 ∧
    (fetchData tz now (.fulfilled (fpre ++ [some fr] ++ fpost)) moodResult
        (.fulfilled (tpre ++ [some tr] ++ tpost))).taskData.length = 7 ∧
    (∀ n : Int, fr.minutes = some (.num (n : ℚ)) →
      (fetchData tz now (.fulfilled (fpre ++ [some fr] ++ fpost)) moodResult
          (.fulfilled (tpre ++ [some tr] ++ tpost))).focusData[i]?
        = some { date := day.date, minutes := .fin n, isToday := day.isToday }) ∧
    (fr.minutes = none →
      (fetchData tz now (.fulfilled (fpre ++ [some fr] ++ fpost)) moodResult
          (.fulfilled (tpre ++ [some tr] ++ tpost))).focusData[i]?
        = some { date := day.date, minutes := 0, isToday := day.isToday }) ∧
    (∀ c d : Int, |c| < 1000000000000000000000 → |d| < 1000000000000000000000 →
      tr.created = some (.num (c : ℚ)) → tr.completed = some (.num (d : ℚ)) →
      (fetchData tz now (.fulfilled (fpre ++ [some fr] ++ fpost)) moodResult
          (.fulfilled (tpre ++ [some tr] ++ tpost))).taskData[i]?
        = some { date := day.date, created := c, completed := d, isToday := day.isToday }) ∧
    (tr.created = none → tr.completed = none →
      (fetchData tz now (.fulfilled (fpre ++ [some fr] ++ fpost)) moodResult
          (.fulfilled (tpre ++ [some tr] ++ tpost))).taskData[i]?
        = some { date := day.date, created := 0, completed := 0, isToday := day.isToday }) := by
  have hk : day.dateKey ≠ "" := by
    obtain ⟨hlt, hget⟩ := List.getElem?_eq_some_iff.1 hday
    exact mem_last7Days_dateKey _ _ _ (hget ▸ List.getElem_mem hlt)
  have hf : (fetchData tz now (.fulfilled (fpre ++ [some fr] ++ fpost)) moodResult
        (.fulfilled (tpre ++ [some tr] ++ tpost))).focusData[i]?
      = some { date := day.date, minutes := roundReal (parseFloatOr0 fr.minutes),
               isToday := day.isToday } := by
    simp only [fetchData, hmood, finalFocusData, List.getElem?_map, hday, Option.map_some']
    rw [mapGet_focusMap _ _ hk]
    simp only [specFocusFor, specRecordFor_last _ fpre fpost fr _ hfr hfpost, Option.map_some']
  have ht : (fetchData tz now (.fulfilled (fpre ++ [some fr] ++ fpost)) moodResult
        (.fulfilled (tpre ++ [some tr] ++ tpost))).taskData[i]?
      = some { date := day.date, created := parseIntOr0 tr.created,
               completed := parseIntOr0 tr.completed, isToday := day.isToday } := by
    simp only [fetchData, hmood, finalTaskData, List.getElem?_map, hday, Option.map_some']
    rw [mapGet_taskMap _ _ hk]
    simp only [specTaskFor, specRecordFor_last _ tpre tpost tr _ htr htpost, Option.map_some']
  refine ⟨hf, ht, ?_, ?_, ?_, ?_, ?_, ?_⟩
  · simp only [fetchData, hmood, finalFocusData, List.length_map]
    rfl
  · simp only [fetchData, hmood, finalTaskData, List.length_map]
    rfl
  · intro n hn
    rw [hf, hn, rounded_integer]
  · intro hn
    rw [hf, hn, (rounded_nan none).1]
  · intro c d hc hd hcr hco
    have h1 : parseIntOr0 (some (.num (c : ℚ))) = c := by
      show (some (parseIntNumber (c : ℚ))).getD 0 = c
      rw [parseIntNumber_int c hc]
      rfl
    have h2 : parseIntOr0 (some (.num (d : ℚ))) = d := by
      show (some (parseIntNumber (d : ℚ))).getD 0 = d
      rw [parseIntNumber_int d hd]
      rfl
    rw [ht, hcr, hco, h1, h2]
  · intro hcr hco
    rw [ht, hcr, hco]
    rfl

/-- Witness of the amended C28: two focus records and two task records dated `2024-06-10`;
the point of today carries the values of the second of each. -/
theorem duplicate_dates_last_wins_witness :
    formattedMood (.rejected : Settled (Option MoodItem)) = some [] ∧
    (fetchData 0 (ymd 2024 6 10 * 86400 + 43200)
        (.fulfilled ([some { date := some "2024-06-10", minutes := some 10 }]
          ++ [some { date := some "2024-06-10", minutes := some 20 }] ++ []))
        .rejected
        (.fulfilled ([some { date := some "2024-06-10", created := some 1, completed := some 2 }]
          ++ [some { date := some "2024-06-10", created := some 3, completed := none }]
          ++ []))).focusData[6]?
      = some { date := "Jun 10", minutes := 20, isToday := true } :=
  ⟨rfl,
    ((duplicate_dates_last_wins 0 (ymd 2024 6 10 * 86400 + 43200) .rejected [] rfl
      [some { date := some "2024-06-10", minutes := some 10 }] []
      { date := some "2024-06-10", minutes := some 20 }
      [some { date := some "2024-06-10", created := some 1, completed := some 2 }] []
      { date := some "2024-06-10", created := some 3, completed := none }
      6 { date := "Jun 10", dateKey := "2024-06-10", isToday := true }
      (by decide) rfl (fun _ h => by cases h) rfl (fun _ h => by cases h)).1).trans
      (by simp only [roundReal_compute]; decide)⟩

/-! ## Claims on the ML proxies, the task handlers and gamification -/

/-- C22. On both paths of its call to the ML service each proxy answers with status 200 and
`success: true`: when the call resolves, `data` is the data of the service unchanged; when it
rejects, `data` is the fixed default of the endpoint: `focus_minutes` 25, `break_minutes` 5
and `confidence` 0 for recommend-pomodoro, `sentiment_score` 0 and `label` `neutral` for
sentiment, `distraction_probability` 0.3 for distraction-predict.  (Sentiment makes its call
only for a non-empty `text`; without one it answers 400 before any call.) -/
theorem ml_proxies_always_succeed {D : Type} (call : MlOutcome D) (text : String) :
    (recommendPomodoro call).status = 200 ∧ (recommendPomodoro call).success = true ∧
    (distractionPredict call).status = 200 ∧ (distractionPredict call).success = true ∧
    (text ≠ "" → (sentiment (some text) call).status = 200 ∧
      (sentiment (some text) call).success = true) ∧
    (∀ d : D, call = .resolved d →
      (recommendPomodoro call).data = some (.service d) ∧
      (distractionPredict call).data = some (.service d) ∧
      (text ≠ "" → (sentiment (some text) call).data = some (.service d))) ∧
    (call = .rejected →
      (∃ rest, (recommendPomodoro call).data = some (.fallback
        (("focus_minutes", .num 25) :: ("break_minutes", .num 5) :: ("confidence", .num 0)
          :: rest))) ∧
      (∃ rest, (distractionPredict call).data = some (.fallback
        (("distraction_probability", .num (3 / 10)) :: rest))) ∧
      (text ≠ "" → (sentiment (some text) call).data = some (.fallback
        [("sentiment_score", .num 0), ("label", .str "neutral")]))) ∧
    (sentiment (none : Option String) call).status = 400 ∧
    (sentiment (some "") call).status = 400 := by
  have hs : text ≠ "" → ¬ ((some text : Option String) = none ∨ some text = some "") := by
    intro h hn
    rcases hn with hn | hn
    · cases hn
    · exact h (Option.some.inj hn)
  cases call with
  | resolved d =>
    refine ⟨rfl, rfl, rfl, rfl, ?_, ?_, ?_, ?_, ?_⟩
    · intro h
      simp only [sentiment, if_neg (hs h), and_self]
    · intro d2 hd
      cases hd
      refine ⟨rfl, rfl, ?_⟩
      intro h
      simp only [sentiment, if_neg (hs h)]
    · intro h
      cases h
    · simp [sentiment]
    · simp [sentiment]
  | rejected =>
    refine ⟨rfl, rfl, rfl, rfl, ?_, ?_, ?_, ?_, ?_⟩
    · intro h
      simp only [sentiment, if_neg (hs h), and_self]
    · intro d2 hd
      cases hd
    · intro _
      refine ⟨⟨_, rfl⟩, ⟨_, rfl⟩, ?_⟩
      intro h
      simp only [sentiment, if_neg (hs h)]
    · simp [sentiment]
    · simp [sentiment]

theorem updateTask_of_no_match (ts : Int) (uid id : Nat) (b : TaskUpdate)
    (tasks : List TaskRow) (h : ∀ r ∈ tasks, taskMatches uid id r = false) :
    updateTask ts uid id b tasks = tasks := by
  unfold updateTask
  conv_rhs => rw [← List.map_id tasks]
  apply List.map_congr_left
  intro r hr
  have hm := h r hr
  simp only [taskMatches, Bool.and_eq_false_iff, decide_eq_false_iff_not] at hm
  have hn : ¬ (r.id = id ∧ r.user_id = uid) := by
    intro hc
    rcases hm with hm | hm
    · exact hm hc.1
    · exact hm hc.2
  simp [hn]

/-- C24. When no task has both the id and the owner of the request (the id does not exist,
or the task belongs to another user), `PUT /tasks/:id` and `DELETE /tasks/:id` answer 404
`Task not found` and leave the table as it is.  In general a row that does not match the
request on both its id and its `user_id` is neither modified by `PUT` nor deleted by
`DELETE`. -/
theorem task_write_needs_id_and_owner (ts : Int) (uid id : Nat) (b : TaskUpdate)
    (tasks : List TaskRow) :
    ((∀ r ∈ tasks, ¬ (r.id = id ∧ r.user_id = uid)) →
      putTask ts uid id b tasks = (tasks, .message 404 "Task not found") ∧
      deleteTask uid id tasks = (tasks, .message 404 "Task not found")) ∧
    (∀ (k : Nat) (r : TaskRow), tasks[k]? = some r → ¬ (r.id = id ∧ r.user_id = uid) →
      (putTask ts uid id b tasks).1[k]? = some r) ∧
    (putTask ts uid id b tasks).1.length = tasks.length ∧
    (∀ r ∈ tasks, ¬ (r.id = id ∧ r.user_id = uid) → r ∈ (deleteTask uid id tasks).1) ∧
    (∀ r, r ∈ (deleteTask uid id tasks).1 → r ∈ tasks ∧ ¬ (r.id = id ∧ r.user_id = uid)) := by
  have hput : (putTask ts uid id b tasks).1 = updateTask ts uid id b tasks := by
    unfold putTask
    cases (tasks.filter (taskMatches uid id)).map (setTask ts b) <;> rfl
  have hdel : (deleteTask uid id tasks).1 = tasks.filter (fun r => !taskMatches uid id r) := by
    unfold deleteTask
    cases tasks.filter (taskMatches uid id) <;> rfl
  have hmatch : ∀ r : TaskRow, taskMatches uid id r = true ↔ (r.id = id ∧ r.user_id = uid) := by
    intro r
    simp [taskMatches]
  refine ⟨?_, ?_, ?_, ?_, ?_⟩
  · intro h
    have hall : ∀ r ∈ tasks, taskMatches uid id r = false := by
      intro r hr
      cases hm : taskMatches uid id r
      · rfl
      · exact absurd ((hmatch r).1 hm) (h r hr)
    have hf : tasks.filter (taskMatches uid id) = [] := by
      rw [List.filter_eq_nil_iff]
      intro r hr
      simp [hall r hr]
    have hf2 : tasks.filter (fun r => !taskMatches uid id r) = tasks := by
      rw [List.filter_eq_self]
      intro r hr
      simp [hall r hr]
    constructor
    · simp only [putTask, hf, List.map_nil, updateTask_of_no_match ts uid id b tasks hall]
    · simp only [deleteTask, hf, hf2]
  · intro k r hk hn
    rw [hput]
    unfold updateTask
    rw [List.getElem?_map, hk]
    simp [hn]
  · rw [hput]
    unfold updateTask
    rw [List.length_map]
  · intro r hr hn
    rw [hdel, List.mem_filter]
    refine ⟨hr, ?_⟩
    cases hm : taskMatches uid id r
    · rfl
    · exact absurd ((hmatch r).1 hm) hn
  · intro r hr
    rw [hdel, List.mem_filter] at hr
    refine ⟨hr.1, ?_⟩
    intro hc
    have := (hmatch r).2 hc
    rw [this] at hr
    simp at hr

theorem awardPoints_int (ts p : Int) (row : Option GamRow) (hp : 0 < p) :
    awardPoints ts (some (p : ℚ)) row
      = if inInt4 p = true then
          match row with
          | none => (none, .row none)
          | some r =>
            match awardRow ts p r with
            | some r2 => (some r2, .row (some r2))
            | none => (some r, .serverError)
        else (row, .serverError) := by
  have h0 : (0 : ℚ) < (p : ℚ) := by exact_mod_cast hp
  have h1 : ¬ ((JsPoints.num (p : ℚ)).truthy = false ∨ (JsPoints.num (p : ℚ)).leZero = true) := by
    simp only [JsPoints.truthy, JsPoints.leZero, decide_eq_false_iff_not, decide_eq_true_eq,
      not_or, not_not, not_le]
    exact ⟨ne_of_gt h0, h0⟩
  have h2 : (p : ℚ).isInt = true := by simp [Rat.isInt]
  have h3 : (p : ℚ).num = p := Rat.intCast_num p
  simp only [awardPoints, if_neg h1, JsPoints.asInteger, h2, h3, Bool.true_and]
  cases inInt4 p <;> rfl

/-- C25 as stated fails.  First, on a row whose `total_points` is -1500 an award of 100
points sets `level` to 0, while `floor(-1400 / 1000) + 1` is -1: the division of the two SQL
integers truncates towards zero.  Second, an award of 3000000000 points, which is outside the
range of `INTEGER`, answers 500 and adds nothing. -/
theorem award_points_counterexample :
    (awardPoints 0 (some ((100 : Int) : ℚ))
        (some { user_id := 1, level := 1, points := 0, total_points := -1500, streak := 0,
                last_activity_date := none, unlocked_badges := [], updated_at := none })).1
      = some { user_id := 1, level := 0, points := 100, total_points := -1400, streak := 0,
               last_activity_date := none, unlocked_badges := [], updated_at := some 0 } ∧
    (-1400 : Int) / 1000 + 1 = -1 ∧
    awardPoints 0 (some ((3000000000 : Int) : ℚ))
        (some { user_id := 1, level := 1, points := 0, total_points := 0, streak := 0,
                last_activity_date := none, unlocked_badges := [], updated_at := none })
      = (some { user_id := 1, level := 1, points := 0, total_points := 0, streak := 0,
                last_activity_date := none, unlocked_badges := [], updated_at := none },
         .serverError) := by
  refine ⟨?_, by decide, ?_⟩
  · rw [awardPoints_int _ _ _ (by decide)]
    decide
  · rw [awardPoints_int _ _ _ (by decide)]
    decide

/-- C25, amended.  For the row of the user and a positive integer `p` such that `p`,
`points + p` and `total_points + p` are in the range of `INTEGER` and `total_points + p` is not
negative, award-points adds `p` to `points` and to `total_points` and sets `level` to
`floor(new total_points / 1000) + 1`, computed from the total after the award; `user_id`,
`streak`, `last_activity_date` and `unlocked_badges` are unchanged.  The relation
`level = floor(total_points / 1000) + 1` holds afterwards, and the level of a row that
satisfied it is not lowered. -/
theorem award_points_row (ts p : Int) (r : GamRow) (hp : 0 < p)
    (hrange : inInt4 p = true ∧ inInt4 (r.points + p) = true ∧
      inInt4 (r.total_points + p) = true)
    (hnn : 0 ≤ r.total_points + p) :
    ∃ r2 : GamRow,
      awardPoints ts (some (p : ℚ)) (some r) = (some r2, .row (some r2)) ∧
      r2.points = r.points + p ∧ r2.total_points = r.total_points + p ∧
      r2.level = (r.total_points + p) / 1000 + 1 ∧
      r2.level = r2.total_points / 1000 + 1 ∧
      r2.user_id = r.user_id ∧ r2.streak = r.streak ∧
      r2.last_activity_date = r.last_activity_date ∧
      r2.unlocked_badges = r.unlocked_badges ∧
      (r.level = r.total_points / 1000 + 1 → r.level ≤ r2.level) := by
  have hl : sqlLevel (r.total_points + p) = (r.total_points + p) / 1000 + 1 := by
    unfold sqlLevel
    rw [Int.tdiv_eq_ediv hnn (by decide)]
  have ha : awardRow ts p r = some { r with
      points := r.points + p
      total_points := r.total_points + p
      level := sqlLevel (r.total_points + p)
      updated_at := some ts } := by
    simp [awardRow, hrange.1, hrange.2.1, hrange.2.2]
  refine ⟨{ r with
      points := r.points + p
      total_points := r.total_points + p
      level := sqlLevel (r.total_points + p)
      updated_at := some ts }, ?_, rfl, rfl, hl, hl, rfl, rfl, rfl, rfl, ?_⟩
  · rw [awardPoints_int _ _ _ hp]
    simp only [hrange.1, if_true, ha]
  · intro hrel
    show r.level ≤ sqlLevel (r.total_points + p)
    rw [hl, hrel]
    have := Int.ediv_le_ediv (by decide : (0 : Int) < 1000)
      (by omega : r.total_points ≤ r.total_points + p)
    omega

/-- Witness of the amended C25: 250 points awarded to a row with 900 total points. -/
theorem award_points_row_witness :
    ((0 : Int) < 250 ∧ (0 : Int) ≤ 900 + 250) ∧
    ∃ r2 : GamRow,
      awardPoints 0 (some ((250 : Int) : ℚ))
          (some { user_id := 1, level := 1, points := 400, total_points := 900, streak := 2,
                  last_activity_date := none, unlocked_badges := [], updated_at := none })
        = (some r2, .row (some r2)) ∧ r2.points = 400 + 250 ∧ r2.total_points = 900 + 250 ∧
      r2.level = (900 + 250) / 1000 + 1 := by
  refine ⟨⟨by decide, by decide⟩, ?_⟩
  obtain ⟨r2, h1, h2, h3, h4, _⟩ := award_points_row 0 250
    { user_id := 1, level := 1, points := 400, total_points := 900, streak := 2,
      last_activity_date := none, unlocked_badges := [], updated_at := none }
    (by decide) (by decide) (by decide)
  exact ⟨r2, h1, h2, h3, h4⟩

/-- The guard of award-points on a JSON number.  The handler answers 400
`Invalid points value` and leaves the row as it is whenever `points` is missing, null, or a
number that is 0 or negative.  For a number the `points` and `total_points` of the row do not
decrease, and the query is issued (the answer is not the 400), and the row can change, only
when the number is strictly positive. -/
theorem award_points_guard_numbers (ts : Int) (points : Option ℚ) (row : Option GamRow) :
    ((points = none ∨ ∃ q, points = some q ∧ q ≤ 0) →
      awardPoints ts (points.map JsPoints.num) row = (row, .badRequest "Invalid points value") ∧
      (awardPoints ts (points.map JsPoints.num) row).2.status = 400) ∧
    (∀ r, row = some r → ∃ r2, (awardPoints ts (points.map JsPoints.num) row).1 = some r2 ∧
      r.points ≤ r2.points ∧ r.total_points ≤ r2.total_points) ∧
    (row = none → (awardPoints ts (points.map JsPoints.num) row).1 = none) ∧
    ((awardPoints ts (points.map JsPoints.num) row).2.status ≠ 400 →
      ∃ q, points = some q ∧ 0 < q) ∧
    ((awardPoints ts (points.map JsPoints.num) row).1 ≠ row → ∃ q, points = some q ∧ 0 < q) := by
  cases points with
  | none =>
    refine ⟨fun _ => ⟨rfl, rfl⟩, fun r hr => ⟨r, hr, le_refl _, le_refl _⟩, fun h => h, ?_, ?_⟩
    · intro h
      exact absurd rfl h
    · intro h
      exact absurd rfl h
  | some q =>
    show _ ∧ _ ∧ _ ∧ ((awardPoints ts (some (JsPoints.num q)) row).2.status ≠ 400 → _) ∧
      ((awardPoints ts (some (JsPoints.num q)) row).1 ≠ row → _)
    simp only [Option.map_some']
    by_cases hq : q ≤ 0
    · have hg : (JsPoints.num q).truthy = false ∨ (JsPoints.num q).leZero = true :=
        Or.inr (by simp [JsPoints.leZero, hq])
      have hbad : awardPoints ts (some (JsPoints.num q)) row
          = (row, .badRequest "Invalid points value") := by
        simp only [awardPoints, if_pos hg]
      refine ⟨fun _ => ⟨hbad, by rw [hbad]; rfl⟩, ?_, ?_, ?_, ?_⟩
      · intro r hr
        exact ⟨r, by rw [hbad]; exact hr, le_refl _, le_refl _⟩
      · intro h
        rw [hbad]
        exact h
      · intro h
        rw [hbad] at h
        exact absurd rfl h
      · intro h
        rw [hbad] at h
        exact absurd rfl h
    · have hpos : 0 < q := not_le.1 hq
      have hg : ¬ ((JsPoints.num q).truthy = false ∨ (JsPoints.num q).leZero = true) := by
        simp only [JsPoints.truthy, JsPoints.leZero, decide_eq_false_iff_not, decide_eq_true_eq,
          not_or, not_not, not_le]
        exact ⟨ne_of_gt hpos, hpos⟩
      refine ⟨?_, ?_, ?_, fun _ => ⟨q, rfl, hpos⟩, fun _ => ⟨q, rfl, hpos⟩⟩
      · intro h
        rcases h with h | ⟨q2, h2, h3⟩
        · cases h
        · cases h2
          exact absurd h3 hq
      · intro r hr
        subst hr
        simp only [awardPoints, if_neg hg, JsPoints.asInteger]
        by_cases hi : (q.isInt && inInt4 q.num) = true
        · simp only [hi, if_true]
          have hnum : 0 < q.num := Rat.num_pos.2 hpos
          cases ha : awardRow ts q.num r with
          | none => exact ⟨r, rfl, le_refl _, le_refl _⟩
          | some r2 =>
            refine ⟨r2, rfl, ?_, ?_⟩
            · unfold awardRow at ha
              split at ha
              · cases ha
                show r.points ≤ r.points + q.num
                omega
              · cases ha
            · unfold awardRow at ha
              split at ha
              · cases ha
                show r.total_points ≤ r.total_points + q.num
                omega
              · cases ha
        · simp only [hi]
          exact ⟨r, rfl, le_refl _, le_refl _⟩
      · intro hr
        subst hr
        simp only [awardPoints, if_neg hg, JsPoints.asInteger]
        by_cases hi : (q.isInt && inInt4 q.num) = true
        · simp only [hi, if_true]
        · simp only [hi]
          rfl

theorem placeholder_text (n : Nat) (h1 : 1 ≤ n) (h7 : n ≤ 7) :
    placeholder n = specDollar n := by
  interval_cases n <;> decide

theorem profileUpdates_eq {V : Type} (b : ProfileBody V) :
    profileUpdates b
      = (specAssignments b, (specPresent b).map (fun f => QueryValue.field f.2),
          (specPresent b).length + 1) := by
  obtain ⟨l, p, t, s, d, u⟩ := b
  have e1 := placeholder_text 1 (by decide) (by decide)
  have e2 := placeholder_text 2 (by decide) (by decide)
  have e3 := placeholder_text 3 (by decide) (by decide)
  have e4 := placeholder_text 4 (by decide) (by decide)
  have e5 := placeholder_text 5 (by decide) (by decide)
  have e6 := placeholder_text 6 (by decide) (by decide)
  cases l <;> cases p <;> cases t <;> cases s <;> cases d <;> cases u <;>
    simp only [profileUpdates, pushField, e1, e2, e3, e4, e5, e6] <;> rfl

set_option maxRecDepth 20000 in
theorem profile_text_six :
    "UPDATE user_gamification SET " ++ ", ".intercalate
        ["level = " ++ placeholder 1, "points = " ++ placeholder 2,
          "total_points = " ++ placeholder 3, "streak = " ++ placeholder 4,
          "last_activity_date = " ++ placeholder 5, "unlocked_badges = " ++ placeholder 6]
        ++ ", updated_at = CURRENT_TIMESTAMP WHERE user_id = " ++ placeholder 7 ++ " RETURNING *"
      = "UPDATE user_gamification SET level = $1, points = $2, total_points = $3, streak = $4, last_activity_date = $5, unlocked_badges = $6, updated_at = CURRENT_TIMESTAMP WHERE user_id = $7 RETURNING *" := by
  decide

set_option maxRecDepth 20000 in
theorem profile_text_two :
    "UPDATE user_gamification SET " ++ ", ".intercalate
        ["points = " ++ placeholder 1, "streak = " ++ placeholder 2]
        ++ ", updated_at = CURRENT_TIMESTAMP WHERE user_id = " ++ placeholder 3 ++ " RETURNING *"
      = "UPDATE user_gamification SET points = $1, streak = $2, updated_at = CURRENT_TIMESTAMP WHERE user_id = $3 RETURNING *" := by
  decide

/-- C27. Let `k` be the number of the six updatable fields present in the body of
`PUT /gamification/profile`.  If `k = 0` the handler answers 400 `No fields to update` and
issues no query.  Otherwise the `UPDATE` it issues has exactly `k` assignments, `name = $i`
for the `i`-th present field in the fixed order (the text of `$i` being the dollar sign and
the decimal numeral of `i`, spelled out in `specDollar`), followed by `updated_at`; its
`WHERE` clause uses `$(k+1)`; and the array of values holds the values of the present fields
in the same order, so that `values[i-1]` is the value of the field assigned to `$i`, and then
the user id, at index `k`.  The last two parts spell the statement out for a body with the six
fields and for a body with `points` and `streak` only. -/
theorem profile_update_placeholders {V : Type} (b : ProfileBody V) (uid : Nat) :
    (specPresent b = [] → putProfile b uid = .badRequest "No fields to update") ∧
    (specPresent b ≠ [] →
      putProfile b uid
        = .query ("UPDATE user_gamification SET " ++ ", ".intercalate (specAssignments b)
            ++ ", updated_at = CURRENT_TIMESTAMP WHERE user_id = "
            ++ specDollar ((specPresent b).length + 1) ++ " RETURNING *")
          ((specPresent b).map (fun f => QueryValue.field f.2) ++ [.userId uid])) ∧
    (specAssignments b).length = (specPresent b).length ∧
    (∀ (i : Nat) (f : String × V), (specPresent b)[i]? = some f →
      (specAssignments b)[i]?
        = some (f.1 ++ " = " ++ ["$1", "$2", "$3", "$4", "$5", "$6"].getD i "") ∧
      ((specPresent b).map (fun f => QueryValue.field f.2) ++ [QueryValue.userId uid])[i]?
        = some (.field f.2)) ∧
    ((specPresent b).map (fun f => QueryValue.field f.2) ++ [QueryValue.userId uid])[
        (specPresent b).length]? = some (.userId uid) ∧
    (∀ l p t s d u : V,
      putProfile { level := some l, points := some p, total_points := some t, streak := some s,
                   last_activity_date := some d, unlocked_badges := some u } uid
        = .query
            "UPDATE user_gamification SET level = $1, points = $2, total_points = $3, streak = $4, last_activity_date = $5, unlocked_badges = $6, updated_at = CURRENT_TIMESTAMP WHERE user_id = $7 RETURNING *"
            [.field l, .field p, .field t, .field s, .field d, .field u, .userId uid]) ∧
    (∀ p s : V,
      putProfile { level := none, points := some p, total_points := none, streak := some s,
                   last_activity_date := none, unlocked_badges := none } uid
        = .query
            "UPDATE user_gamification SET points = $1, streak = $2, updated_at = CURRENT_TIMESTAMP WHERE user_id = $3 RETURNING *"
            [.field p, .field s, .userId uid]) := by
  have hlen : (specAssignments b).length = (specPresent b).length := by
    simp [specAssignments]
  have hk : (specPresent b).length ≤ 6 := by
    obtain ⟨l, p, t, s, d, u⟩ := b
    cases l <;> cases p <;> cases t <;> cases s <;> cases d <;> cases u <;>
      simp [specPresent]
  have hdollar : ∀ n : Nat, 1 ≤ n → n ≤ 7 → placeholder n = specDollar n :=
    placeholder_text
  refine ⟨?_, ?_, hlen, ?_, ?_, ?_, ?_⟩
  rotate_left 4
  · intro l p t s d u
    rw [← profile_text_six]
    rfl
  · intro p s
    rw [← profile_text_two]
    rfl
  · intro h
    simp only [putProfile, profileUpdates_eq, hlen, h, List.length_nil, if_true]
  · intro h
    have hne : ¬ (specPresent b).length = 0 := fun h0 => h (List.length_eq_zero.1 h0)
    simp only [putProfile, profileUpdates_eq, hlen, if_neg hne]
    rw [hdollar _ (by omega) (by omega)]
  · intro i f hf
    have hi : i < (specPresent b).length := (List.getElem?_eq_some_iff.1 hf).1
    constructor
    · simp only [specAssignments, List.getElem?_map, List.enum, List.getElem?_enumFrom, hf,
        Option.map_some', Nat.zero_add]
      have hi6 : i < 6 := by omega
      interval_cases i <;> rfl
    · rw [List.getElem?_append_left (by simpa using hi), List.getElem?_map, hf]
      rfl
  · rw [List.getElem?_append_right (by simp)]
    simp

theorem putProfile_example :
    putProfile ({ level := none, points := some 5, total_points := none, streak := some 2,
                  last_activity_date := none, unlocked_badges := none } : ProfileBody Int) 7
      = .query
          "UPDATE user_gamification SET points = $1, streak = $2, updated_at = CURRENT_TIMESTAMP WHERE user_id = $3 RETURNING *"
          [.field 5, .field 2, .userId 7] := by
  decide

theorem progress_eq (t : Int) (ht : 0 ≤ t) : progress t = ((t % 1000 : Int) : ℚ) / 10 := by
  unfold progress
  rw [Int.tmod_eq_emod ht (by decide)]

theorem sqlLevel_eq (t : Int) (ht : 0 ≤ t) : sqlLevel t = t / 1000 + 1 := by
  unfold sqlLevel
  rw [Int.tdiv_eq_ediv ht (by decide)]

/-- C29. For every non-negative integer `totalPoints`, the `progress` of `PointsCard`,
`(totalPoints % 1000) / 10`, lies in `[0, 100)` and equals
`100 * (totalPoints - 1000 * (level - 1)) / 1000` for the level that award-points sets,
`level = floor(totalPoints / 1000) + 1`; it is 0 exactly at the multiples of 1000, which for
`totalPoints ≥ 1` are exactly the totals at which that level is one more than at
`totalPoints - 1`. -/
theorem progress_matches_level (t : Int) (ht : 0 ≤ t) :
    0 ≤ progress t ∧ progress t < 100 ∧
    sqlLevel t = t / 1000 + 1 ∧
    progress t = 100 * ((t : ℚ) - 1000 * ((sqlLevel t : ℚ) - 1)) / 1000 ∧
    (progress t = 0 ↔ t % 1000 = 0) ∧
    (1 ≤ t → (progress t = 0 ↔ sqlLevel t = sqlLevel (t - 1) + 1)) ∧
    (1 ≤ t → progress t ≠ 0 → sqlLevel t = sqlLevel (t - 1)) := by
  have hp := progress_eq t ht
  have hl := sqlLevel_eq t ht
  have hm0 : 0 ≤ t % 1000 := Int.emod_nonneg t (by decide)
  have hm1 : t % 1000 < 1000 := Int.emod_lt_of_pos t (by decide)
  have hm0q : (0 : ℚ) ≤ ((t % 1000 : Int) : ℚ) := by exact_mod_cast hm0
  have hm1q : ((t % 1000 : Int) : ℚ) < 1000 := by exact_mod_cast hm1
  have hz : progress t = 0 ↔ t % 1000 = 0 := by
    rw [hp]
    constructor
    · intro h
      have h2 : ((t % 1000 : Int) : ℚ) = 0 := by linarith
      exact_mod_cast h2
    · intro h
      rw [h]
      simp
  refine ⟨?_, ?_, hl, ?_, hz, ?_, ?_⟩
  · rw [hp]
    linarith
  · rw [hp]
    linarith
  · rw [hp, hl]
    have hd : t = 1000 * (t / 1000) + t % 1000 := (Int.ediv_add_emod t 1000).symm
    have hdq : (t : ℚ) = 1000 * ((t / 1000 : Int) : ℚ) + ((t % 1000 : Int) : ℚ) := by
      exact_mod_cast hd
    push_cast
    linarith
  · intro h1
    rw [hz, hl, sqlLevel_eq (t - 1) (by omega)]
    omega
  · intro h1 hne
    have hne2 : ¬ t % 1000 = 0 := fun h => hne (hz.2 h)
    rw [hl, sqlLevel_eq (t - 1) (by omega)]
    omega

/-- Witness of C29: 2000 total points (level 3, progress 0). -/
theorem progress_matches_level_witness :
    (0 : Int) ≤ 2000 ∧ sqlLevel 2000 = 2000 / 1000 + 1 ∧
      (progress 2000 = 0 ↔ (2000 : Int) % 1000 = 0) :=
  ⟨by decide, (progress_matches_level 2000 (by decide)).2.2.1,
    (progress_matches_level 2000 (by decide)).2.2.2.2.1⟩

/-! ## Lemmas: `POST /tasks/reorder` -/

theorem reorder_foldl_map (clock : Nat → Int) (uid : Nat) (l : List (Nat × Nat))
    (tasks : List TaskRow) :
    l.foldl (fun t p => t.map (reorderRow (clock p.1) uid p.1 p.2)) tasks
      = tasks.map (fun r => l.foldl (fun r p => reorderRow (clock p.1) uid p.1 p.2 r) r) := by
  induction l generalizing tasks with
  | nil => simp
  | cons p l ih =>
    rw [List.foldl_cons, ih, List.map_map]
    rfl

theorem reorderRow_of_not_match (ts : Int) (uid i id : Nat) (r : TaskRow)
    (h : ¬ (r.id = id ∧ r.user_id = uid)) : reorderRow ts uid i id r = r := by
  have hm : taskMatches uid id r = false := by
    cases hb : taskMatches uid id r
    · rfl
    · simp only [taskMatches, Bool.and_eq_true, decide_eq_true_eq] at hb
      exact absurd hb h
  simp [reorderRow, hm]

theorem reorderRow_of_match (ts : Int) (uid i id : Nat) (r : TaskRow)
    (h : r.id = id ∧ r.user_id = uid) :
    reorderRow ts uid i id r = { r with task_order := some (i : Int), updated_at := some ts } := by
  have hm : taskMatches uid id r = true := by
    simp [taskMatches, h.1, h.2]
  simp [reorderRow, hm]

theorem reorder_row_unlisted (clock : Nat → Int) (uid : Nat) (l : List (Nat × Nat))
    (r : TaskRow) (h : r.user_id ≠ uid ∨ ∀ p ∈ l, p.2 ≠ r.id) :
    l.foldl (fun r p => reorderRow (clock p.1) uid p.1 p.2 r) r = r := by
  induction l with
  | nil => rfl
  | cons p l ih =>
    rw [List.foldl_cons, reorderRow_of_not_match]
    · apply ih
      rcases h with h | h
      · exact Or.inl h
      · exact Or.inr (fun q hq => h q (List.mem_cons_of_mem p hq))
    · intro hc
      rcases h with h | h
      · exact h hc.2
      · exact h p (List.mem_cons_self p l) hc.1.symm

theorem reorder_row_listed (clock : Nat → Int) (uid : Nat) (l : List (Nat × Nat))
    (r : TaskRow) (i : Nat) (hu : r.user_id = uid) (hmem : (i, r.id) ∈ l)
    (hnd : (l.map Prod.snd).Nodup) :
    l.foldl (fun r p => reorderRow (clock p.1) uid p.1 p.2 r) r
      = { r with task_order := some (i : Int), updated_at := some (clock i) } := by
  induction l generalizing r with
  | nil => cases hmem
  | cons p l ih =>
    rw [List.map_cons, List.nodup_cons] at hnd
    obtain ⟨hp, hl⟩ := hnd
    rw [List.foldl_cons]
    rcases List.mem_cons.1 hmem with he | hin
    · subst he
      rw [reorderRow_of_match _ _ _ _ _ ⟨rfl, hu⟩]
      apply reorder_row_unlisted
      right
      intro q hq hc
      apply hp
      rw [List.mem_map]
      exact ⟨q, hq, hc⟩
    · have hne : p.2 ≠ r.id := by
        intro hc
        apply hp
        rw [List.mem_map]
        exact ⟨(i, r.id), hin, hc.symm⟩
      rw [reorderRow_of_not_match _ _ _ _ _ (fun hc => hne hc.1.symm)]
      exact ih r hu hin hl

/-- C30. `POST /tasks/reorder` answers 400 `taskIds must be an array` and leaves the table as
it is when `taskIds` is not an array.  For an array of pairwise distinct ids it sets the
`task_order` of the task with id `taskIds[i]` to `i` for each `i` whose task is owned by the
caller (that row is also stamped by the `updated_at` trigger, its other columns are kept);
a task that is not listed, and a task owned by another user, keep all their columns. -/
theorem reorder_sets_listed_own_tasks (clock : Nat → Int) (uid : Nat) (ids : List Nat)
    (tasks : List TaskRow) (hnd : ids.Nodup) :
    reorderTasks clock uid none tasks = (tasks, .message 400 "taskIds must be an array") ∧
    (reorderTasks clock uid (some ids) tasks).2 = .message 200 "Tasks reordered successfully" ∧
    (reorderTasks clock uid (some ids) tasks).1.length = tasks.length ∧
    (∀ (k : Nat) (r : TaskRow), tasks[k]? = some r →
      (∀ i : Nat, ids[i]? = some r.id → r.user_id = uid →
        (reorderTasks clock uid (some ids) tasks).1[k]?
          = some { r with task_order := some (i : Int), updated_at := some (clock i) }) ∧
      (r.id ∉ ids → (reorderTasks clock uid (some ids) tasks).1[k]? = some r) ∧
      (r.user_id ≠ uid → (reorderTasks clock uid (some ids) tasks).1[k]? = some r)) := by
  have htab : (reorderTasks clock uid (some ids) tasks).1
      = tasks.map (fun r => ids.enum.foldl
          (fun r p => reorderRow (clock p.1) uid p.1 p.2 r) r) := by
    simp only [reorderTasks]
    exact reorder_foldl_map clock uid ids.enum tasks
  refine ⟨rfl, rfl, ?_, ?_⟩
  · rw [htab, List.length_map]
  · intro k r hk
    rw [htab, List.getElem?_map, hk]
    simp only [Option.map_some', Option.some.injEq]
    refine ⟨?_, ?_, ?_⟩
    · intro i hi hu
      apply reorder_row_listed clock uid ids.enum r i hu
      · exact List.mk_mem_enum_iff_getElem?.2 hi
      · rw [List.enum_map_snd]
        exact hnd
    · intro hno
      apply reorder_row_unlisted
      right
      intro p hp hc
      apply hno
      rw [← hc]
      exact List.snd_mem_of_mem_enum hp
    · intro hu
      exact reorder_row_unlisted clock uid ids.enum r (Or.inl hu)

/-- Witness of C30: user 1 sends the ids 5, 3, 9; task 3 is theirs, task 5 belongs to user 2
and task 9 does not exist. -/
theorem reorder_sets_listed_own_tasks_witness :
    ([5, 3, 9] : List Nat).Nodup ∧
    (reorderTasks (fun i => 1000 + (i : Int)) 1 (some [5, 3, 9])
        [{ id := 3, user_id := 1, title := "a", description := none, tag := none,
           priority := none, status := "pending", due_date := none, task_order := some 7,
           created_at := some 10, updated_at := some 10 },
         { id := 5, user_id := 2, title := "b", description := none, tag := none,
           priority := none, status := "pending", due_date := none, task_order := some 8,
           created_at := some 20, updated_at := some 20 }]).1.length = 2 ∧
    (reorderTasks (fun i => 1000 + (i : Int)) 1 (some [5, 3, 9])
        [{ id := 3, user_id := 1, title := "a", description := none, tag := none,
           priority := none, status := "pending", due_date := none, task_order := some 7,
           created_at := some 10, updated_at := some 10 },
         { id := 5, user_id := 2, title := "b", description := none, tag := none,
           priority := none, status := "pending", due_date := none, task_order := some 8,
           created_at := some 20, updated_at := some 20 }]).1
      = [{ id := 3, user_id := 1, title := "a", description := none, tag := none,
           priority := none, status := "pending", due_date := none, task_order := some 1,
           created_at := some 10, updated_at := some 1001 },
         { id := 5, user_id := 2, title := "b", description := none, tag := none,
           priority := none, status := "pending", due_date := none, task_order := some 8,
           created_at := some 20, updated_at := some 20 }] :=
  ⟨by decide,
    (reorder_sets_listed_own_tasks (fun i => 1000 + (i : Int)) 1 [5, 3, 9] _ (by decide)).2.2.1,
    by decide⟩

/-! ## The routes: the window, the range of dates and the rendering of dates -/

theorem windowQuery_accepted (tz now n : Int) (q : Option String) (db : Option Store)
    (hq : queryDays q = some n) (hn : 1 ≤ n) (hacc : startAccepted tz now n = true) :
    windowQuery tz now q db = db := by
  unfold windowQuery
  rw [hq, resolveDays_pos n hn, hacc]
  rfl

theorem windowQuery_rejected (tz now n : Int) (q : Option String) (db : Option Store)
    (hq : queryDays q = some n) (hn : 1 ≤ n) (hacc : startAccepted tz now n = false) :
    windowQuery tz now q db = none := by
  unfold windowQuery
  rw [hq, resolveDays_pos n hn, hacc]
  rfl

theorem getFocusMinutes_eq (tz now n : Int) (q : Option String) (uid : Nat) (db : Store)
    (hq : queryDays q = some n) (hn : 1 ≤ n) (hacc : startAccepted tz now n = true) :
    getFocusMinutes tz now q uid (some db)
      = .json (focusMinutes tz now db.currentDate (some n) uid db.sessions) := by
  unfold getFocusMinutes
  rw [windowQuery_accepted tz now n q _ hq hn hacc]
  simp only [focusMinutesHandler, hq]

theorem getTaskThroughput_eq (tz now n : Int) (q : Option String) (uid : Nat) (db : Store)
    (hq : queryDays q = some n) (hn : 1 ≤ n) (hacc : startAccepted tz now n = true) :
    getTaskThroughput tz now q uid (some db)
      = .json (taskThroughput tz now db.currentDate (some n) uid db.tasks) := by
  unfold getTaskThroughput
  rw [windowQuery_accepted tz now n q _ hq hn hacc]
  simp only [taskThroughputHandler, hq]

theorem getMoodFocus_eq (tz now n : Int) (q : Option String) (uid : Nat) (db : Store)
    (hq : queryDays q = some n) (hn : 1 ≤ n) (hacc : startAccepted tz now n = true) :
    getMoodFocus tz now q uid (some db)
      = .json (moodFocus tz now (some n) uid db.moods db.sessions) := by
  unfold getMoodFocus
  rw [windowQuery_accepted tz now n q _ hq hn hacc]
  simp only [moodFocusHandler, hq]

theorem toISODate_pgDate_west (tz d : Int) (h1 : -1440 < tz) (h2 : tz ≤ 0) :
    toISODate (pgDate tz d) = isoDate d := by
  unfold toISODate
  rw [utcDay_pgDate]
  have : (-(60 * tz)) / 86400 = 0 := by omega
  rw [this, add_zero]

/-- C18 as stated fails.  On a UTC server, at noon of 2024-06-10, the parameter
`days=3000000` parses to the positive integer 3000000, but the day `today - 2999999` is
before 4714-11-24 BC, the first day of the dates of the database: the query that carries the
start of the window is rejected and each of the three routes answers 500, whatever the
database holds, instead of computing a window.  The largest value that is served at that
instant is 2460473. -/
theorem days_out_of_range_counterexample :
    queryDays (some "3000000") = some 3000000 ∧
    localDay 0 (ymd 2024 6 10 * 86400 + 43200) - (3000000 - 1) < ymd (-4713) 11 24 ∧
    startAccepted 0 (ymd 2024 6 10 * 86400 + 43200) 3000000 = false ∧
    startAccepted 0 (ymd 2024 6 10 * 86400 + 43200) 2460473 = true ∧
    startAccepted 0 (ymd 2024 6 10 * 86400 + 43200) 2460474 = false ∧
    (∀ (uid : Nat) (db : Store),
      getFocusMinutes 0 (ymd 2024 6 10 * 86400 + 43200) (some "3000000") uid (some db)
        = .serverError ∧
      getMoodFocus 0 (ymd 2024 6 10 * 86400 + 43200) (some "3000000") uid (some db)
        = .serverError ∧
      getTaskThroughput 0 (ymd 2024 6 10 * 86400 + 43200) (some "3000000") uid (some db)
        = .serverError) := by
  have hq : queryDays (some "3000000") = some 3000000 := by decide
  have hacc : startAccepted 0 (ymd 2024 6 10 * 86400 + 43200) 3000000 = false := by decide
  refine ⟨hq, by decide, hacc, by decide, by decide, ?_⟩
  intro uid db
  have hw := windowQuery_rejected 0 (ymd 2024 6 10 * 86400 + 43200) 3000000 (some "3000000")
    (some db) hq (by decide) hacc
  simp only [getFocusMinutes, getMoodFocus, getTaskThroughput, hw, focusMinutesHandler,
    moodFocusHandler, taskThroughputHandler, and_self]

/-- C18, amended.  The `days` parameter of the three analytics routes defaults to 7: when
the query parameter is absent, does not parse to an integer, or parses to 0, each route
answers exactly what it answers for `days=7`.  When it parses to an integer `n ≥ 1` and the
start of the window is accepted (a valid `Date` whose day is not before the first day of the
dates of the database), the window starts at local midnight of the day `today - (n - 1)`,
sent to the database as the wall-clock time 00:00:00 of that day, and each route answers, on
an available database, with the records computed from that start: the rows of the date series
from `today - (n - 1)` for focus-minutes and task-throughput, the rows of the entries logged
from 00:00:00 of `today - (n - 1)` for mood-focus.  When the start is not accepted, each
route answers 500.  The two groups of closed equations spell out `parseInt` on strings (the
white space it skips, the prefix it reads) and the two ends of the range of accepted
starts. -/
theorem days_defaults_to_seven (tz now : Int) (q : Option String) (uid : Nat)
    (db : Option Store) :
    ((queryDays q = none ∨ queryDays q = some 0) →
      getFocusMinutes tz now q uid db = getFocusMinutes tz now (some "7") uid db ∧
      getMoodFocus tz now q uid db = getMoodFocus tz now (some "7") uid db ∧
      getTaskThroughput tz now q uid db = getTaskThroughput tz now (some "7") uid db) ∧
    queryDays none = none ∧ queryDays (some "") = none ∧ queryDays (some "week") = none ∧
    queryDays (some "0") = some 0 ∧ queryDays (some "7") = some 7 ∧
    queryDays (some "14") = some 14 ∧
    (queryDays (some " 14") = some 14 ∧ queryDays (some "\t\n\r3") = some 3 ∧
      queryDays (some "\x0b3") = some 3 ∧ queryDays (some "\x0c3") = some 3 ∧
      queryDays (some "\xa03") = some 3 ∧
      queryDays (some (String.mk [Char.ofNat 8195, '3'])) = some 3 ∧
      queryDays (some (String.mk [Char.ofNat 12288, '3'])) = some 3 ∧
      queryDays (some (String.mk [Char.ofNat 65279, '3'])) = some 3 ∧
      queryDays (some (String.mk [Char.ofNat 8203, '3'])) = none ∧
      queryDays (some "12px") = some 12 ∧ queryDays (some "3.9") = some 3 ∧
      queryDays (some "1e3") = some 1 ∧ queryDays (some "+5") = some 5 ∧
      queryDays (some "-3") = some (-3) ∧ queryDays (some "0x1A") = some 26 ∧
      queryDays (some "0x") = none ∧ queryDays (some "-0") = some 0 ∧
      queryDays (some "5,6") = some 5) ∧
    (startValid 0 (ymd 2024 6 10 * 86400 + 43200) (-99980114) = true ∧
      startValid 0 (ymd 2024 6 10 * 86400 + 43200) (-99980115) = false ∧
      startAccepted 0 (ymd 2024 6 10 * 86400 + 43200) 2460473 = true ∧
      startAccepted 0 (ymd 2024 6 10 * 86400 + 43200) 2460474 = false) ∧
    (∀ (n : Int) (d : Store), queryDays q = some n → 1 ≤ n → startAccepted tz now n = true →
      db = some d →
      startDate tz now (resolveDays (queryDays q))
        = localMidnight tz (localDay tz now - (n - 1)) ∧
      pgParam tz (startDate tz now (resolveDays (queryDays q)))
        = (localDay tz now - (n - 1)) * 86400 ∧
      getFocusMinutes tz now q uid db
        = .json (focusFilled tz
            (focusRows d.sessions uid (localDay tz now - (n - 1)) d.currentDate)) ∧
      getMoodFocus tz now q uid db
        = .json (moodData
            (moodRows d.moods d.sessions uid ((localDay tz now - (n - 1)) * 86400))) ∧
      getTaskThroughput tz now q uid db
        = .json (taskFilled tz
            (taskRows d.tasks uid (localDay tz now - (n - 1)) d.currentDate))) ∧
    (∀ n : Int, queryDays q = some n → 1 ≤ n → startAccepted tz now n = false →
      getFocusMinutes tz now q uid db = .serverError ∧
      getMoodFocus tz now q uid db = .serverError ∧
      getTaskThroughput tz now q uid db = .serverError) := by
  have h7 : queryDays (some "7") = some 7 := by decide
  have hparse : queryDays (some "") = none ∧ queryDays (some "week") = none ∧
      queryDays (some "0") = some 0 ∧ queryDays (some "14") = some 14 := by decide
  refine ⟨?_, rfl, hparse.1, hparse.2.1, hparse.2.2.1, h7, hparse.2.2.2, ?_, ?_, ?_, ?_⟩
  · intro h
    have hr : resolveDays (queryDays q) = resolveDays (queryDays (some "7")) := by
      rcases h with h | h <;> rw [h, h7] <;> rfl
    simp only [getFocusMinutes, getMoodFocus, getTaskThroughput, windowQuery,
      focusMinutesHandler, moodFocusHandler, taskThroughputHandler, focusMinutes,
      moodFocus, taskThroughput, hr, and_self]
  · decide
  · decide
  · intro n d hq hn hacc hdb
    subst hdb
    refine ⟨?_, ?_, ?_, ?_, ?_⟩
    · rw [hq, resolveDays_pos n hn]
      rfl
    · rw [hq, resolveDays_pos n hn, pgParam_startDate]
    · rw [getFocusMinutes_eq tz now n q uid d hq hn hacc]
      unfold focusMinutes
      simp only [resolveDays_pos n hn, pgParam_startDate_date]
    · rw [getMoodFocus_eq tz now n q uid d hq hn hacc]
      unfold moodFocus
      simp only [resolveDays_pos n hn, pgParam_startDate]
    · rw [getTaskThroughput_eq tz now n q uid d hq hn hacc]
      unfold taskThroughput
      simp only [resolveDays_pos n hn, pgParam_startDate_date]
  · intro n hq hn hacc
    have hw := windowQuery_rejected tz now n q db hq hn hacc
    simp only [getFocusMinutes, getMoodFocus, getTaskThroughput, hw]
    cases db <;> exact ⟨rfl, rfl, rfl⟩

/-- Witness of the amended C18: `days=3` on a server at UTC+05:30, at 12:00 local time of
2024-06-10, for a user with one work session of 1500 seconds on 2024-06-09: the window starts
on 2024-06-08. -/
theorem days_defaults_to_seven_witness :
    queryDays (some "3") = some 3 ∧
    startAccepted 330 (ymd 2024 6 10 * 86400 + 23400) 3 = true ∧
    pgParam 330 (startDate 330 (ymd 2024 6 10 * 86400 + 23400) (resolveDays (queryDays (some "3"))))
      = ymd 2024 6 8 * 86400 ∧
    getTaskThroughput 330 (ymd 2024 6 10 * 86400 + 23400) (some "3") 1
        (some { sessions := [], tasks := [], moods := [], currentDate := ymd 2024 6 10 })
      = .json (taskFilled 330 (taskRows [] 1 (ymd 2024 6 8) (ymd 2024 6 10))) := by
  have h := (days_defaults_to_seven 330 (ymd 2024 6 10 * 86400 + 23400) (some "3") 1
    (some { sessions := [], tasks := [], moods := [], currentDate := ymd 2024 6 10 })).2.2.2.2.2.2.2.2.2.1
    3 { sessions := [], tasks := [], moods := [], currentDate := ymd 2024 6 10 }
    (by decide) (by decide) (by decide) rfl
  exact ⟨by decide, by decide, h.2.1.trans (by decide), h.2.2.2.2⟩

/-- C1 as stated fails.  First, on a UTC server at noon of 2024-06-10, `days=3000000` is a
positive integer for which the two routes return no record at all: the start of the window is
before the first day of the dates of the database, the query is rejected and the answer is
500.  Second, on a server at UTC+05:30, at 12:00 local time of 2024-06-10, `days=7` gives 7
records dated 2024-06-03 to 2024-06-09: none is dated today. -/
theorem window_series_counterexample :
    queryDays (some "3000000") = some 3000000 ∧
    (∀ (uid : Nat) (db : Store),
      (getFocusMinutes 0 (ymd 2024 6 10 * 86400 + 43200) (some "3000000") uid (some db)).rows
        = [] ∧
      (getTaskThroughput 0 (ymd 2024 6 10 * 86400 + 43200) (some "3000000") uid (some db)).rows
        = []) ∧
    localDay 330 (ymd 2024 6 10 * 86400 + 23400) = ymd 2024 6 10 ∧
    isoDate (ymd 2024 6 10) = "2024-06-10" ∧
    (getTaskThroughput 330 (ymd 2024 6 10 * 86400 + 23400) (some "7") 1
        (some { sessions := [], tasks := [], moods := [], currentDate := ymd 2024 6 10 })).rows.map
        (fun r => r.date)
      = ["2024-06-03", "2024-06-04", "2024-06-05", "2024-06-06", "2024-06-07", "2024-06-08",
         "2024-06-09"] := by
  have hq : queryDays (some "3000000") = some 3000000 := by decide
  have hacc : startAccepted 0 (ymd 2024 6 10 * 86400 + 43200) 3000000 = false := by decide
  refine ⟨hq, ?_, by decide, by decide, ?_⟩
  · intro uid db
    have hw := windowQuery_rejected 0 (ymd 2024 6 10 * 86400 + 43200) 3000000 (some "3000000")
      (some db) hq (by decide) hacc
    simp only [getFocusMinutes, getTaskThroughput, hw, focusMinutesHandler,
      taskThroughputHandler, Response.rows, and_self]
  · rw [getTaskThroughput_eq 330 (ymd 2024 6 10 * 86400 + 23400) 7 (some "7") 1 _ (by decide)
      (by decide) (by decide)]
    decide

/-- C1, amended.  For `days = n ≥ 1` whose window start is accepted (a valid `Date` whose
day is not before the first day of the dates of the database), on an available database whose
`CURRENT_DATE` is the server's local calendar day, focus-minutes and task-throughput each
answer with exactly `n` records, whatever the stored sessions and tasks: the `i`-th one is the
record of the bucket day `today - (n - 1) + i`, so that the days run from `today - (n - 1)` to
`today` in strictly ascending order; the answer is the same for two request instants of the
same calendar day; and on a server whose zone is UTC or west of it the `date` of each record
is the ISO date of its day. -/
theorem window_series_records (tz now n : Int) (q : Option String) (uid : Nat) (db : Store)
    (hq : queryDays q = some n) (hn : 1 ≤ n) (hacc : startAccepted tz now n = true)
    (hcur : db.currentDate = localDay tz now) :
    ∃ (fr : List FocusRecord) (tr : List TaskRecord),
      getFocusMinutes tz now q uid (some db) = .json fr ∧
      getTaskThroughput tz now q uid (some db) = .json tr ∧
      (fr.length : Int) = n ∧ (tr.length : Int) = n ∧
      fr.map (fun r => r.date)
        = (List.range n.toNat).map (fun (i : Nat) =>
            toISODate (pgDate tz (localDay tz now - (n - 1) + (i : Int)))) ∧
      tr.map (fun r => r.date)
        = (List.range n.toNat).map (fun (i : Nat) =>
            toISODate (pgDate tz (localDay tz now - (n - 1) + (i : Int)))) ∧
      List.Pairwise (fun a b => a < b) ((List.range n.toNat).map (fun (i : Nat) =>
        localDay tz now - (n - 1) + (i : Int))) ∧
      ((List.range n.toNat).map (fun (i : Nat) => localDay tz now - (n - 1) + (i : Int))).head?
        = some (localDay tz now - (n - 1)) ∧
      ((List.range n.toNat).map (fun (i : Nat) =>
        localDay tz now - (n - 1) + (i : Int))).getLast? = some (localDay tz now) ∧
      (∀ now2 : Int, localDay tz now2 = localDay tz now → startAccepted tz now2 n = true →
        getFocusMinutes tz now2 q uid (some db) = .json fr ∧
        getTaskThroughput tz now2 q uid (some db) = .json tr) ∧
      (-1440 < tz → tz ≤ 0 →
        fr.map (fun r => r.date)
          = (List.range n.toNat).map (fun (i : Nat) =>
              isoDate (localDay tz now - (n - 1) + (i : Int))) ∧
        tr.map (fun r => r.date)
          = (List.range n.toNat).map (fun (i : Nat) =>
              isoDate (localDay tz now - (n - 1) + (i : Int)))) := by
  have h := series_days_of_window tz now db.currentDate n uid db.sessions db.tasks hn hcur
  obtain ⟨h1, h2, h3, h4, _, h6, h7⟩ := h
  refine ⟨_, _, getFocusMinutes_eq tz now n q uid db hq hn hacc,
    getTaskThroughput_eq tz now n q uid db hq hn hacc, h1, h2, h3, h4, ?_, ?_, ?_, ?_, h7⟩
  · rw [List.pairwise_map]
    refine List.Pairwise.imp_of_mem ?_ (List.pairwise_lt_range n.toNat)
    intro a b _ _ hab
    omega
  · obtain ⟨m, hm⟩ : ∃ m : Nat, n.toNat = m + 1 := ⟨n.toNat - 1, by omega⟩
    rw [hm, List.range_succ_eq_map]
    simp
  · obtain ⟨m, hm⟩ : ∃ m : Nat, n.toNat = m + 1 := ⟨n.toNat - 1, by omega⟩
    rw [hm, List.range_succ]
    simp
    omega
  · intro now2 hd hacc2
    rw [getFocusMinutes_eq tz now2 n q uid db hq hn hacc2,
      getTaskThroughput_eq tz now2 n q uid db hq hn hacc2]
    have := h6 now2 hd
    rw [this.1, this.2]
    exact ⟨rfl, rfl⟩

/-- Witness of the amended C1: `days=7` on a UTC server at noon of 2024-06-10. -/
theorem window_series_records_witness :
    queryDays (some "7") = some 7 ∧
    startAccepted 0 (ymd 2024 6 10 * 86400 + 43200) 7 = true ∧
    ∃ (fr : List FocusRecord) (tr : List TaskRecord),
      getFocusMinutes 0 (ymd 2024 6 10 * 86400 + 43200) (some "7") 1
          (some { sessions := [], tasks := [], moods := [], currentDate := ymd 2024 6 10 })
        = .json fr ∧
      getTaskThroughput 0 (ymd 2024 6 10 * 86400 + 43200) (some "7") 1
          (some { sessions := [], tasks := [], moods := [], currentDate := ymd 2024 6 10 })
        = .json tr ∧
      (fr.length : Int) = 7 ∧ (tr.length : Int) = 7 ∧
      fr.map (fun r => r.date)
        = ["2024-06-04", "2024-06-05", "2024-06-06", "2024-06-07", "2024-06-08", "2024-06-09",
           "2024-06-10"] := by
  obtain ⟨fr, tr, h1, h2, h3, h4, _, _, _, _, _, _, h11⟩ :=
    window_series_records 0 (ymd 2024 6 10 * 86400 + 43200) 7 (some "7") 1
      { sessions := [], tasks := [], moods := [], currentDate := ymd 2024 6 10 }
      (by decide) (by decide) (by decide) (by decide)
  exact ⟨by decide, by decide, fr, tr, h1, h2, h3, h4,
    ((h11 (by decide) (by decide)).1).trans (by decide)⟩

/-- C4 at a failing input.  On a server at UTC+05:30, for a request at 12:00 local time of
2024-06-10 with `days=7`, by a user whose only work session (1500 seconds) was completed on
2024-06-09 and who has no task: today, 2024-06-10, is a day of the window without any event,
and no record of either answer is dated `2024-06-10`; and 2024-06-08, another day without any
event, is the date of a record that carries 25 minutes. -/
theorem gap_day_east_of_utc :
    localDay 330 (ymd 2024 6 10 * 86400 + 23400) = ymd 2024 6 10 ∧
    isoDate (ymd 2024 6 10) = "2024-06-10" ∧ isoDate (ymd 2024 6 8) = "2024-06-08" ∧
    specWorkSeconds
        [{ user_id := 1, session_type := "work", duration := 1500,
           completed_at := some (ymd 2024 6 9 * 86400 + 36000) }] 1 (ymd 2024 6 10) = 0 ∧
    specWorkSeconds
        [{ user_id := 1, session_type := "work", duration := 1500,
           completed_at := some (ymd 2024 6 9 * 86400 + 36000) }] 1 (ymd 2024 6 8) = 0 ∧
    getFocusMinutes 330 (ymd 2024 6 10 * 86400 + 23400) (some "7") 1
        (some { sessions := [{ user_id := 1, session_type := "work", duration := 1500,
                               completed_at := some (ymd 2024 6 9 * 86400 + 36000) }],
                tasks := [], moods := [], currentDate := ymd 2024 6 10 })
      = .json [{ date := "2024-06-03", minutes := 0 }, { date := "2024-06-04", minutes := 0 },
               { date := "2024-06-05", minutes := 0 }, { date := "2024-06-06", minutes := 0 },
               { date := "2024-06-07", minutes := 0 }, { date := "2024-06-08", minutes := 25 },
               { date := "2024-06-09", minutes := 0 }] ∧
    getTaskThroughput 330 (ymd 2024 6 10 * 86400 + 23400) (some "7") 1
        (some { sessions := [{ user_id := 1, session_type := "work", duration := 1500,
                               completed_at := some (ymd 2024 6 9 * 86400 + 36000) }],
                tasks := [], moods := [], currentDate := ymd 2024 6 10 })
      = .json [{ date := "2024-06-03", created := 0, completed := 0 },
               { date := "2024-06-04", created := 0, completed := 0 },
               { date := "2024-06-05", created := 0, completed := 0 },
               { date := "2024-06-06", created := 0, completed := 0 },
               { date := "2024-06-07", created := 0, completed := 0 },
               { date := "2024-06-08", created := 0, completed := 0 },
               { date := "2024-06-09", created := 0, completed := 0 }] := by
  refine ⟨by decide, by decide, by decide, by decide, by decide, ?_, ?_⟩
  · rw [getFocusMinutes_eq 330 (ymd 2024 6 10 * 86400 + 23400) 7 (some "7") 1 _ (by decide)
      (by decide) (by decide), focusMinutes_eq _ _ _ _ _ _ (by decide)]
    simp only [mathRound_div60]
    exact congrArg Response.json (by decide)
  · rw [getTaskThroughput_eq 330 (ymd 2024 6 10 * 86400 + 23400) 7 (some "7") 1 _ (by decide)
      (by decide) (by decide)]
    exact congrArg Response.json (by decide)

/-- C5 at a failing input, the scenario of the claim on a server at UTC+05:30: one work
session of 1500 seconds completed on 2024-06-08, a request at 12:00 local time of 2024-06-10
with `days=7`.  The work sessions of 2024-06-08 sum to 1500 seconds, that is 25 minutes, but
the record dated `2024-06-08` carries 0 and the 25 minutes are under `2024-06-07`, a day on
which the user has no session. -/
theorem focus_value_east_of_utc :
    localDay 330 (ymd 2024 6 10 * 86400 + 23400) = ymd 2024 6 10 ∧
    isoDate (ymd 2024 6 8) = "2024-06-08" ∧ isoDate (ymd 2024 6 7) = "2024-06-07" ∧
    specWorkSeconds
        [{ user_id := 1, session_type := "work", duration := 1500,
           completed_at := some (ymd 2024 6 8 * 86400 + 36000) }] 1 (ymd 2024 6 8) = 1500 ∧
    specWorkSeconds
        [{ user_id := 1, session_type := "work", duration := 1500,
           completed_at := some (ymd 2024 6 8 * 86400 + 36000) }] 1 (ymd 2024 6 7) = 0 ∧
    ((getFocusMinutes 330 (ymd 2024 6 10 * 86400 + 23400) (some "7") 1
        (some { sessions := [{ user_id := 1, session_type := "work", duration := 1500,
                               completed_at := some (ymd 2024 6 8 * 86400 + 36000) }],
                tasks := [], moods := [], currentDate := ymd 2024 6 10 })).rows.filter
        (fun r => decide (r.date = "2024-06-08"))).map (fun r => r.minutes) = [0] ∧
    ((getFocusMinutes 330 (ymd 2024 6 10 * 86400 + 23400) (some "7") 1
        (some { sessions := [{ user_id := 1, session_type := "work", duration := 1500,
                               completed_at := some (ymd 2024 6 8 * 86400 + 36000) }],
                tasks := [], moods := [], currentDate := ymd 2024 6 10 })).rows.filter
        (fun r => decide (r.date = "2024-06-07"))).map (fun r => r.minutes) = [25] := by
  have h : getFocusMinutes 330 (ymd 2024 6 10 * 86400 + 23400) (some "7") 1
        (some { sessions := [{ user_id := 1, session_type := "work", duration := 1500,
                               completed_at := some (ymd 2024 6 8 * 86400 + 36000) }],
                tasks := [], moods := [], currentDate := ymd 2024 6 10 })
      = .json [{ date := "2024-06-03", minutes := 0 }, { date := "2024-06-04", minutes := 0 },
               { date := "2024-06-05", minutes := 0 }, { date := "2024-06-06", minutes := 0 },
               { date := "2024-06-07", minutes := 25 }, { date := "2024-06-08", minutes := 0 },
               { date := "2024-06-09", minutes := 0 }] := by
    rw [getFocusMinutes_eq 330 (ymd 2024 6 10 * 86400 + 23400) 7 (some "7") 1 _ (by decide)
      (by decide) (by decide), focusMinutes_eq _ _ _ _ _ _ (by decide)]
    simp only [mathRound_div60]
    exact congrArg Response.json (by decide)
  rw [h]
  decide

/-- C6 at a failing input, the scenario of the claim on a server at UTC+05:30: a task created
on 2024-06-09 and completed (updated) on 2024-06-10, a request at 12:00 local time of
2024-06-10 with `days=7`.  The record dated `2024-06-09` reports `created = 0` and carries
the completion of 2024-06-10, the creation is reported under `2024-06-08`, and no record is
dated `2024-06-10`. -/
theorem task_counts_east_of_utc :
    localDay 330 (ymd 2024 6 10 * 86400 + 23400) = ymd 2024 6 10 ∧
    specCreated
        [{ user_id := 1, status := "completed",
           created_at := some (ymd 2024 6 9 * 86400 + 3600),
           updated_at := some (ymd 2024 6 10 * 86400 + 7200) }] 1 (ymd 2024 6 9) = 1 ∧
    specCompleted
        [{ user_id := 1, status := "completed",
           created_at := some (ymd 2024 6 9 * 86400 + 3600),
           updated_at := some (ymd 2024 6 10 * 86400 + 7200) }] 1 (ymd 2024 6 10) = 1 ∧
    getTaskThroughput 330 (ymd 2024 6 10 * 86400 + 23400) (some "7") 1
        (some { sessions := [],
                tasks := [{ user_id := 1, status := "completed",
                            created_at := some (ymd 2024 6 9 * 86400 + 3600),
                            updated_at := some (ymd 2024 6 10 * 86400 + 7200) }],
                moods := [], currentDate := ymd 2024 6 10 })
      = .json [{ date := "2024-06-03", created := 0, completed := 0 },
               { date := "2024-06-04", created := 0, completed := 0 },
               { date := "2024-06-05", created := 0, completed := 0 },
               { date := "2024-06-06", created := 0, completed := 0 },
               { date := "2024-06-07", created := 0, completed := 0 },
               { date := "2024-06-08", created := 1, completed := 0 },
               { date := "2024-06-09", created := 0, completed := 1 }] := by
  refine ⟨by decide, by decide, by decide, ?_⟩
  rw [getTaskThroughput_eq 330 (ymd 2024 6 10 * 86400 + 23400) 7 (some "7") 1 _ (by decide)
    (by decide) (by decide)]
  exact congrArg Response.json (by decide)

/-- C26 at failing inputs.  The string `'abc'` is truthy, the comparison `'abc' <= 0` is
false (the string converts to `NaN`) and its text is not the text of an `INTEGER`: the guard
lets it through, the `UPDATE` is issued with it and rejected by the database, and the answer
is the 500 of the `catch` block, not the 400, although the value is not a positive number.
A string that converts to `NaN` but that the database reads as a negative integer (`'-0x10'`,
which a PostgreSQL that accepts hexadecimal integers reads as -16) passes the guard as well,
and the `UPDATE` then lowers `points` and `total_points` by 16.  The other parts record where
the guard does what the claim says: a falsy value, a value that compares `<= 0`, a missing or
null value and a number that is 0 or negative are answered 400 with the row unchanged, and a
JSON number never lowers `points` or `total_points`. -/
theorem award_points_guard_bypass :
    (∀ (ts : Int) (r : GamRow),
      awardPoints ts (some (.other true false none)) (some r) = (some r, .serverError) ∧
      (awardPoints ts (some (.other true false none)) (some r)).2.status = 500) ∧
    awardPoints 0 (some (.other true false (some (-16))))
        (some { user_id := 1, level := 2, points := 100, total_points := 1100, streak := 0,
                last_activity_date := none, unlocked_badges := [], updated_at := none })
      = (some { user_id := 1, level := 2, points := 84, total_points := 1084, streak := 0,
                last_activity_date := none, unlocked_badges := [], updated_at := some 0 },
         .row (some { user_id := 1, level := 2, points := 84, total_points := 1084,
                      streak := 0, last_activity_date := none, unlocked_badges := [],
                      updated_at := some 0 })) ∧
    (∀ (ts : Int) (row : Option GamRow) (l : Bool) (i : Option Int),
      awardPoints ts (some (.other false l i)) row = (row, .badRequest "Invalid points value")) ∧
    (∀ (ts : Int) (row : Option GamRow) (t : Bool) (i : Option Int),
      awardPoints ts (some (.other t true i)) row = (row, .badRequest "Invalid points value")) ∧
    (∀ (ts : Int) (row : Option GamRow),
      awardPoints ts none row = (row, .badRequest "Invalid points value")) ∧
    (∀ (ts : Int) (row : Option GamRow) (q : ℚ), q ≤ 0 →
      awardPoints ts (some (.num q)) row = (row, .badRequest "Invalid points value")) ∧
    (∀ (ts : Int) (q : ℚ) (r : GamRow),
      ∃ r2, (awardPoints ts (some (.num q)) (some r)).1 = some r2 ∧
        r.points ≤ r2.points ∧ r.total_points ≤ r2.total_points) ∧
    (∀ (ts : Int) (q : ℚ) (row : Option GamRow),
      (awardPoints ts (some (.num q)) row).2.status ≠ 400 → 0 < q) := by
  refine ⟨fun ts r => ⟨rfl, rfl⟩, by decide, fun ts row l i => ?_, fun ts row t i => ?_,
    fun ts row => rfl, fun ts row q hq => ?_, fun ts q r => ?_, fun ts q row h => ?_⟩
  · simp [awardPoints, JsPoints.truthy]
  · simp [awardPoints, JsPoints.leZero]
  · exact ((award_points_guard_numbers ts (some q) row).1 (Or.inr ⟨q, rfl, hq⟩)).1
  · exact (award_points_guard_numbers ts (some q) (some r)).2.1 r rfl
  · obtain ⟨q2, h2, h3⟩ := (award_points_guard_numbers ts (some q) row).2.2.2.1 h
    cases h2
    exact h3

end FocusWave
